import Mathlib

/-!
QuantumVk command recorder: state tracking, dirty bits, descriptor-set layouts
and draw-time resolution.

A shallow embedding of the inline state setters of `Vulkan::CommandBuffer`
(`src/vulkan/command_buffer.hpp`), of the immutable-sampler helpers of
`DescriptorSetLayout` (`src/vulkan/graphics/descriptor_set.hpp`) and of the
image helpers of `quantumvk/vulkan/images/image.hpp`, together with models of
the parts the headers only declare (the descriptor-set ring allocator, the
bindless pool, state save and restore, the pipeline resolver and the draw-time
resolution), and the properties proved about them.

Conventions.
* Unsigned machine integers are natural numbers; a store into a bit-field of
  width `w` keeps the value modulo `2 ^ w`, a store into a `uint8_t` keeps it
  modulo `2 ^ 8`.
* `bool` arguments are `Bool`; where C++ promotes them to an integer the model
  uses `Bool.toNat`.
* A `float` is represented by its 32-bit IEEE-754 pattern, and `f32_ne` is the
  C++ operator `!=` on such patterns.
* The recorder is a value of type `CommandBuffer`; a member function is a
  function from the recorder before the call to the recorder after it.
* A definition whose body is not in the headers is modelled from the design
  document; its comment says so and names the section it follows.
-/

namespace Vulkan

/-! ## `CommandBufferDirtyBits` -/

def COMMAND_BUFFER_DIRTY_STATIC_STATE_BIT : Nat := 1 <<< 0
def COMMAND_BUFFER_DIRTY_PIPELINE_BIT : Nat := 1 <<< 1
def COMMAND_BUFFER_DIRTY_VIEWPORT_BIT : Nat := 1 <<< 2
def COMMAND_BUFFER_DIRTY_SCISSOR_BIT : Nat := 1 <<< 3
def COMMAND_BUFFER_DIRTY_DEPTH_BIAS_BIT : Nat := 1 <<< 4
def COMMAND_BUFFER_DIRTY_STENCIL_REFERENCE_BIT : Nat := 1 <<< 5
def COMMAND_BUFFER_DIRTY_STATIC_VERTEX_BIT : Nat := 1 <<< 6
def COMMAND_BUFFER_DIRTY_PUSH_CONSTANTS_BIT : Nat := 1 <<< 7

def COMMAND_BUFFER_DYNAMIC_BITS : Nat :=
  COMMAND_BUFFER_DIRTY_VIEWPORT_BIT ||| COMMAND_BUFFER_DIRTY_SCISSOR_BIT |||
  COMMAND_BUFFER_DIRTY_DEPTH_BIAS_BIT |||
  COMMAND_BUFFER_DIRTY_STENCIL_REFERENCE_BIT

/-! ## `PipelineState` -/

def COMPARE_OP_BITS : Nat := 3
def STENCIL_OP_BITS : Nat := 3
def BLEND_FACTOR_BITS : Nat := 5
def BLEND_OP_BITS : Nat := 3
def CULL_MODE_BITS : Nat := 2
def FRONT_FACE_BITS : Nat := 1

/-- The named members of `PipelineState::state`, in declaration order. -/
structure PipelineState where
  depth_write : Nat
  depth_test : Nat
  blend_enable : Nat
  cull_mode : Nat
  front_face : Nat
  depth_bias_enable : Nat
  depth_compare : Nat
  stencil_test : Nat
  stencil_front_fail : Nat
  stencil_front_pass : Nat
  stencil_front_depth_fail : Nat
  stencil_front_compare_op : Nat
  stencil_back_fail : Nat
  stencil_back_pass : Nat
  stencil_back_depth_fail : Nat
  stencil_back_compare_op : Nat
  alpha_to_coverage : Nat
  alpha_to_one : Nat
  sample_shading : Nat
  src_color_blend : Nat
  dst_color_blend : Nat
  color_blend_op : Nat
  src_alpha_blend : Nat
  dst_alpha_blend : Nat
  alpha_blend_op : Nat
  primitive_restart : Nat
  topology : Nat
  wireframe : Nat
  subgroup_control_size : Nat
  subgroup_full_group : Nat
  subgroup_minimum_size_log2 : Nat
  subgroup_maximum_size_log2 : Nat
  conservative_raster : Nat
  write_mask : Nat
deriving DecidableEq, Repr

/-- Names of the members of `PipelineState::state`; the macro `SET_STATIC_STATE`
pastes such a name into `pipeline_state.static_state.state.<name>`. -/
inductive StaticField where
  | depth_write
  | depth_test
  | blend_enable
  | cull_mode
  | front_face
  | depth_bias_enable
  | depth_compare
  | stencil_test
  | stencil_front_fail
  | stencil_front_pass
  | stencil_front_depth_fail
  | stencil_front_compare_op
  | stencil_back_fail
  | stencil_back_pass
  | stencil_back_depth_fail
  | stencil_back_compare_op
  | alpha_to_coverage
  | alpha_to_one
  | sample_shading
  | src_color_blend
  | dst_color_blend
  | color_blend_op
  | src_alpha_blend
  | dst_alpha_blend
  | alpha_blend_op
  | primitive_restart
  | topology
  | wireframe
  | subgroup_control_size
  | subgroup_full_group
  | subgroup_minimum_size_log2
  | subgroup_maximum_size_log2
  | conservative_raster
  | write_mask
deriving DecidableEq, Repr

/-- Declared width of each member: the bit-field widths, and 32 for the
plain `uint32_t write_mask`. -/
def StaticField.bits : StaticField → Nat
  | .depth_write => 1
  | .depth_test => 1
  | .blend_enable => 1
  | .cull_mode => CULL_MODE_BITS
  | .front_face => FRONT_FACE_BITS
  | .depth_bias_enable => 1
  | .depth_compare => COMPARE_OP_BITS
  | .stencil_test => 1
  | .stencil_front_fail => STENCIL_OP_BITS
  | .stencil_front_pass => STENCIL_OP_BITS
  | .stencil_front_depth_fail => STENCIL_OP_BITS
  | .stencil_front_compare_op => COMPARE_OP_BITS
  | .stencil_back_fail => STENCIL_OP_BITS
  | .stencil_back_pass => STENCIL_OP_BITS
  | .stencil_back_depth_fail => STENCIL_OP_BITS
  | .stencil_back_compare_op => COMPARE_OP_BITS
  | .alpha_to_coverage => 1
  | .alpha_to_one => 1
  | .sample_shading => 1
  | .src_color_blend => BLEND_FACTOR_BITS
  | .dst_color_blend => BLEND_FACTOR_BITS
  | .color_blend_op => BLEND_OP_BITS
  | .src_alpha_blend => BLEND_FACTOR_BITS
  | .dst_alpha_blend => BLEND_FACTOR_BITS
  | .alpha_blend_op => BLEND_OP_BITS
  | .primitive_restart => 1
  | .topology => 4
  | .wireframe => 1
  | .subgroup_control_size => 1
  | .subgroup_full_group => 1
  | .subgroup_minimum_size_log2 => 3
  | .subgroup_maximum_size_log2 => 3
  | .conservative_raster => 1
  | .write_mask => 32

/-- Reading `state.<name>`. -/
def PipelineState.read (s : PipelineState) : StaticField → Nat
  | .depth_write => s.depth_write
  | .depth_test => s.depth_test
  | .blend_enable => s.blend_enable
  | .cull_mode => s.cull_mode
  | .front_face => s.front_face
  | .depth_bias_enable => s.depth_bias_enable
  | .depth_compare => s.depth_compare
  | .stencil_test => s.stencil_test
  | .stencil_front_fail => s.stencil_front_fail
  | .stencil_front_pass => s.stencil_front_pass
  | .stencil_front_depth_fail => s.stencil_front_depth_fail
  | .stencil_front_compare_op => s.stencil_front_compare_op
  | .stencil_back_fail => s.stencil_back_fail
  | .stencil_back_pass => s.stencil_back_pass
  | .stencil_back_depth_fail => s.stencil_back_depth_fail
  | .stencil_back_compare_op => s.stencil_back_compare_op
  | .alpha_to_coverage => s.alpha_to_coverage
  | .alpha_to_one => s.alpha_to_one
  | .sample_shading => s.sample_shading
  | .src_color_blend => s.src_color_blend
  | .dst_color_blend => s.dst_color_blend
  | .color_blend_op => s.color_blend_op
  | .src_alpha_blend => s.src_alpha_blend
  | .dst_alpha_blend => s.dst_alpha_blend
  | .alpha_blend_op => s.alpha_blend_op
  | .primitive_restart => s.primitive_restart
  | .topology => s.topology
  | .wireframe => s.wireframe
  | .subgroup_control_size => s.subgroup_control_size
  | .subgroup_full_group => s.subgroup_full_group
  | .subgroup_minimum_size_log2 => s.subgroup_minimum_size_log2
  | .subgroup_maximum_size_log2 => s.subgroup_maximum_size_log2
  | .conservative_raster => s.conservative_raster
  | .write_mask => s.write_mask

/-- Assignment `state.<name> = value`: the value is converted to the member,
that is, reduced modulo two to the power of its width. -/
def PipelineState.write (s : PipelineState) (f : StaticField) (value : Nat) : PipelineState :=
  let v := value % 2 ^ f.bits
  match f with
  | .depth_write => { s with depth_write := v }
  | .depth_test => { s with depth_test := v }
  | .blend_enable => { s with blend_enable := v }
  | .cull_mode => { s with cull_mode := v }
  | .front_face => { s with front_face := v }
  | .depth_bias_enable => { s with depth_bias_enable := v }
  | .depth_compare => { s with depth_compare := v }
  | .stencil_test => { s with stencil_test := v }
  | .stencil_front_fail => { s with stencil_front_fail := v }
  | .stencil_front_pass => { s with stencil_front_pass := v }
  | .stencil_front_depth_fail => { s with stencil_front_depth_fail := v }
  | .stencil_front_compare_op => { s with stencil_front_compare_op := v }
  | .stencil_back_fail => { s with stencil_back_fail := v }
  | .stencil_back_pass => { s with stencil_back_pass := v }
  | .stencil_back_depth_fail => { s with stencil_back_depth_fail := v }
  | .stencil_back_compare_op => { s with stencil_back_compare_op := v }
  | .alpha_to_coverage => { s with alpha_to_coverage := v }
  | .alpha_to_one => { s with alpha_to_one := v }
  | .sample_shading => { s with sample_shading := v }
  | .src_color_blend => { s with src_color_blend := v }
  | .dst_color_blend => { s with dst_color_blend := v }
  | .color_blend_op => { s with color_blend_op := v }
  | .src_alpha_blend => { s with src_alpha_blend := v }
  | .dst_alpha_blend => { s with dst_alpha_blend := v }
  | .alpha_blend_op => { s with alpha_blend_op := v }
  | .primitive_restart => { s with primitive_restart := v }
  | .topology => { s with topology := v }
  | .wireframe => { s with wireframe := v }
  | .subgroup_control_size => { s with subgroup_control_size := v }
  | .subgroup_full_group => { s with subgroup_full_group := v }
  | .subgroup_minimum_size_log2 => { s with subgroup_minimum_size_log2 := v }
  | .subgroup_maximum_size_log2 => { s with subgroup_maximum_size_log2 := v }
  | .conservative_raster => { s with conservative_raster := v }
  | .write_mask => { s with write_mask := v }

/-! ## The other state blocks of the recorder -/

def VK_NULL_HANDLE : Nat := 0

/-- Potentially static state; each `float` is its 32-bit pattern. -/
structure PotentialState where
  blend_constants : List Nat
  spec_constants : List Nat
  spec_constant_mask : Nat
deriving DecidableEq, Repr

/-- Dynamic state; the two depth-bias floats are 32-bit patterns. -/
structure DynamicState where
  depth_bias_constant : Nat := 0
  depth_bias_slope : Nat := 0
  front_compare_mask : Nat := 0
  front_write_mask : Nat := 0
  front_reference : Nat := 0
  back_compare_mask : Nat := 0
  back_write_mask : Nat := 0
  back_reference : Nat := 0
deriving DecidableEq, Repr

structure VertexAttribState where
  binding : Nat
  format : Nat
  offset : Nat
deriving DecidableEq, Repr

/-- The deferred pipeline compile record; pointers and Vulkan handles are
natural numbers. -/
structure DeferredPipelineCompile where
  program : Nat
  compatible_render_pass : Nat
  static_state : PipelineState
  potential_static_state : PotentialState
  attribs : List VertexAttribState
  strides : List Nat
  input_rates : List Nat
  subpass_index : Nat
  hash : Nat
  cache : Nat
deriving DecidableEq, Repr

/-- The Vulkan structure `VkViewport`; each `float` is its 32-bit pattern. -/
structure VkViewport where
  x : Nat := 0
  y : Nat := 0
  width : Nat := 0
  height : Nat := 0
  minDepth : Nat := 0
  maxDepth : Nat := 0
deriving DecidableEq, Repr

/-- The Vulkan structure `VkRect2D`: a signed offset and an unsigned extent. -/
structure VkRect2D where
  offset_x : Int := 0
  offset_y : Int := 0
  extent_width : Nat := 0
  extent_height : Nat := 0
deriving DecidableEq, Repr

def VULKAN_NUM_DESCRIPTOR_SETS : Nat := 8

/-- Modelled from the spec: the declaration of `ResourceBinding` is not among
the sources. Section 3, Resource Bindings: an entry describes the identity of
the bound buffer, image or sampler, its observable state cookie and a
sub-range. -/
structure ResourceBinding where
  resource : Nat := 0
  cookie : Nat := 0
  offset : Nat := 0
  range : Nat := 0
deriving DecidableEq, Repr

/-- Modelled from the spec: the declaration of `ResourceBindings` is not among
the sources. Section 3: one entry for each binding-table slot (set) and each
binding of the slot; the push-constant data is kept with the bindings. -/
structure ResourceBindings where
  bindings : Nat → Nat → ResourceBinding
  push_constant_data : List Nat

/-- The members of `CommandBuffer` that the state setters, the state
save and restore and the draw-time resolution read or write. -/
structure CommandBuffer where
  dirty : Nat
  dirty_sets : Nat
  dirty_sets_dynamic : Nat
  dirty_vbos : Nat
  active_vbos : Nat
  pipeline_state : DeferredPipelineCompile
  dynamic_state : DynamicState
  bindings : ResourceBindings
  allocated_sets : Nat → Nat := fun _ => VK_NULL_HANDLE
  current_pipeline : Nat := VK_NULL_HANDLE
  thread_index : Nat := 0
  viewport : VkViewport := {}
  scissor : VkRect2D := {}

/-- The macro `VK_ASSERT(x)` expands to `((void)0)` in both configurations of
`vulkan_headers.hpp`: the condition is not evaluated and nothing happens. -/
def VK_ASSERT (_x : Bool) : Unit := ()

/-- Member `CommandBuffer::set_dirty`: `dirty |= flags`. -/
def CommandBuffer.set_dirty (flags : Nat) (cb : CommandBuffer) : CommandBuffer :=
  { cb with dirty := cb.dirty ||| flags }

/-- Member `CommandBuffer::get_and_clear`: returns `dirty & flags` and performs
`dirty &= ~flags`, the complement being taken on 32 bits. -/
def CommandBuffer.get_and_clear (flags : Nat) (cb : CommandBuffer) : Nat × CommandBuffer :=
  let mask := cb.dirty &&& flags
  (mask, { cb with dirty := cb.dirty &&& ((2 ^ 32 - 1) ^^^ (flags % 2 ^ 32)) })

/-- The test `dirty & flag` being non-zero. -/
def CommandBuffer.is_dirty (cb : CommandBuffer) (flag : Nat) : Bool :=
  cb.dirty &&& flag != 0

/-- The Pipeline State Block of the recorder. -/
def CommandBuffer.block (cb : CommandBuffer) : PipelineState :=
  cb.pipeline_state.static_state

/-- Macro `SET_STATIC_STATE(value)` with the member name as an argument. -/
def SET_STATIC_STATE (f : StaticField) (value : Nat) (cb : CommandBuffer) : CommandBuffer :=
  if cb.pipeline_state.static_state.read f != value then
    CommandBuffer.set_dirty COMMAND_BUFFER_DIRTY_STATIC_STATE_BIT
      { cb with pipeline_state :=
          { cb.pipeline_state with
              static_state := cb.pipeline_state.static_state.write f value } }
  else cb

/-- IEEE-754 binary32: exponent all ones and a non-zero fraction. -/
def f32_is_nan (x : Nat) : Bool :=
  (x / 2 ^ 23) % 2 ^ 8 == 255 && x % 2 ^ 23 != 0

/-- The C++ operator `!=` on two floats given by their bit patterns: a NaN
differs from everything, the two zeros are equal, otherwise patterns decide. -/
def f32_ne (a b : Nat) : Bool :=
  f32_is_nan a || f32_is_nan b ||
    (!(a % 2 ^ 31 == 0 && b % 2 ^ 31 == 0) && a != b)

/-! ### Static state setters -/

def CommandBuffer.SetDepthTest (depth_test depth_write : Bool) (cb : CommandBuffer) : CommandBuffer :=
  let cb := SET_STATIC_STATE .depth_test depth_test.toNat cb
  SET_STATIC_STATE .depth_write depth_write.toNat cb

def CommandBuffer.SetWireframe (wireframe : Bool) (cb : CommandBuffer) : CommandBuffer :=
  SET_STATIC_STATE .wireframe wireframe.toNat cb

def CommandBuffer.SetDepthCompare (depth_compare : Nat) (cb : CommandBuffer) : CommandBuffer :=
  SET_STATIC_STATE .depth_compare depth_compare cb

def CommandBuffer.SetBlendEnable (blend_enable : Bool) (cb : CommandBuffer) : CommandBuffer :=
  SET_STATIC_STATE .blend_enable blend_enable.toNat cb

def CommandBuffer.SetBlendFactors (src_color_blend src_alpha_blend dst_color_blend dst_alpha_blend : Nat)
    (cb : CommandBuffer) : CommandBuffer :=
  let cb := SET_STATIC_STATE .src_color_blend src_color_blend cb
  let cb := SET_STATIC_STATE .dst_color_blend dst_color_blend cb
  let cb := SET_STATIC_STATE .src_alpha_blend src_alpha_blend cb
  SET_STATIC_STATE .dst_alpha_blend dst_alpha_blend cb

/-- The two-argument overload of `SetBlendFactors`. -/
def CommandBuffer.SetBlendFactors_src_dst (src_blend dst_blend : Nat) (cb : CommandBuffer) : CommandBuffer :=
  CommandBuffer.SetBlendFactors src_blend src_blend dst_blend dst_blend cb

def CommandBuffer.SetBlendOp (color_blend_op alpha_blend_op : Nat) (cb : CommandBuffer) : CommandBuffer :=
  let cb := SET_STATIC_STATE .color_blend_op color_blend_op cb
  SET_STATIC_STATE .alpha_blend_op alpha_blend_op cb

/-- The one-argument overload of `SetBlendOp`. -/
def CommandBuffer.SetBlendOp_single (blend_op : Nat) (cb : CommandBuffer) : CommandBuffer :=
  CommandBuffer.SetBlendOp blend_op blend_op cb

/-- The overload `SetDepthBias(bool depth_bias_enable)`. -/
def CommandBuffer.SetDepthBias (depth_bias_enable : Bool) (cb : CommandBuffer) : CommandBuffer :=
  SET_STATIC_STATE .depth_bias_enable depth_bias_enable.toNat cb

def CommandBuffer.SetColorWriteMask (write_mask : Nat) (cb : CommandBuffer) : CommandBuffer :=
  SET_STATIC_STATE .write_mask write_mask cb

def CommandBuffer.SetStencilTest (stencil_test : Bool) (cb : CommandBuffer) : CommandBuffer :=
  SET_STATIC_STATE .stencil_test stencil_test.toNat cb

def CommandBuffer.SetStencilFrontOps
    (stencil_front_compare_op stencil_front_pass stencil_front_fail stencil_front_depth_fail : Nat)
    (cb : CommandBuffer) : CommandBuffer :=
  let cb := SET_STATIC_STATE .stencil_front_compare_op stencil_front_compare_op cb
  let cb := SET_STATIC_STATE .stencil_front_pass stencil_front_pass cb
  let cb := SET_STATIC_STATE .stencil_front_fail stencil_front_fail cb
  SET_STATIC_STATE .stencil_front_depth_fail stencil_front_depth_fail cb

def CommandBuffer.SetStencilBackOps
    (stencil_back_compare_op stencil_back_pass stencil_back_fail stencil_back_depth_fail : Nat)
    (cb : CommandBuffer) : CommandBuffer :=
  let cb := SET_STATIC_STATE .stencil_back_compare_op stencil_back_compare_op cb
  let cb := SET_STATIC_STATE .stencil_back_pass stencil_back_pass cb
  let cb := SET_STATIC_STATE .stencil_back_fail stencil_back_fail cb
  SET_STATIC_STATE .stencil_back_depth_fail stencil_back_depth_fail cb

def CommandBuffer.SetStencilOps (stencil_compare_op stencil_pass stencil_fail stencil_depth_fail : Nat)
    (cb : CommandBuffer) : CommandBuffer :=
  let cb := CommandBuffer.SetStencilFrontOps stencil_compare_op stencil_pass stencil_fail stencil_depth_fail cb
  CommandBuffer.SetStencilBackOps stencil_compare_op stencil_pass stencil_fail stencil_depth_fail cb

def CommandBuffer.SetPrimitiveTopology (topology : Nat) (cb : CommandBuffer) : CommandBuffer :=
  SET_STATIC_STATE .topology topology cb

def CommandBuffer.SetPrimitiveRestart (primitive_restart : Bool) (cb : CommandBuffer) : CommandBuffer :=
  SET_STATIC_STATE .primitive_restart primitive_restart.toNat cb

def CommandBuffer.SetMultisampleState (alpha_to_coverage alpha_to_one sample_shading : Bool)
    (cb : CommandBuffer) : CommandBuffer :=
  let cb := SET_STATIC_STATE .alpha_to_coverage alpha_to_coverage.toNat cb
  let cb := SET_STATIC_STATE .alpha_to_one alpha_to_one.toNat cb
  SET_STATIC_STATE .sample_shading sample_shading.toNat cb

def CommandBuffer.SetFrontFace (front_face : Nat) (cb : CommandBuffer) : CommandBuffer :=
  SET_STATIC_STATE .front_face front_face cb

def CommandBuffer.SetCullMode (cull_mode : Nat) (cb : CommandBuffer) : CommandBuffer :=
  SET_STATIC_STATE .cull_mode cull_mode cb

def CommandBuffer.EnableSubgroupSizeControl (subgroup_control_size : Bool) (cb : CommandBuffer) : CommandBuffer :=
  SET_STATIC_STATE .subgroup_control_size subgroup_control_size.toNat cb

def CommandBuffer.SetSubgroupSizeLog2 (subgroup_full_group : Bool)
    (subgroup_minimum_size_log2 subgroup_maximum_size_log2 : Nat) (cb : CommandBuffer) : CommandBuffer :=
  let _ := VK_ASSERT (decide (subgroup_minimum_size_log2 < 8))
  let _ := VK_ASSERT (decide (subgroup_maximum_size_log2 < 8))
  let cb := SET_STATIC_STATE .subgroup_full_group subgroup_full_group.toNat cb
  let cb := SET_STATIC_STATE .subgroup_minimum_size_log2 subgroup_minimum_size_log2 cb
  SET_STATIC_STATE .subgroup_maximum_size_log2 subgroup_maximum_size_log2 cb

def CommandBuffer.SetConservativeRasterization (conservative_raster : Bool) (cb : CommandBuffer) : CommandBuffer :=
  SET_STATIC_STATE .conservative_raster conservative_raster.toNat cb

/-! ### Potentially static state setters -/

/-- Macro `SET_POTENTIALLY_STATIC_STATE(blend_constants[i])`: a `float`
comparison followed by a copy of the float. -/
def SET_POTENTIALLY_STATIC_STATE_blend_constants (i : Nat) (value : Nat) (cb : CommandBuffer) :
    CommandBuffer :=
  if f32_ne (cb.pipeline_state.potential_static_state.blend_constants.getD i 0) value then
    CommandBuffer.set_dirty COMMAND_BUFFER_DIRTY_STATIC_STATE_BIT
      { cb with pipeline_state :=
          { cb.pipeline_state with
              potential_static_state :=
                { cb.pipeline_state.potential_static_state with
                    blend_constants :=
                      cb.pipeline_state.potential_static_state.blend_constants.set i value } } }
  else cb

/-- Macro `SET_POTENTIALLY_STATIC_STATE(spec_constant_mask)`: the member is a
`uint8_t`, the argument a `uint32_t`; the store keeps the low eight bits. -/
def SET_POTENTIALLY_STATIC_STATE_spec_constant_mask (value : Nat) (cb : CommandBuffer) :
    CommandBuffer :=
  if cb.pipeline_state.potential_static_state.spec_constant_mask != value then
    CommandBuffer.set_dirty COMMAND_BUFFER_DIRTY_STATIC_STATE_BIT
      { cb with pipeline_state :=
          { cb.pipeline_state with
              potential_static_state :=
                { cb.pipeline_state.potential_static_state with
                    spec_constant_mask := value % 2 ^ 8 } } }
  else cb

/-- The argument `const float blend_constants[4]` is the list of its four
floats. The function is the code for a list of four floats and a recorder
whose `blend_constants` array has its four entries; an entry a shorter list
does not have reads as the pattern 0, where the code would read past the
array of the caller. -/
def CommandBuffer.SetBlendConstants (blend_constants : List Nat) (cb : CommandBuffer) : CommandBuffer :=
  let cb := SET_POTENTIALLY_STATIC_STATE_blend_constants 0 (blend_constants.getD 0 0) cb
  let cb := SET_POTENTIALLY_STATIC_STATE_blend_constants 1 (blend_constants.getD 1 0) cb
  let cb := SET_POTENTIALLY_STATIC_STATE_blend_constants 2 (blend_constants.getD 2 0) cb
  SET_POTENTIALLY_STATIC_STATE_blend_constants 3 (blend_constants.getD 3 0) cb

/-- The constant `VULKAN_NUM_SPEC_CONSTANTS` of `limits.hpp` is the parameter
`num_spec_constants`; it only occurs under `VK_ASSERT`. -/
def CommandBuffer.SetSpecializationConstantMask (num_spec_constants : Nat) (spec_constant_mask : Nat)
    (cb : CommandBuffer) : CommandBuffer :=
  let _ := VK_ASSERT
    (spec_constant_mask &&& ((2 ^ 32 - 1) ^^^ (((1 <<< num_spec_constants) - 1) % 2 ^ 32)) == 0)
  SET_POTENTIALLY_STATIC_STATE_spec_constant_mask spec_constant_mask cb

/-- The value is given by its 32 bits (`sizeof(value) == sizeof(uint32_t)`);
`memcmp` compares and `memcpy` copies these bits. The function is the code for
`index` below the number of entries of `spec_constants`, the range the
assertion names. For an index past the array the code compares and copies
memory behind `spec_constants` (undefined behaviour), which the list does not
model: there the function reads 0 and stores nothing, and no theorem relies on
it. -/
def CommandBuffer.SetSpecializationConstant (num_spec_constants : Nat) (index value : Nat)
    (cb : CommandBuffer) : CommandBuffer :=
  let _ := VK_ASSERT (decide (index < num_spec_constants))
  if cb.pipeline_state.potential_static_state.spec_constants.getD index 0 != value then
    let cb1 : CommandBuffer :=
      { cb with pipeline_state :=
          { cb.pipeline_state with
              potential_static_state :=
                { cb.pipeline_state.potential_static_state with
                    spec_constants :=
                      cb.pipeline_state.potential_static_state.spec_constants.set index value } } }
    if cb1.pipeline_state.potential_static_state.spec_constant_mask &&& ((1 <<< index) % 2 ^ 32) != 0 then
      CommandBuffer.set_dirty COMMAND_BUFFER_DIRTY_STATIC_STATE_BIT cb1
    else cb1
  else cb

/-! ### Dynamic state setters -/

/-- Names of the members of `DynamicState`. -/
inductive DynamicField where
  | depth_bias_constant
  | depth_bias_slope
  | front_compare_mask
  | front_write_mask
  | front_reference
  | back_compare_mask
  | back_write_mask
  | back_reference
deriving DecidableEq, Repr

def DynamicState.read (d : DynamicState) : DynamicField → Nat
  | .depth_bias_constant => d.depth_bias_constant
  | .depth_bias_slope => d.depth_bias_slope
  | .front_compare_mask => d.front_compare_mask
  | .front_write_mask => d.front_write_mask
  | .front_reference => d.front_reference
  | .back_compare_mask => d.back_compare_mask
  | .back_write_mask => d.back_write_mask
  | .back_reference => d.back_reference

/-- Assignment `dynamic_state.<name> = value`; argument and member have the
same type (`float` or `uint8_t`), so the value is stored as it is. -/
def DynamicState.write (d : DynamicState) (f : DynamicField) (value : Nat) : DynamicState :=
  match f with
  | .depth_bias_constant => { d with depth_bias_constant := value }
  | .depth_bias_slope => { d with depth_bias_slope := value }
  | .front_compare_mask => { d with front_compare_mask := value }
  | .front_write_mask => { d with front_write_mask := value }
  | .front_reference => { d with front_reference := value }
  | .back_compare_mask => { d with back_compare_mask := value }
  | .back_write_mask => { d with back_write_mask := value }
  | .back_reference => { d with back_reference := value }

/-- The operator `!=` of the member: float comparison for the two depth-bias
members, integer comparison for the `uint8_t` members. -/
def DynamicField.ne (f : DynamicField) (a b : Nat) : Bool :=
  match f with
  | .depth_bias_constant => f32_ne a b
  | .depth_bias_slope => f32_ne a b
  | _ => a != b

/-- Macro `SET_DYNAMIC_STATE(state, flags)` with the member name as an
argument. -/
def SET_DYNAMIC_STATE (f : DynamicField) (state : Nat) (flags : Nat) (cb : CommandBuffer) :
    CommandBuffer :=
  if f.ne (cb.dynamic_state.read f) state then
    CommandBuffer.set_dirty flags { cb with dynamic_state := cb.dynamic_state.write f state }
  else cb

/-- The overload `SetDepthBias(float depth_bias_constant, float depth_bias_slope)`. -/
def CommandBuffer.SetDepthBias_dynamic (depth_bias_constant depth_bias_slope : Nat)
    (cb : CommandBuffer) : CommandBuffer :=
  let cb := SET_DYNAMIC_STATE .depth_bias_constant depth_bias_constant COMMAND_BUFFER_DIRTY_DEPTH_BIAS_BIT cb
  SET_DYNAMIC_STATE .depth_bias_slope depth_bias_slope COMMAND_BUFFER_DIRTY_DEPTH_BIAS_BIT cb

def CommandBuffer.SetStencilFrontReference (front_compare_mask front_write_mask front_reference : Nat)
    (cb : CommandBuffer) : CommandBuffer :=
  let cb := SET_DYNAMIC_STATE .front_compare_mask front_compare_mask COMMAND_BUFFER_DIRTY_STENCIL_REFERENCE_BIT cb
  let cb := SET_DYNAMIC_STATE .front_write_mask front_write_mask COMMAND_BUFFER_DIRTY_STENCIL_REFERENCE_BIT cb
  SET_DYNAMIC_STATE .front_reference front_reference COMMAND_BUFFER_DIRTY_STENCIL_REFERENCE_BIT cb

def CommandBuffer.SetStencilBackReference (back_compare_mask back_write_mask back_reference : Nat)
    (cb : CommandBuffer) : CommandBuffer :=
  let cb := SET_DYNAMIC_STATE .back_compare_mask back_compare_mask COMMAND_BUFFER_DIRTY_STENCIL_REFERENCE_BIT cb
  let cb := SET_DYNAMIC_STATE .back_write_mask back_write_mask COMMAND_BUFFER_DIRTY_STENCIL_REFERENCE_BIT cb
  SET_DYNAMIC_STATE .back_reference back_reference COMMAND_BUFFER_DIRTY_STENCIL_REFERENCE_BIT cb

/-! ### Calls -/

/-- One call of a pipeline-state setter, with its arguments. -/
inductive StaticCall where
  | SetDepthTest (depth_test depth_write : Bool)
  | SetWireframe (wireframe : Bool)
  | SetDepthCompare (depth_compare : Nat)
  | SetBlendEnable (blend_enable : Bool)
  | SetBlendFactors (src_color_blend src_alpha_blend dst_color_blend dst_alpha_blend : Nat)
  | SetBlendFactors_src_dst (src_blend dst_blend : Nat)
  | SetBlendOp (color_blend_op alpha_blend_op : Nat)
  | SetBlendOp_single (blend_op : Nat)
  | SetDepthBias (depth_bias_enable : Bool)
  | SetColorWriteMask (write_mask : Nat)
  | SetStencilTest (stencil_test : Bool)
  | SetStencilFrontOps (compare_op pass fail depth_fail : Nat)
  | SetStencilBackOps (compare_op pass fail depth_fail : Nat)
  | SetStencilOps (compare_op pass fail depth_fail : Nat)
  | SetPrimitiveTopology (topology : Nat)
  | SetPrimitiveRestart (primitive_restart : Bool)
  | SetMultisampleState (alpha_to_coverage alpha_to_one sample_shading : Bool)
  | SetFrontFace (front_face : Nat)
  | SetCullMode (cull_mode : Nat)
  | EnableSubgroupSizeControl (subgroup_control_size : Bool)
  | SetSubgroupSizeLog2 (subgroup_full_group : Bool) (minimum_size_log2 maximum_size_log2 : Nat)
  | SetConservativeRasterization (conservative_raster : Bool)
deriving DecidableEq, Repr

/-- Executing a call on a recorder. -/
def StaticCall.run : StaticCall → CommandBuffer → CommandBuffer
  | .SetDepthTest a b => CommandBuffer.SetDepthTest a b
  | .SetWireframe a => CommandBuffer.SetWireframe a
  | .SetDepthCompare a => CommandBuffer.SetDepthCompare a
  | .SetBlendEnable a => CommandBuffer.SetBlendEnable a
  | .SetBlendFactors a b c d => CommandBuffer.SetBlendFactors a b c d
  | .SetBlendFactors_src_dst a b => CommandBuffer.SetBlendFactors_src_dst a b
  | .SetBlendOp a b => CommandBuffer.SetBlendOp a b
  | .SetBlendOp_single a => CommandBuffer.SetBlendOp_single a
  | .SetDepthBias a => CommandBuffer.SetDepthBias a
  | .SetColorWriteMask a => CommandBuffer.SetColorWriteMask a
  | .SetStencilTest a => CommandBuffer.SetStencilTest a
  | .SetStencilFrontOps a b c d => CommandBuffer.SetStencilFrontOps a b c d
  | .SetStencilBackOps a b c d => CommandBuffer.SetStencilBackOps a b c d
  | .SetStencilOps a b c d => CommandBuffer.SetStencilOps a b c d
  | .SetPrimitiveTopology a => CommandBuffer.SetPrimitiveTopology a
  | .SetPrimitiveRestart a => CommandBuffer.SetPrimitiveRestart a
  | .SetMultisampleState a b c => CommandBuffer.SetMultisampleState a b c
  | .SetFrontFace a => CommandBuffer.SetFrontFace a
  | .SetCullMode a => CommandBuffer.SetCullMode a
  | .EnableSubgroupSizeControl a => CommandBuffer.EnableSubgroupSizeControl a
  | .SetSubgroupSizeLog2 a b c => CommandBuffer.SetSubgroupSizeLog2 a b c
  | .SetConservativeRasterization a => CommandBuffer.SetConservativeRasterization a

/-- The members a call targets, each paired with the argument passed for it
(the parameter of that name in the setter signature; a `bool` as 0 or 1). -/
def StaticCall.targets : StaticCall → List (StaticField × Nat)
  | .SetDepthTest a b => [(.depth_test, a.toNat), (.depth_write, b.toNat)]
  | .SetWireframe a => [(.wireframe, a.toNat)]
  | .SetDepthCompare a => [(.depth_compare, a)]
  | .SetBlendEnable a => [(.blend_enable, a.toNat)]
  | .SetBlendFactors a b c d =>
      [(.src_color_blend, a), (.dst_color_blend, c), (.src_alpha_blend, b), (.dst_alpha_blend, d)]
  | .SetBlendFactors_src_dst a b =>
      [(.src_color_blend, a), (.dst_color_blend, b), (.src_alpha_blend, a), (.dst_alpha_blend, b)]
  | .SetBlendOp a b => [(.color_blend_op, a), (.alpha_blend_op, b)]
  | .SetBlendOp_single a => [(.color_blend_op, a), (.alpha_blend_op, a)]
  | .SetDepthBias a => [(.depth_bias_enable, a.toNat)]
  | .SetColorWriteMask a => [(.write_mask, a)]
  | .SetStencilTest a => [(.stencil_test, a.toNat)]
  | .SetStencilFrontOps a b c d =>
      [(.stencil_front_compare_op, a), (.stencil_front_pass, b), (.stencil_front_fail, c),
        (.stencil_front_depth_fail, d)]
  | .SetStencilBackOps a b c d =>
      [(.stencil_back_compare_op, a), (.stencil_back_pass, b), (.stencil_back_fail, c),
        (.stencil_back_depth_fail, d)]
  | .SetStencilOps a b c d =>
      [(.stencil_front_compare_op, a), (.stencil_front_pass, b), (.stencil_front_fail, c),
        (.stencil_front_depth_fail, d),
        (.stencil_back_compare_op, a), (.stencil_back_pass, b), (.stencil_back_fail, c),
        (.stencil_back_depth_fail, d)]
  | .SetPrimitiveTopology a => [(.topology, a)]
  | .SetPrimitiveRestart a => [(.primitive_restart, a.toNat)]
  | .SetMultisampleState a b c =>
      [(.alpha_to_coverage, a.toNat), (.alpha_to_one, b.toNat), (.sample_shading, c.toNat)]
  | .SetFrontFace a => [(.front_face, a)]
  | .SetCullMode a => [(.cull_mode, a)]
  | .EnableSubgroupSizeControl a => [(.subgroup_control_size, a.toNat)]
  | .SetSubgroupSizeLog2 a b c =>
      [(.subgroup_full_group, a.toNat), (.subgroup_minimum_size_log2, b),
        (.subgroup_maximum_size_log2, c)]
  | .SetConservativeRasterization a => [(.conservative_raster, a.toNat)]

/-- Every argument of the call fits the width of the member it targets. -/
def StaticCall.representable (c : StaticCall) : Prop :=
  ∀ t ∈ c.targets, t.2 < 2 ^ t.1.bits

/-- Every argument of the call equals the current value of the member it
targets. -/
def StaticCall.matches_current (c : StaticCall) (cb : CommandBuffer) : Prop :=
  ∀ t ∈ c.targets, cb.block.read t.1 = t.2

/-- A finite sequence of setter calls, executed from left to right. -/
def run_calls (cs : List StaticCall) (cb : CommandBuffer) : CommandBuffer :=
  cs.foldl (fun acc c => c.run acc) cb

/-- A sequence of `SET_STATIC_STATE` expansions, executed from left to right. -/
def set_static_states (ts : List (StaticField × Nat)) (cb : CommandBuffer) : CommandBuffer :=
  ts.foldl (fun acc t => SET_STATIC_STATE t.1 t.2 acc) cb

/-- A recorder whose state blocks are all zero and whose dirty word is clear,
as after a draw has consumed every dirty bit. -/
def CommandBuffer.zeroed : CommandBuffer :=
  { dirty := 0, dirty_sets := 0, dirty_sets_dynamic := 0, dirty_vbos := 0, active_vbos := 0,
    pipeline_state :=
      { program := 0, compatible_render_pass := 0,
        static_state :=
          { depth_write := 0, depth_test := 0, blend_enable := 0, cull_mode := 0, front_face := 0,
            depth_bias_enable := 0, depth_compare := 0, stencil_test := 0, stencil_front_fail := 0,
            stencil_front_pass := 0, stencil_front_depth_fail := 0, stencil_front_compare_op := 0,
            stencil_back_fail := 0, stencil_back_pass := 0, stencil_back_depth_fail := 0,
            stencil_back_compare_op := 0, alpha_to_coverage := 0, alpha_to_one := 0,
            sample_shading := 0, src_color_blend := 0, dst_color_blend := 0, color_blend_op := 0,
            src_alpha_blend := 0, dst_alpha_blend := 0, alpha_blend_op := 0, primitive_restart := 0,
            topology := 0, wireframe := 0, subgroup_control_size := 0, subgroup_full_group := 0,
            subgroup_minimum_size_log2 := 0, subgroup_maximum_size_log2 := 0,
            conservative_raster := 0, write_mask := 0 },
        potential_static_state :=
          { blend_constants := [0, 0, 0, 0], spec_constants := [0, 0, 0, 0, 0, 0, 0, 0],
            spec_constant_mask := 0 },
        attribs := [], strides := [], input_rates := [], subpass_index := 0, hash := 0, cache := 0 },
    dynamic_state := {},
    bindings := { bindings := fun _ _ => {}, push_constant_data := [] } }

/-- One call of a dynamic-state setter, with its arguments. -/
inductive DynamicCall where
  | SetDepthBias (depth_bias_constant depth_bias_slope : Nat)
  | SetStencilFrontReference (front_compare_mask front_write_mask front_reference : Nat)
  | SetStencilBackReference (back_compare_mask back_write_mask back_reference : Nat)
deriving DecidableEq, Repr

def DynamicCall.run : DynamicCall → CommandBuffer → CommandBuffer
  | .SetDepthBias a b => CommandBuffer.SetDepthBias_dynamic a b
  | .SetStencilFrontReference a b c => CommandBuffer.SetStencilFrontReference a b c
  | .SetStencilBackReference a b c => CommandBuffer.SetStencilBackReference a b c

/-- One call of an inline state setter of the header: a pipeline-state
setter, a potentially-static setter or a dynamic-state setter. -/
inductive SetterCall where
  | static (c : StaticCall)
  | SetBlendConstants (blend_constants : List Nat)
  | SetSpecializationConstantMask (spec_constant_mask : Nat)
  | SetSpecializationConstant (index value : Nat)
  | dynamic (c : DynamicCall)
deriving DecidableEq, Repr

def SetterCall.run (num_spec_constants : Nat) : SetterCall → CommandBuffer → CommandBuffer
  | .static c => c.run
  | .SetBlendConstants bc => CommandBuffer.SetBlendConstants bc
  | .SetSpecializationConstantMask m =>
      CommandBuffer.SetSpecializationConstantMask num_spec_constants m
  | .SetSpecializationConstant index value =>
      CommandBuffer.SetSpecializationConstant num_spec_constants index value
  | .dynamic c => c.run

/-- The call stays inside the arrays it indexes, which is where the setters
are the code: the index of `SetSpecializationConstant` is below
`VULKAN_NUM_SPEC_CONSTANTS`, the number of entries of `spec_constants`, and
`SetBlendConstants` is given four floats for the four entries of
`blend_constants`. Every other setter takes scalars only. -/
def SetterCall.in_bounds (num_spec_constants : Nat) (c : SetterCall) (cb : CommandBuffer) :
    Prop :=
  match c with
  | .SetBlendConstants blend_constants =>
      blend_constants.length = 4 ∧
        cb.pipeline_state.potential_static_state.blend_constants.length = 4
  | .SetSpecializationConstant index _ =>
      index < num_spec_constants ∧
        cb.pipeline_state.potential_static_state.spec_constants.length = num_spec_constants
  | _ => True

/-- Everything outside the Pipeline State Block and the dirty word agrees. -/
def CommandBuffer.same_outside_static (cb cb2 : CommandBuffer) : Prop :=
  cb2 = { cb with dirty := cb2.dirty,
                  pipeline_state := { cb.pipeline_state with static_state := cb2.block } }

/-- The dirty word after is the dirty word before, possibly with `flags` added. -/
def CommandBuffer.dirty_raised_within (flags : Nat) (a b : CommandBuffer) : Prop :=
  b.dirty = a.dirty ∨ b.dirty = a.dirty ||| flags

/-- The dirty flag a dynamic-state setter passes to `set_dirty`. -/
def DynamicCall.flag : DynamicCall → Nat
  | .SetDepthBias _ _ => COMMAND_BUFFER_DIRTY_DEPTH_BIAS_BIT
  | .SetStencilFrontReference _ _ _ => COMMAND_BUFFER_DIRTY_STENCIL_REFERENCE_BIT
  | .SetStencilBackReference _ _ _ => COMMAND_BUFFER_DIRTY_STENCIL_REFERENCE_BIT

/-! ## The raw-word view of `PipelineState` -/

/-- The members of `PipelineState::state` in declaration order. -/
def StaticField.declared : List StaticField :=
  [.depth_write,
    .depth_test,
    .blend_enable,
    .cull_mode,
    .front_face,
    .depth_bias_enable,
    .depth_compare,
    .stencil_test,
    .stencil_front_fail,
    .stencil_front_pass,
    .stencil_front_depth_fail,
    .stencil_front_compare_op,
    .stencil_back_fail,
    .stencil_back_pass,
    .stencil_back_depth_fail,
    .stencil_back_compare_op,
    .alpha_to_coverage,
    .alpha_to_one,
    .sample_shading,
    .src_color_blend,
    .dst_color_blend,
    .color_blend_op,
    .src_alpha_blend,
    .dst_alpha_blend,
    .alpha_blend_op,
    .primitive_restart,
    .topology,
    .wireframe,
    .subgroup_control_size,
    .subgroup_full_group,
    .subgroup_minimum_size_log2,
    .subgroup_maximum_size_log2,
    .conservative_raster,
    .write_mask]

/-- Allocation of the members to 32-bit units in declaration order: a member
is placed right after the previous one when it still fits the current unit
and opens the next unit otherwise, so that no member straddles two units.
`cur` holds the members of the current unit and `used` its occupied bits. -/
def allocate_units : List StaticField → List StaticField → Nat → List (List StaticField)
  | [], cur, _ => [cur]
  | f :: fs, cur, used =>
      if used + f.bits ≤ 32 then allocate_units fs (cur ++ [f]) (used + f.bits)
      else cur :: allocate_units fs [f] f.bits

/-- The units of the Pipeline State Block. -/
def PipelineState.units : List (List StaticField) :=
  allocate_units StaticField.declared [] 0

/-- The value of one unit: its members packed from the low bits upwards. -/
def PipelineState.pack_unit (s : PipelineState) : List StaticField → Nat
  | [] => 0
  | f :: fs => s.read f % 2 ^ f.bits + 2 ^ f.bits * PipelineState.pack_unit s fs

/-- The block seen through `words`. -/
def PipelineState.words (s : PipelineState) : List Nat :=
  PipelineState.units.map s.pack_unit

/-- Every member holds a value of its width. -/
def PipelineState.well_formed (s : PipelineState) : Prop :=
  ∀ f, s.read f < 2 ^ f.bits

/-! ## `DescriptorSetLayout` -/

/-- The layout of `graphics/descriptor_set.hpp`; the arrays of
`VULKAN_NUM_BINDINGS` entries are lists, a `StockSampler` is its number. -/
structure DescriptorSetLayout where
  stages : Nat
  binding_stages : List Nat := []
  array_size : List Nat := []
  sampled_image_mask : Nat := 0
  storage_image_mask : Nat := 0
  uniform_buffer_mask : Nat := 0
  storage_buffer_mask : Nat := 0
  sampled_buffer_mask : Nat := 0
  input_attachment_mask : Nat := 0
  sampler_mask : Nat := 0
  separate_image_mask : Nat := 0
  fp_mask : Nat := 0
  immutable_sampler_mask : Nat := 0
  immutable_samplers : Nat := 0
deriving DecidableEq, Repr

/-- Returns `(layout.immutable_sampler_mask & (1u << binding)) != 0`; the
shift is taken on 32 bits, bindings are below 32. -/
def HasImmutableSampler (layout : DescriptorSetLayout) (binding : Nat) : Bool :=
  layout.immutable_sampler_mask &&& ((1 <<< binding) % 2 ^ 32) != 0

/-- The sampler number read from the four bits of the binding. The
`VK_ASSERT` in front of the return expands to nothing. -/
def GetImmutableSampler (layout : DescriptorSetLayout) (binding : Nat) : Nat :=
  let _ := VK_ASSERT (HasImmutableSampler layout binding)
  (layout.immutable_samplers >>> (4 * binding)) &&& 0xf

/-- Performs `immutable_samplers |= uint64_t(sampler) << (4 * binding)` and
`immutable_sampler_mask |= 1u << binding`. -/
def SetImmutableSampler (layout : DescriptorSetLayout) (binding : Nat) (sampler : Nat) :
    DescriptorSetLayout :=
  { layout with
      immutable_samplers := layout.immutable_samplers ||| ((sampler <<< (4 * binding)) % 2 ^ 64),
      immutable_sampler_mask := layout.immutable_sampler_mask ||| ((1 <<< binding) % 2 ^ 32) }

def VULKAN_NUM_SETS_PER_POOL : Nat := 16
def VULKAN_DESCRIPTOR_RING_SIZE : Nat := 8

/-! ## `DescriptorSetAllocator` -/

/-- Modelled from the spec: the ring cache `Util::TemporaryHashmap` and the
bodies of `DescriptorSetAllocator::BeginFrame` and `Find` are not among the
sources. A node is a cached binding-table instance: the content hash that
produced it, the table handle, and the number of frame generations since it
was last resolved. -/
structure DescriptorSetNode where
  hash : Nat
  set : Nat
  unused : Nat
deriving DecidableEq, Repr

/-- Modelled from the spec: the per-thread state of the allocator, which the
header declares as `PerThread` (`set_nodes`, `pools`). `vacants` is the free
list of table handles, `generation` the frame generation of the ring. -/
structure PerThread where
  set_nodes : List DescriptorSetNode := []
  vacants : List Nat := []
  pools : List Nat := []
  generation : Nat := 0
deriving DecidableEq, Repr

/-- Modelled from the spec: one cache per thread index. -/
structure DescriptorSetAllocator where
  per_thread : Nat → PerThread

/-- Modelled from the spec: `BeginFrame` on one thread cache, section 4.3:
it advances the frame generation; entries unused for `RING_SIZE` generations
are evicted and their table returns to the free list. -/
def PerThread.begin_frame (t : PerThread) : PerThread :=
  let aged := t.set_nodes.map (fun n => { n with unused := n.unused + 1 })
  { t with
      generation := t.generation + 1,
      set_nodes := aged.filter (fun n => decide (n.unused < VULKAN_DESCRIPTOR_RING_SIZE)),
      vacants := t.vacants ++
        (aged.filter (fun n => decide (VULKAN_DESCRIPTOR_RING_SIZE ≤ n.unused))).map
          (fun n => n.set) }

/-- Modelled from the spec: `Find` on one thread cache, section 4.3: a cached
instance is returned with "was already present" true and counts as resolved
in the current generation; on absence a table is taken from the free list,
or from a new pool of `VULKAN_NUM_SETS_PER_POOL` tables appended to the pool
list, and is returned with "was already present" false. -/
def PerThread.find (t : PerThread) (hash : Nat) : (Nat × Bool) × PerThread :=
  match t.set_nodes.find? (fun n => n.hash == hash) with
  | some n =>
      ((n.set, true),
        { t with set_nodes :=
            t.set_nodes.map (fun m => if m.hash == hash then { m with unused := 0 } else m) })
  | none =>
      match t.vacants with
      | v :: vs =>
          ((v, false),
            { t with vacants := vs,
                     set_nodes := { hash := hash, set := v, unused := 0 } :: t.set_nodes })
      | [] =>
          let base := t.pools.length * VULKAN_NUM_SETS_PER_POOL
          ((base, false),
            { t with pools := t.pools ++ [t.pools.length],
                     vacants := (List.range (VULKAN_NUM_SETS_PER_POOL - 1)).map
                       (fun i => base + 1 + i),
                     set_nodes := { hash := hash, set := base, unused := 0 } :: t.set_nodes })

/-- Modelled from the spec: `DescriptorSetAllocator::BeginFrame`, which is not
among the sources: every thread cache begins a frame. -/
def DescriptorSetAllocator.BeginFrame (a : DescriptorSetAllocator) : DescriptorSetAllocator :=
  { a with per_thread := fun i => (a.per_thread i).begin_frame }

/-- Modelled from the spec: `DescriptorSetAllocator::Find`, which is not among
the sources: the lookup runs in the cache of `thread_index`; the result is
the table handle and the flag "was already present". -/
def DescriptorSetAllocator.Find (a : DescriptorSetAllocator) (thread_index hash : Nat) :
    (Nat × Bool) × DescriptorSetAllocator :=
  let r := (a.per_thread thread_index).find hash
  (r.1, { a with per_thread := Function.update a.per_thread thread_index r.2 })

/-- The hashes of the list are resolved in order on one thread with
`BeginFrame` called between consecutive `Find`s. -/
def DescriptorSetAllocator.resolve_frames (thread_index : Nat) :
    List Nat → DescriptorSetAllocator → DescriptorSetAllocator
  | [], a => a
  | [h], a => (a.Find thread_index h).2
  | h :: h2 :: hs, a =>
      DescriptorSetAllocator.resolve_frames thread_index (h2 :: hs)
        (a.Find thread_index h).2.BeginFrame

/-- An allocator none of whose thread caches holds an entry. -/
def DescriptorSetAllocator.fresh : DescriptorSetAllocator :=
  { per_thread := fun _ => {} }

/-- No node of the thread cache carries the hash. -/
def PerThread.absent (t : PerThread) (hash : Nat) : Prop :=
  ∀ n ∈ t.set_nodes, n.hash ≠ hash

/-- Every node of the thread cache with the hash has been unused for at least
`k` generations. -/
def PerThread.unused_at_least (t : PerThread) (hash k : Nat) : Prop :=
  ∀ n ∈ t.set_nodes, n.hash = hash → k ≤ n.unused

/-! ## Image helpers (`images/image.hpp`) -/

/-! The flag values below are those of `vulkan_core.h`. -/

def VK_IMAGE_USAGE_TRANSFER_SRC_BIT : Nat := 0x00000001
def VK_IMAGE_USAGE_TRANSFER_DST_BIT : Nat := 0x00000002
def VK_IMAGE_USAGE_SAMPLED_BIT : Nat := 0x00000004
def VK_IMAGE_USAGE_STORAGE_BIT : Nat := 0x00000008
def VK_IMAGE_USAGE_COLOR_ATTACHMENT_BIT : Nat := 0x00000010
def VK_IMAGE_USAGE_DEPTH_STENCIL_ATTACHMENT_BIT : Nat := 0x00000020
def VK_IMAGE_USAGE_TRANSIENT_ATTACHMENT_BIT : Nat := 0x00000040
def VK_IMAGE_USAGE_INPUT_ATTACHMENT_BIT : Nat := 0x00000080

def VK_PIPELINE_STAGE_VERTEX_SHADER_BIT : Nat := 0x00000008
def VK_PIPELINE_STAGE_FRAGMENT_SHADER_BIT : Nat := 0x00000080
def VK_PIPELINE_STAGE_EARLY_FRAGMENT_TESTS_BIT : Nat := 0x00000100
def VK_PIPELINE_STAGE_LATE_FRAGMENT_TESTS_BIT : Nat := 0x00000200
def VK_PIPELINE_STAGE_COLOR_ATTACHMENT_OUTPUT_BIT : Nat := 0x00000400
def VK_PIPELINE_STAGE_COMPUTE_SHADER_BIT : Nat := 0x00000800
def VK_PIPELINE_STAGE_TRANSFER_BIT : Nat := 0x00001000

def VK_ACCESS_INPUT_ATTACHMENT_READ_BIT : Nat := 0x00000010
def VK_ACCESS_SHADER_READ_BIT : Nat := 0x00000020
def VK_ACCESS_SHADER_WRITE_BIT : Nat := 0x00000040
def VK_ACCESS_COLOR_ATTACHMENT_READ_BIT : Nat := 0x00000080
def VK_ACCESS_COLOR_ATTACHMENT_WRITE_BIT : Nat := 0x00000100
def VK_ACCESS_DEPTH_STENCIL_ATTACHMENT_READ_BIT : Nat := 0x00000200
def VK_ACCESS_DEPTH_STENCIL_ATTACHMENT_WRITE_BIT : Nat := 0x00000400
def VK_ACCESS_TRANSFER_READ_BIT : Nat := 0x00000800
def VK_ACCESS_TRANSFER_WRITE_BIT : Nat := 0x00001000

/-- Convert image usage to the stages the image might be used in. -/
def ImageUsageToPossibleStages (usage : Nat) : Nat :=
  let flags := 0
  let flags :=
    if usage &&& (VK_IMAGE_USAGE_TRANSFER_SRC_BIT ||| VK_IMAGE_USAGE_TRANSFER_DST_BIT) != 0 then
      flags ||| VK_PIPELINE_STAGE_TRANSFER_BIT
    else flags
  let flags :=
    if usage &&& VK_IMAGE_USAGE_SAMPLED_BIT != 0 then
      flags ||| (VK_PIPELINE_STAGE_COMPUTE_SHADER_BIT ||| VK_PIPELINE_STAGE_VERTEX_SHADER_BIT |||
        VK_PIPELINE_STAGE_FRAGMENT_SHADER_BIT)
    else flags
  let flags :=
    if usage &&& VK_IMAGE_USAGE_STORAGE_BIT != 0 then
      flags ||| VK_PIPELINE_STAGE_COMPUTE_SHADER_BIT
    else flags
  let flags :=
    if usage &&& VK_IMAGE_USAGE_COLOR_ATTACHMENT_BIT != 0 then
      flags ||| VK_PIPELINE_STAGE_COLOR_ATTACHMENT_OUTPUT_BIT
    else flags
  let flags :=
    if usage &&& VK_IMAGE_USAGE_DEPTH_STENCIL_ATTACHMENT_BIT != 0 then
      flags ||| (VK_PIPELINE_STAGE_EARLY_FRAGMENT_TESTS_BIT |||
        VK_PIPELINE_STAGE_LATE_FRAGMENT_TESTS_BIT)
    else flags
  let flags :=
    if usage &&& VK_IMAGE_USAGE_INPUT_ATTACHMENT_BIT != 0 then
      flags ||| VK_PIPELINE_STAGE_FRAGMENT_SHADER_BIT
    else flags
  if usage &&& VK_IMAGE_USAGE_TRANSIENT_ATTACHMENT_BIT != 0 then
    let possible := VK_PIPELINE_STAGE_COLOR_ATTACHMENT_OUTPUT_BIT |||
      VK_PIPELINE_STAGE_EARLY_FRAGMENT_TESTS_BIT |||
      VK_PIPELINE_STAGE_LATE_FRAGMENT_TESTS_BIT
    let possible :=
      if usage &&& VK_IMAGE_USAGE_INPUT_ATTACHMENT_BIT != 0 then
        possible ||| VK_PIPELINE_STAGE_FRAGMENT_SHADER_BIT
      else possible
    flags &&& possible
  else flags

/-- Convert image usage to the accesses the image may be used with. -/
def ImageUsageToPossibleAccess (usage : Nat) : Nat :=
  let flags := 0
  let flags :=
    if usage &&& (VK_IMAGE_USAGE_TRANSFER_SRC_BIT ||| VK_IMAGE_USAGE_TRANSFER_DST_BIT) != 0 then
      flags ||| (VK_ACCESS_TRANSFER_READ_BIT ||| VK_ACCESS_TRANSFER_WRITE_BIT)
    else flags
  let flags :=
    if usage &&& VK_IMAGE_USAGE_SAMPLED_BIT != 0 then
      flags ||| VK_ACCESS_SHADER_READ_BIT
    else flags
  let flags :=
    if usage &&& VK_IMAGE_USAGE_STORAGE_BIT != 0 then
      flags ||| (VK_ACCESS_SHADER_WRITE_BIT ||| VK_ACCESS_SHADER_READ_BIT)
    else flags
  let flags :=
    if usage &&& VK_IMAGE_USAGE_COLOR_ATTACHMENT_BIT != 0 then
      flags ||| (VK_ACCESS_COLOR_ATTACHMENT_WRITE_BIT ||| VK_ACCESS_COLOR_ATTACHMENT_READ_BIT)
    else flags
  let flags :=
    if usage &&& VK_IMAGE_USAGE_DEPTH_STENCIL_ATTACHMENT_BIT != 0 then
      flags ||| (VK_ACCESS_DEPTH_STENCIL_ATTACHMENT_WRITE_BIT |||
        VK_ACCESS_DEPTH_STENCIL_ATTACHMENT_READ_BIT)
    else flags
  let flags :=
    if usage &&& VK_IMAGE_USAGE_INPUT_ATTACHMENT_BIT != 0 then
      flags ||| VK_ACCESS_INPUT_ATTACHMENT_READ_BIT
    else flags
  if usage &&& VK_IMAGE_USAGE_TRANSIENT_ATTACHMENT_BIT != 0 then
    flags &&& (VK_ACCESS_COLOR_ATTACHMENT_WRITE_BIT ||| VK_ACCESS_COLOR_ATTACHMENT_READ_BIT |||
      VK_ACCESS_DEPTH_STENCIL_ATTACHMENT_WRITE_BIT ||| VK_ACCESS_DEPTH_STENCIL_ATTACHMENT_READ_BIT |||
      VK_ACCESS_INPUT_ATTACHMENT_READ_BIT)
  else flags

/-- The members of `ImageView` the view getters read; a `VkImageView` is its
handle value, `cookie` is the value of the `Cookie` base. -/
structure ImageView where
  view : Nat := VK_NULL_HANDLE
  depth_view : Nat := VK_NULL_HANDLE
  stencil_view : Nat := VK_NULL_HANDLE
  cookie : Nat := 0
deriving DecidableEq, Repr

def ImageView.GetView (v : ImageView) : Nat :=
  v.view

def ImageView.GetFloatView (v : ImageView) : Nat :=
  if v.depth_view != VK_NULL_HANDLE then v.depth_view else v.view

def ImageView.GetIntegerView (v : ImageView) : Nat :=
  if v.stencil_view != VK_NULL_HANDLE then v.stencil_view else v.view

/-! ### `SetStencilReference` -/

/-- The body of `SetStencilReference` calls `SetStencilFrontReference` and then
`SetStencilReference` itself with the same arguments. `fuel` bounds the depth
of nested calls; the result is `none` when the bound is reached before the
outermost call has returned. -/
def CommandBuffer.SetStencilReference (fuel : Nat) (compare_mask write_mask reference : Nat)
    (cb : CommandBuffer) : Option CommandBuffer :=
  match fuel with
  | 0 => none
  | fuel + 1 =>
      let cb := cb.SetStencilFrontReference compare_mask write_mask reference
      CommandBuffer.SetStencilReference fuel compare_mask write_mask reference cb

/-- The recorder at the moment the call of `SetStencilReference` at nesting
depth `depth` is entered (depth 0 is the call made by the application). -/
def CommandBuffer.SetStencilReference_entry (depth : Nat) (compare_mask write_mask reference : Nat)
    (cb : CommandBuffer) : CommandBuffer :=
  match depth with
  | 0 => cb
  | depth + 1 =>
      CommandBuffer.SetStencilReference_entry depth compare_mask write_mask reference
        (cb.SetStencilFrontReference compare_mask write_mask reference)

/-! ## `BindlessDescriptorPool` -/

/-- Modelled from the spec: the body of
`BindlessDescriptorPool::AllocateDescriptors` is not among the sources.
Section 4.4: the pool reserves slots from its backing table; its capacity is
fixed when the pool is constructed and never grown. `desc_pool` and `desc_set`
are the handles the header declares, `capacity` the fixed number of slots and
`allocated` the number of slots reserved so far. -/
structure BindlessDescriptorPool where
  desc_pool : Nat
  desc_set : Nat := VK_NULL_HANDLE
  capacity : Nat
  allocated : Nat := 0
deriving DecidableEq, Repr

/-- Modelled from the spec: `AllocateDescriptors(count)`, section 4.4 and the
testable property of section 8: it reserves `count` contiguous slots and
returns true, or returns false, reserving nothing, when the cumulative
allocated count would exceed the fixed capacity. -/
def BindlessDescriptorPool.AllocateDescriptors (count : Nat) (p : BindlessDescriptorPool) :
    Bool × BindlessDescriptorPool :=
  if p.allocated + count ≤ p.capacity then
    (true, { p with allocated := p.allocated + count })
  else (false, p)

/-- A sequence of `AllocateDescriptors` calls: the results in call order and
the pool after the last call. -/
def BindlessDescriptorPool.allocate_all :
    List Nat → BindlessDescriptorPool → List Bool × BindlessDescriptorPool
  | [], p => ([], p)
  | count :: counts, p =>
      let r := p.AllocateDescriptors count
      let rest := BindlessDescriptorPool.allocate_all counts r.2
      (r.1 :: rest.1, rest.2)

/-- The sum of the counts of the calls that returned true. -/
def granted_count : List Nat → List Bool → Nat
  | count :: counts, ok :: oks => (if ok then count else 0) + granted_count counts oks
  | _, _ => 0

/-! ## Saving and restoring state -/

def COMMAND_BUFFER_SAVED_BINDINGS_0_BIT : Nat := 1 <<< 0
def COMMAND_BUFFER_SAVED_BINDINGS_1_BIT : Nat := 1 <<< 1
def COMMAND_BUFFER_SAVED_BINDINGS_2_BIT : Nat := 1 <<< 2
def COMMAND_BUFFER_SAVED_BINDINGS_3_BIT : Nat := 1 <<< 3
def COMMAND_BUFFER_SAVED_BINDINGS_4_BIT : Nat := 1 <<< 4
def COMMAND_BUFFER_SAVED_BINDINGS_5_BIT : Nat := 1 <<< 5
def COMMAND_BUFFER_SAVED_BINDINGS_6_BIT : Nat := 1 <<< 6
def COMMAND_BUFFER_SAVED_BINDINGS_7_BIT : Nat := 1 <<< 7
def COMMAND_BUFFER_SAVED_VIEWPORT_BIT : Nat := 1 <<< 8
def COMMAND_BUFFER_SAVED_SCISSOR_BIT : Nat := 1 <<< 9
def COMMAND_BUFFER_SAVED_RENDER_STATE_BIT : Nat := 1 <<< 10
def COMMAND_BUFFER_SAVED_PUSH_CONSTANT_BIT : Nat := 1 <<< 11

/-- The structure `CommandBufferSavedState` of the header. -/
structure CommandBufferSavedState where
  flags : Nat := 0
  bindings : ResourceBindings
  viewport : VkViewport
  scissor : VkRect2D
  static_state : PipelineState
  potential_static_state : PotentialState
  dynamic_state : DynamicState

/-- The flags select the bindings of descriptor set `set`. -/
def saves_bindings (flags set : Nat) : Bool :=
  decide (set < VULKAN_NUM_DESCRIPTOR_SETS) &&
    (flags &&& (COMMAND_BUFFER_SAVED_BINDINGS_0_BIT <<< set) != 0)

/-- Modelled from the spec: the body of `CommandBuffer::SaveState` is not among
the sources. Section 4.1: it captures by value the subset of binding,
viewport, scissor, render-state and push-constant state selected by `flags`
into the caller's `state`, whose other members keep what they held. -/
def CommandBuffer.SaveState (flags : Nat) (state : CommandBufferSavedState)
    (cb : CommandBuffer) : CommandBufferSavedState :=
  let render := flags &&& COMMAND_BUFFER_SAVED_RENDER_STATE_BIT != 0
  { flags := flags,
    bindings :=
      { bindings := fun set =>
          if saves_bindings flags set then cb.bindings.bindings set
          else state.bindings.bindings set,
        push_constant_data :=
          if flags &&& COMMAND_BUFFER_SAVED_PUSH_CONSTANT_BIT != 0 then
            cb.bindings.push_constant_data
          else state.bindings.push_constant_data },
    viewport :=
      if flags &&& COMMAND_BUFFER_SAVED_VIEWPORT_BIT != 0 then cb.viewport else state.viewport,
    scissor :=
      if flags &&& COMMAND_BUFFER_SAVED_SCISSOR_BIT != 0 then cb.scissor else state.scissor,
    static_state := if render then cb.pipeline_state.static_state else state.static_state,
    potential_static_state :=
      if render then cb.pipeline_state.potential_static_state else state.potential_static_state,
    dynamic_state := if render then cb.dynamic_state else state.dynamic_state }

/-- Modelled from the spec: the body of `CommandBuffer::RestoreState` is not
among the sources. Section 4.1: it restores by value every part selected by
the saved flags and re-dirties every restored part unconditionally: the dirty
bit of each restored set, and the push-constant, viewport, scissor,
static-state, depth-bias and stencil-reference bits of the dirty word. -/
def CommandBuffer.RestoreState (state : CommandBufferSavedState) (cb : CommandBuffer) :
    CommandBuffer :=
  let cb : CommandBuffer :=
    { cb with
        bindings :=
          { cb.bindings with
              bindings := fun set =>
                if saves_bindings state.flags set then state.bindings.bindings set
                else cb.bindings.bindings set },
        dirty_sets := cb.dirty_sets ||| (state.flags &&& (2 ^ VULKAN_NUM_DESCRIPTOR_SETS - 1)) }
  let cb : CommandBuffer :=
    if state.flags &&& COMMAND_BUFFER_SAVED_PUSH_CONSTANT_BIT != 0 then
      CommandBuffer.set_dirty COMMAND_BUFFER_DIRTY_PUSH_CONSTANTS_BIT
        { cb with bindings :=
            { cb.bindings with push_constant_data := state.bindings.push_constant_data } }
    else cb
  let cb : CommandBuffer :=
    if state.flags &&& COMMAND_BUFFER_SAVED_VIEWPORT_BIT != 0 then
      CommandBuffer.set_dirty COMMAND_BUFFER_DIRTY_VIEWPORT_BIT { cb with viewport := state.viewport }
    else cb
  let cb : CommandBuffer :=
    if state.flags &&& COMMAND_BUFFER_SAVED_SCISSOR_BIT != 0 then
      CommandBuffer.set_dirty COMMAND_BUFFER_DIRTY_SCISSOR_BIT { cb with scissor := state.scissor }
    else cb
  if state.flags &&& COMMAND_BUFFER_SAVED_RENDER_STATE_BIT != 0 then
    CommandBuffer.set_dirty
      (COMMAND_BUFFER_DIRTY_STATIC_STATE_BIT ||| COMMAND_BUFFER_DIRTY_DEPTH_BIAS_BIT |||
        COMMAND_BUFFER_DIRTY_STENCIL_REFERENCE_BIT)
      { cb with
          pipeline_state :=
            { cb.pipeline_state with
                static_state := state.static_state,
                potential_static_state := state.potential_static_state },
          dynamic_state := state.dynamic_state }
  else cb

/-! ## The pipeline resolver and the draw-time resolution -/

/-- Modelled from the spec: the class `Program` is not among the sources.
Section 6, Program/Shader service: a bound program exposes its identity, its
input-attribute mask and which specialization constants are compile-time
bound. -/
structure Program where
  hash : Nat
  attribute_mask : Nat
  spec_constant_mask : Nat
deriving DecidableEq, Repr

/-- Modelled from the spec: the collaborator services of section 6 and the
hash utility of section 2, none of which is among the sources. `hash` is the
structural hash of a sequence of words, `program` resolves a program
reference, `render_pass_identity` gives the compatibility identity of a render
pass, `BuildPipeline` is the pipeline-build service and `table_hash` the
content hash of the bindings of one set. -/
structure Services where
  hash : List Nat → Nat
  program : Nat → Program
  render_pass_identity : Nat → Nat
  BuildPipeline : DeferredPipelineCompile → Nat
  table_hash : (Nat → ResourceBinding) → Nat

/-- The indices of the set bits of a 32-bit mask, in increasing order. -/
def for_each_bit (mask : Nat) : List Nat :=
  (List.range 32).filter (fun i => mask.testBit i)

/-- Modelled from the spec: the specialization constants in scope of the
hash, section 4.2: those the program marks compile-time, among the ones
enabled in the record. -/
def DeferredPipelineCompile.spec_scope (sv : Services) (compile : DeferredPipelineCompile) : Nat :=
  (sv.program compile.program).spec_constant_mask &&&
    compile.potential_static_state.spec_constant_mask

/-- Modelled from the spec: the words hashed for the specialization constants:
the scope mask and the value of each constant in scope. -/
def DeferredPipelineCompile.spec_words (sv : Services) (compile : DeferredPipelineCompile) :
    List Nat :=
  compile.spec_scope sv ::
    (for_each_bit (compile.spec_scope sv)).map
      (fun i => compile.potential_static_state.spec_constants.getD i 0)

/-- Modelled from the spec: the words hashed for the vertex input, section
4.2: only the attributes in the program's input mask, each with its binding,
format and offset and with the stride and input rate of the binding it
references. -/
def DeferredPipelineCompile.vertex_words (sv : Services) (compile : DeferredPipelineCompile) :
    List Nat :=
  (for_each_bit (sv.program compile.program).attribute_mask).flatMap
    (fun i =>
      let a := compile.attribs.getD i { binding := 0, format := 0, offset := 0 }
      [i, a.binding, a.format, a.offset,
        compile.strides.getD a.binding 0, compile.input_rates.getD a.binding 0])

/-- Modelled from the spec: the body of
`CommandBuffer::update_hash_graphics_pipeline` is not among the sources.
Section 4.2: the structural hash covers the program identity, the render-pass
and subpass compatibility identity, the raw words of the Pipeline State
Block, the specialization constants in scope and the vertex tables in scope.
The second result is `active_vbos`, the mask of the vertex bindings the
attributes in scope reference. -/
def update_hash_graphics_pipeline (sv : Services) (compile : DeferredPipelineCompile) :
    DeferredPipelineCompile × Nat :=
  let active_vbos :=
    (for_each_bit (sv.program compile.program).attribute_mask).foldl
      (fun acc i =>
        acc ||| ((1 <<< (compile.attribs.getD i { binding := 0, format := 0, offset := 0 }).binding)
          % 2 ^ 32))
      0
  ({ compile with
      hash := sv.hash
        ([(sv.program compile.program).hash,
            sv.render_pass_identity compile.compatible_render_pass, compile.subpass_index] ++
          compile.static_state.words ++ compile.spec_words sv ++ compile.vertex_words sv) },
    active_vbos)

/-- Modelled from the spec: the body of
`CommandBuffer::update_hash_compute_pipeline` is not among the sources. A
compute pipeline has neither render pass nor vertex input; the hash covers the
program identity, the raw words of the Pipeline State Block and the
specialization constants in scope. -/
def update_hash_compute_pipeline (sv : Services) (compile : DeferredPipelineCompile) :
    DeferredPipelineCompile :=
  { compile with
      hash := sv.hash
        ([(sv.program compile.program).hash] ++ compile.static_state.words ++
          compile.spec_words sv) }

/-- Modelled from the spec: what the recorder works against, none of it among
the sources: the process-wide pipeline cache (hash and handle of each cached
pipeline), the hashes for which the build service was invoked, the
binding-table allocator of each set, the sets for which an allocator was
asked, the sets whose table had to be written, and the number of draws
emitted. -/
structure DeviceState where
  pipelines : List (Nat × Nat) := []
  builds : List Nat := []
  allocators : Nat → DescriptorSetAllocator
  finds : List Nat := []
  table_writes : List Nat := []
  draws : Nat := 0

/-- Modelled from the spec: lookup in the process-wide pipeline cache of
section 4.2, keyed by the hash. -/
def DeviceState.find_pipeline (dev : DeviceState) (hash : Nat) : Option Nat :=
  (dev.pipelines.find? (fun e => e.1 == hash)).map (fun e => e.2)

/-- Modelled from the spec: the Pipeline Resolver, section 4.2: lookup or
build against the pipeline cache keyed by the hash of the record. On a hit the
cached handle is reused; on a miss the build service is invoked once and its
result is cached. -/
def resolve_pipeline (sv : Services) (compile : DeferredPipelineCompile) (dev : DeviceState) :
    Nat × DeviceState :=
  match dev.find_pipeline compile.hash with
  | some handle => (handle, dev)
  | none =>
      let handle := sv.BuildPipeline compile
      (handle,
        { dev with
            pipelines := (compile.hash, handle) :: dev.pipelines,
            builds := dev.builds ++ [compile.hash] })

/-- Modelled from the spec: `flush_graphics_pipeline`, step (a) of section
4.1: the record is rebuilt from the current state, hashed, resolved, and the
resulting pipeline is bound. -/
def CommandBuffer.flush_graphics_pipeline (sv : Services) (cb : CommandBuffer)
    (dev : DeviceState) : CommandBuffer × DeviceState :=
  let r := update_hash_graphics_pipeline sv cb.pipeline_state
  let p := resolve_pipeline sv r.1 dev
  ({ cb with pipeline_state := r.1, active_vbos := r.2, current_pipeline := p.1 }, p.2)

/-- Modelled from the spec: `flush_descriptor_set`, step (b) of section 4.1
for one set: the allocator of the set is asked for the table of the content
hash of the set's bindings, the table is written when it was not already
present, and it is bound as the allocated set. -/
def CommandBuffer.flush_descriptor_set (sv : Services) (set : Nat)
    (st : CommandBuffer × DeviceState) : CommandBuffer × DeviceState :=
  let r := (st.2.allocators set).Find st.1.thread_index (sv.table_hash (st.1.bindings.bindings set))
  ({ st.1 with allocated_sets := Function.update st.1.allocated_sets set r.1.1 },
    { st.2 with
        allocators := Function.update st.2.allocators set r.2,
        finds := st.2.finds ++ [set],
        table_writes := if r.1.2 then st.2.table_writes else st.2.table_writes ++ [set] })

/-- Modelled from the spec: `flush_descriptor_sets`, step (b) of section 4.1:
every set whose dirty bit is set is re-resolved, and the bits consumed are
cleared. -/
def CommandBuffer.flush_descriptor_sets (sv : Services) (cb : CommandBuffer)
    (dev : DeviceState) : CommandBuffer × DeviceState :=
  let set_update := cb.dirty_sets &&& (2 ^ VULKAN_NUM_DESCRIPTOR_SETS - 1)
  let st := (for_each_bit set_update).foldl
    (fun acc set => CommandBuffer.flush_descriptor_set sv set acc) (cb, dev)
  ({ st.1 with dirty_sets := cb.dirty_sets &&& ((2 ^ 32 - 1) ^^^ set_update) }, st.2)

/-- Modelled from the spec: `flush_render_state`, steps (a) to (d) of section
4.1, in this order: the pipeline when a pipeline-affecting dirty bit is set,
then the dirty binding sets, then the pending dynamic state and push
constants, each step clearing the dirty bits it consumes. Without a bound
program the resolution fails (`none`). -/
def CommandBuffer.flush_render_state (sv : Services) (cb : CommandBuffer) (dev : DeviceState) :
    Option (CommandBuffer × DeviceState) :=
  if cb.pipeline_state.program = 0 then none
  else
    let r := cb.get_and_clear
      (COMMAND_BUFFER_DIRTY_STATIC_STATE_BIT ||| COMMAND_BUFFER_DIRTY_PIPELINE_BIT |||
        COMMAND_BUFFER_DIRTY_STATIC_VERTEX_BIT)
    let st := if r.1 != 0 then r.2.flush_graphics_pipeline sv dev else (r.2, dev)
    let st := st.1.flush_descriptor_sets sv st.2
    let d := st.1.get_and_clear
      (COMMAND_BUFFER_DYNAMIC_BITS ||| COMMAND_BUFFER_DIRTY_PUSH_CONSTANTS_BIT)
    some (d.2, st.2)

/-- Modelled from the spec: `Draw`, section 4.1: the dirty state is resolved
and then the draw is emitted, step (e). -/
def CommandBuffer.Draw (sv : Services) (cb : CommandBuffer) (dev : DeviceState) :
    Option (CommandBuffer × DeviceState) :=
  match cb.flush_render_state sv dev with
  | none => none
  | some st => some (st.1, { st.2 with draws := st.2.draws + 1 })

/-- Modelled from the spec: `SetTexture(set, binding, view)`, section 4.1:
the cookie of the view is compared with the cookie recorded for the binding;
on change the binding is written and the set is marked dirty. -/
def CommandBuffer.SetTexture (set binding : Nat) (view : ImageView) (cb : CommandBuffer) :
    CommandBuffer :=
  if (cb.bindings.bindings set binding).cookie = view.cookie then cb
  else
    { cb with
        bindings :=
          { cb.bindings with
              bindings := Function.update cb.bindings.bindings set
                (Function.update (cb.bindings.bindings set) binding
                  { resource := view.GetFloatView, cookie := view.cookie }) },
        dirty_sets := cb.dirty_sets ||| ((1 <<< set) % 2 ^ 32) }

/-- Two records agree on what the pipeline identity consists of: the program,
the compatibility identity of the render pass and the subpass, the raw words
of the Pipeline State Block, the specialization constants in scope and the
vertex attributes in the program's input mask together with the bindings these
reference. -/
def DeferredPipelineCompile.same_identity (sv : Services) (r1 r2 : DeferredPipelineCompile) :
    Prop :=
  r1.program = r2.program ∧
  sv.render_pass_identity r1.compatible_render_pass =
    sv.render_pass_identity r2.compatible_render_pass ∧
  r1.subpass_index = r2.subpass_index ∧
  r1.static_state.words = r2.static_state.words ∧
  r1.spec_scope sv = r2.spec_scope sv ∧
  (∀ i, (r1.spec_scope sv).testBit i = true →
    r1.potential_static_state.spec_constants.getD i 0 =
      r2.potential_static_state.spec_constants.getD i 0) ∧
  (∀ i, (sv.program r1.program).attribute_mask.testBit i = true →
    r1.attribs.getD i { binding := 0, format := 0, offset := 0 } =
      r2.attribs.getD i { binding := 0, format := 0, offset := 0 } ∧
    r1.strides.getD (r1.attribs.getD i { binding := 0, format := 0, offset := 0 }).binding 0 =
      r2.strides.getD (r1.attribs.getD i { binding := 0, format := 0, offset := 0 }).binding 0 ∧
    r1.input_rates.getD (r1.attribs.getD i { binding := 0, format := 0, offset := 0 }).binding 0 =
      r2.input_rates.getD (r1.attribs.getD i { binding := 0, format := 0, offset := 0 }).binding 0)

/-- What a resolution of binding sets leaves alone: on the recorder everything
but the allocated sets and the set dirty mask, on the device side the pipeline
cache and the build log. -/
def same_outside_sets (a b : CommandBuffer × DeviceState) : Prop :=
  b.1.dirty = a.1.dirty ∧ b.1.pipeline_state = a.1.pipeline_state ∧
  b.1.dynamic_state = a.1.dynamic_state ∧ b.1.bindings = a.1.bindings ∧
  b.1.current_pipeline = a.1.current_pipeline ∧ b.1.thread_index = a.1.thread_index ∧
  b.2.pipelines = a.2.pipelines ∧ b.2.builds = a.2.builds ∧ b.2.draws = a.2.draws

/-- The dirty bits that make a draw resolve the pipeline again. -/
def pipeline_dirty_bits : Nat :=
  COMMAND_BUFFER_DIRTY_STATIC_STATE_BIT ||| COMMAND_BUFFER_DIRTY_PIPELINE_BIT |||
    COMMAND_BUFFER_DIRTY_STATIC_VERTEX_BIT

/-- The state in which `flush_render_state` enters step (b): after the
pipeline step (a). -/
def CommandBuffer.after_pipeline_step (sv : Services) (cb : CommandBuffer) (dev : DeviceState) :
    CommandBuffer × DeviceState :=
  if (cb.get_and_clear pipeline_dirty_bits).1 != 0 then
    (cb.get_and_clear pipeline_dirty_bits).2.flush_graphics_pipeline sv dev
  else ((cb.get_and_clear pipeline_dirty_bits).2, dev)

/-! ## Concrete instances -/

/-- Concrete services: the hash is an injective encoding of the word
sequence, every program reference resolves to one program with input
attribute 0 and compile-time constant 0. -/
def Services.sample : Services :=
  { hash := fun l => Encodable.encode l,
    program := fun _ => { hash := 7, attribute_mask := 1, spec_constant_mask := 1 },
    render_pass_identity := fun p => p,
    BuildPipeline := fun c => c.hash + 1,
    table_hash := fun b => (b 0).cookie + 2 * (b 1).cookie }

/-- A device state with an empty pipeline cache and fresh allocators. -/
def DeviceState.fresh : DeviceState :=
  { allocators := fun _ => DescriptorSetAllocator.fresh }

/-- A recorder as constructed (`dirty = ~0u`) with program 1 bound and
specialization constant 0 enabled. -/
def CommandBuffer.bound : CommandBuffer :=
  { CommandBuffer.zeroed with
      dirty := 2 ^ 32 - 1,
      pipeline_state :=
        { CommandBuffer.zeroed.pipeline_state with
            program := 1,
            attribs := [{ binding := 0, format := 100, offset := 0 }],
            strides := [16], input_rates := [0],
            potential_static_state :=
              { blend_constants := [0, 0, 0, 0], spec_constants := [5, 6, 0, 0, 0, 0, 0, 0],
                spec_constant_mask := 1 } } }

/-- A record that differs from the one of `CommandBuffer.bound` only outside
the pipeline identity: stale hash, other cache handle, other blend constants,
another value for the specialization constant 1 (not in scope) and a second
vertex attribute (not in the input mask). -/
def DeferredPipelineCompile.variant : DeferredPipelineCompile :=
  { CommandBuffer.bound.pipeline_state with
      hash := 99, cache := 5,
      attribs := [{ binding := 0, format := 100, offset := 0 },
        { binding := 3, format := 7, offset := 8 }],
      potential_static_state :=
        { blend_constants := [1, 2, 3, 4], spec_constants := [5, 42, 0, 0, 0, 0, 0, 0],
          spec_constant_mask := 1 } }

/-- A saved-state object holding zeros. -/
def CommandBufferSavedState.blank : CommandBufferSavedState :=
  { bindings := CommandBuffer.zeroed.bindings, viewport := {}, scissor := {},
    static_state := CommandBuffer.zeroed.pipeline_state.static_state,
    potential_static_state := CommandBuffer.zeroed.pipeline_state.potential_static_state,
    dynamic_state := {} }

/-! ## Concrete scenarios -/

/-- The bound recorder after a texture was bound at binding 0 of set 0 and
another at binding 0 of set 1: both sets are dirty. -/
def CommandBuffer.two_sets : CommandBuffer :=
  (CommandBuffer.bound.SetTexture 0 0 { view := 3, cookie := 4 }).SetTexture 1 0
    { view := 5, cookie := 6 }

/-- A device state with an empty pipeline cache in which the allocator of
every set has already handed out its first table (handle 0, for the content
hash 77) on thread 0, so that the next table of a set has a handle other than
`VK_NULL_HANDLE`. -/
def DeviceState.used : DeviceState :=
  { allocators := fun _ => (DescriptorSetAllocator.fresh.Find 0 77).2 }

/-! ## Definitions for the remaining properties -/

/-- The `CommandBufferSavedStateBits` bit of the bindings of descriptor set
`i`, for the eight sets the `static_assert` of the header fixes. -/
def COMMAND_BUFFER_SAVED_BINDINGS_BIT (i : Nat) : Nat :=
  match i with
  | 0 => COMMAND_BUFFER_SAVED_BINDINGS_0_BIT
  | 1 => COMMAND_BUFFER_SAVED_BINDINGS_1_BIT
  | 2 => COMMAND_BUFFER_SAVED_BINDINGS_2_BIT
  | 3 => COMMAND_BUFFER_SAVED_BINDINGS_3_BIT
  | 4 => COMMAND_BUFFER_SAVED_BINDINGS_4_BIT
  | 5 => COMMAND_BUFFER_SAVED_BINDINGS_5_BIT
  | 6 => COMMAND_BUFFER_SAVED_BINDINGS_6_BIT
  | _ => COMMAND_BUFFER_SAVED_BINDINGS_7_BIT

/-- The twelve enumerators of `CommandBufferSavedStateBits`, in declaration
order. -/
def CommandBufferSavedStateBits : List Nat :=
  [COMMAND_BUFFER_SAVED_BINDINGS_0_BIT, COMMAND_BUFFER_SAVED_BINDINGS_1_BIT,
    COMMAND_BUFFER_SAVED_BINDINGS_2_BIT, COMMAND_BUFFER_SAVED_BINDINGS_3_BIT,
    COMMAND_BUFFER_SAVED_BINDINGS_4_BIT, COMMAND_BUFFER_SAVED_BINDINGS_5_BIT,
    COMMAND_BUFFER_SAVED_BINDINGS_6_BIT, COMMAND_BUFFER_SAVED_BINDINGS_7_BIT,
    COMMAND_BUFFER_SAVED_VIEWPORT_BIT, COMMAND_BUFFER_SAVED_SCISSOR_BIT,
    COMMAND_BUFFER_SAVED_RENDER_STATE_BIT, COMMAND_BUFFER_SAVED_PUSH_CONSTANT_BIT]

/-- The specialization-constant state a pipeline can depend on: the mask and
the constants restricted to the mask (a constant whose mask bit is clear reads
as 0). -/
def PotentialState.spec_in_mask (p : PotentialState) : Nat × (Nat → Nat) :=
  (p.spec_constant_mask,
    fun i => if p.spec_constant_mask.testBit i then p.spec_constants.getD i 0 else 0)

/-- The Vulkan structure `VkExtent3D`. -/
structure VkExtent3D where
  width : Nat
  height : Nat
  depth : Nat
deriving DecidableEq, Repr

/-- The loop of `ImageNumMipLevels`: `while (size) { levels++; size >>= 1; }`
followed by `return levels`. The counter never passes 32 for a 32-bit size, so
its increment does not wrap. -/
def ImageNumMipLevels_loop (size levels : Nat) : Nat :=
  if h : size = 0 then levels
  else ImageNumMipLevels_loop (size >>> 1) (levels + 1)
termination_by size
decreasing_by
  rw [Nat.shiftRight_eq_div_pow]
  exact Nat.div_lt_self (Nat.pos_of_ne_zero h) (by decide)

/-- Get mip levels from extent. -/
def ImageNumMipLevels (extent : VkExtent3D) : Nat :=
  let size := max (max extent.width extent.height) extent.depth
  ImageNumMipLevels_loop size 0

/-- The members of `ImageCreateInfo` that give the size of the image, with
the defaults of the header. -/
structure ImageCreateInfo where
  width : Nat := 0
  height : Nat := 0
  depth : Nat := 1
  levels : Nat := 1
  layers : Nat := 1
deriving DecidableEq, Repr

/-- The members of `Image` the size getters read. -/
structure Image where
  create_info : ImageCreateInfo
deriving DecidableEq, Repr

/-- Returns `std::max(1u, create_info.width >> lod)`; the shift is defined for
`lod < 32`. -/
def Image.GetWidth (image : Image) (lod : Nat) : Nat :=
  max 1 (image.create_info.width >>> lod)

/-- Returns `std::max(1u, create_info.height >> lod)`. -/
def Image.GetHeight (image : Image) (lod : Nat) : Nat :=
  max 1 (image.create_info.height >>> lod)

/-- Returns `std::max(1u, create_info.depth >> lod)`. -/
def Image.GetDepth (image : Image) (lod : Nat) : Nat :=
  max 1 (image.create_info.depth >>> lod)

/-! ## Basic facts -/

theorem run_eq_set_static_states (c : StaticCall) (cb : CommandBuffer) :
    c.run cb = set_static_states c.targets cb := by
  cases c <;>
    simp only [StaticCall.run, StaticCall.targets, set_static_states, List.foldl,
      CommandBuffer.SetDepthTest, CommandBuffer.SetWireframe, CommandBuffer.SetDepthCompare,
      CommandBuffer.SetBlendEnable, CommandBuffer.SetBlendFactors,
      CommandBuffer.SetBlendFactors_src_dst, CommandBuffer.SetBlendOp,
      CommandBuffer.SetBlendOp_single, CommandBuffer.SetDepthBias,
      CommandBuffer.SetColorWriteMask, CommandBuffer.SetStencilTest,
      CommandBuffer.SetStencilFrontOps, CommandBuffer.SetStencilBackOps,
      CommandBuffer.SetStencilOps, CommandBuffer.SetPrimitiveTopology,
      CommandBuffer.SetPrimitiveRestart, CommandBuffer.SetMultisampleState,
      CommandBuffer.SetFrontFace, CommandBuffer.SetCullMode,
      CommandBuffer.EnableSubgroupSizeControl, CommandBuffer.SetSubgroupSizeLog2,
      CommandBuffer.SetConservativeRasterization]

theorem PipelineState.read_write_same (s : PipelineState) (f : StaticField) (v : Nat) :
    (s.write f v).read f = v % 2 ^ f.bits := by
  cases f <;> rfl

theorem PipelineState.read_write_other (s : PipelineState) (f g : StaticField) (v : Nat)
    (h : g ≠ f) : (s.write f v).read g = s.read g := by
  cases f <;> cases g <;> first | rfl | exact absurd rfl h

theorem PipelineState.ext_read (s t : PipelineState) (h : ∀ f, s.read f = t.read f) : s = t := by
  cases s
  cases t
  simp only [PipelineState.mk.injEq]
  exact ⟨h .depth_write,
    h .depth_test,
    h .blend_enable,
    h .cull_mode,
    h .front_face,
    h .depth_bias_enable,
    h .depth_compare,
    h .stencil_test,
    h .stencil_front_fail,
    h .stencil_front_pass,
    h .stencil_front_depth_fail,
    h .stencil_front_compare_op,
    h .stencil_back_fail,
    h .stencil_back_pass,
    h .stencil_back_depth_fail,
    h .stencil_back_compare_op,
    h .alpha_to_coverage,
    h .alpha_to_one,
    h .sample_shading,
    h .src_color_blend,
    h .dst_color_blend,
    h .color_blend_op,
    h .src_alpha_blend,
    h .dst_alpha_blend,
    h .alpha_blend_op,
    h .primitive_restart,
    h .topology,
    h .wireframe,
    h .subgroup_control_size,
    h .subgroup_full_group,
    h .subgroup_minimum_size_log2,
    h .subgroup_maximum_size_log2,
    h .conservative_raster,
    h .write_mask⟩

theorem CommandBuffer.same_outside_static_refl (cb : CommandBuffer) :
    cb.same_outside_static cb := by
  cases cb
  rfl

theorem CommandBuffer.same_outside_static_trans {a b c : CommandBuffer}
    (h1 : a.same_outside_static b) (h2 : b.same_outside_static c) :
    a.same_outside_static c := by
  unfold CommandBuffer.same_outside_static at *
  rw [h2, h1]
  rfl

theorem CommandBuffer.eq_of_same_outside_static {a b : CommandBuffer}
    (h : a.same_outside_static b) (hd : b.dirty = a.dirty) (hb : b.block = a.block) : b = a := by
  unfold CommandBuffer.same_outside_static at h
  rw [h, hd, hb]
  cases a
  rfl

theorem SET_STATIC_STATE_same_outside (f : StaticField) (v : Nat) (cb : CommandBuffer) :
    cb.same_outside_static (SET_STATIC_STATE f v cb) := by
  unfold SET_STATIC_STATE
  split
  · rfl
  · exact cb.same_outside_static_refl

theorem SET_STATIC_STATE_of_eq (f : StaticField) (v : Nat) (cb : CommandBuffer)
    (h : cb.block.read f = v) : SET_STATIC_STATE f v cb = cb := by
  unfold SET_STATIC_STATE
  have h2 : cb.pipeline_state.static_state.read f = v := h
  simp [h2]

theorem SET_STATIC_STATE_dirty_of_ne (f : StaticField) (v : Nat) (cb : CommandBuffer)
    (h : cb.block.read f ≠ v) :
    (SET_STATIC_STATE f v cb).dirty = cb.dirty ||| COMMAND_BUFFER_DIRTY_STATIC_STATE_BIT := by
  unfold SET_STATIC_STATE
  have h2 : cb.pipeline_state.static_state.read f ≠ v := h
  simp [h2, CommandBuffer.set_dirty]

theorem SET_STATIC_STATE_block (f : StaticField) (v : Nat) (cb : CommandBuffer) :
    (SET_STATIC_STATE f v cb).block =
      if cb.block.read f = v then cb.block else cb.block.write f v := by
  unfold SET_STATIC_STATE CommandBuffer.block
  by_cases h : cb.pipeline_state.static_state.read f = v
  · simp [h]
  · simp [h, CommandBuffer.set_dirty]

theorem SET_STATIC_STATE_read_same (f : StaticField) (v : Nat) (cb : CommandBuffer)
    (hv : v < 2 ^ f.bits) : (SET_STATIC_STATE f v cb).block.read f = v := by
  rw [SET_STATIC_STATE_block]
  split
  · assumption
  · rw [PipelineState.read_write_same, Nat.mod_eq_of_lt hv]

theorem SET_STATIC_STATE_read_other (f g : StaticField) (v : Nat) (cb : CommandBuffer)
    (h : g ≠ f) : (SET_STATIC_STATE f v cb).block.read g = cb.block.read g := by
  rw [SET_STATIC_STATE_block]
  split
  · rfl
  · exact PipelineState.read_write_other _ _ _ _ h

/-! ### Bit masks -/

theorem lor_land_self (d m : Nat) : (d ||| m) &&& m = m := by
  apply Nat.eq_of_testBit_eq
  intro i
  simp only [Nat.testBit_land, Nat.testBit_lor]
  cases Nat.testBit d i <;> cases Nat.testBit m i <;> rfl

theorem lor_lor_self (d m : Nat) : (d ||| m) ||| m = d ||| m := by
  apply Nat.eq_of_testBit_eq
  intro i
  simp only [Nat.testBit_lor]
  cases Nat.testBit d i <;> cases Nat.testBit m i <;> rfl

theorem lor_land_disjoint (d m f : Nat) (h : f &&& m = 0) : (d ||| m) &&& f = d &&& f := by
  apply Nat.eq_of_testBit_eq
  intro i
  have h2 := congrArg (fun x => Nat.testBit x i) h
  simp only [Nat.testBit_land, Nat.testBit_lor, Nat.zero_testBit] at h2 ⊢
  revert h2
  cases Nat.testBit d i <;> cases Nat.testBit m i <;> cases Nat.testBit f i <;> simp

theorem testBit_lor_mono (d m i : Nat) (h : Nat.testBit d i = true) :
    Nat.testBit (d ||| m) i = true := by
  simp [Nat.testBit_lor, h]

theorem is_dirty_set_dirty_self (cb : CommandBuffer) (flag : Nat) (h : flag ≠ 0) :
    (CommandBuffer.set_dirty flag cb).is_dirty flag = true := by
  simp [CommandBuffer.is_dirty, CommandBuffer.set_dirty, lor_land_self, h]

/-! ### Sequences of `SET_STATIC_STATE` -/

theorem set_static_states_cons (t : StaticField × Nat) (ts : List (StaticField × Nat))
    (cb : CommandBuffer) :
    set_static_states (t :: ts) cb = set_static_states ts (SET_STATIC_STATE t.1 t.2 cb) := rfl

theorem set_static_states_same_outside (ts : List (StaticField × Nat)) (cb : CommandBuffer) :
    cb.same_outside_static (set_static_states ts cb) := by
  induction ts generalizing cb with
  | nil => exact cb.same_outside_static_refl
  | cons t ts ih =>
    rw [set_static_states_cons]
    exact CommandBuffer.same_outside_static_trans (SET_STATIC_STATE_same_outside _ _ _) (ih _)

theorem set_static_states_of_matches (ts : List (StaticField × Nat)) (cb : CommandBuffer)
    (h : ∀ t ∈ ts, cb.block.read t.1 = t.2) : set_static_states ts cb = cb := by
  induction ts with
  | nil => rfl
  | cons t ts ih =>
    rw [set_static_states_cons, SET_STATIC_STATE_of_eq _ _ _ (h t (List.mem_cons_self _ _))]
    exact ih (fun u hu => h u (List.mem_cons_of_mem _ hu))

theorem set_static_states_dirty (ts : List (StaticField × Nat)) (cb : CommandBuffer) :
    (set_static_states ts cb).dirty = cb.dirty ∨
      (set_static_states ts cb).dirty = cb.dirty ||| COMMAND_BUFFER_DIRTY_STATIC_STATE_BIT := by
  induction ts generalizing cb with
  | nil => exact Or.inl rfl
  | cons t ts ih =>
    rw [set_static_states_cons]
    by_cases h : cb.block.read t.1 = t.2
    · rw [SET_STATIC_STATE_of_eq _ _ _ h]
      exact ih cb
    · have hd := SET_STATIC_STATE_dirty_of_ne _ _ _ h
      rcases ih (SET_STATIC_STATE t.1 t.2 cb) with h2 | h2
      · exact Or.inr (by rw [h2, hd])
      · exact Or.inr (by rw [h2, hd, lor_lor_self])

theorem set_static_states_dirty_of_mismatch (ts : List (StaticField × Nat)) (cb : CommandBuffer)
    (h : ∃ t ∈ ts, cb.block.read t.1 ≠ t.2) :
    (set_static_states ts cb).dirty = cb.dirty ||| COMMAND_BUFFER_DIRTY_STATIC_STATE_BIT := by
  induction ts with
  | nil =>
    obtain ⟨t, ht, _⟩ := h
    cases ht
  | cons t ts ih =>
    rw [set_static_states_cons]
    by_cases h1 : cb.block.read t.1 = t.2
    · rw [SET_STATIC_STATE_of_eq _ _ _ h1]
      apply ih
      obtain ⟨u, hu, hne⟩ := h
      rcases List.mem_cons.mp hu with rfl | hu2
      · exact absurd h1 hne
      · exact ⟨u, hu2, hne⟩
    · have hd := SET_STATIC_STATE_dirty_of_ne _ _ _ h1
      rcases set_static_states_dirty ts (SET_STATIC_STATE t.1 t.2 cb) with h2 | h2
      · rw [h2, hd]
      · rw [h2, hd, lor_lor_self]

theorem set_static_states_read_other (ts : List (StaticField × Nat)) (cb : CommandBuffer)
    (g : StaticField) (hg : g ∉ ts.map Prod.fst) :
    (set_static_states ts cb).block.read g = cb.block.read g := by
  induction ts generalizing cb with
  | nil => rfl
  | cons t ts ih =>
    rw [set_static_states_cons]
    simp only [List.map_cons, List.mem_cons, not_or] at hg
    rw [ih _ hg.2, SET_STATIC_STATE_read_other _ _ _ _ hg.1]

theorem set_static_states_read_target (ts : List (StaticField × Nat)) (cb : CommandBuffer)
    (hnd : (ts.map Prod.fst).Nodup) (hrep : ∀ t ∈ ts, t.2 < 2 ^ t.1.bits) :
    ∀ t ∈ ts, (set_static_states ts cb).block.read t.1 = t.2 := by
  induction ts generalizing cb with
  | nil =>
    intro t ht
    cases ht
  | cons u ts ih =>
    intro t ht
    rw [set_static_states_cons]
    simp only [List.map_cons, List.nodup_cons] at hnd
    rcases List.mem_cons.mp ht with rfl | ht2
    · rw [set_static_states_read_other _ _ _ hnd.1]
      exact SET_STATIC_STATE_read_same _ _ _ (hrep _ (List.mem_cons_self _ _))
    · exact ih _ hnd.2 (fun v hv => hrep v (List.mem_cons_of_mem _ hv)) t ht2

/-- The general read of a targeted member after a sequence of
`SET_STATIC_STATE` expansions on distinct members: the argument if the member
already held it, else the argument cut to the width of the member. -/
theorem set_static_states_read_target_any (ts : List (StaticField × Nat)) :
    ∀ (cb : CommandBuffer), (ts.map Prod.fst).Nodup →
      ∀ t ∈ ts, (set_static_states ts cb).block.read t.1 =
        if cb.block.read t.1 = t.2 then t.2 else t.2 % 2 ^ t.1.bits := by
  induction ts with
  | nil => intro cb _ t ht; cases ht
  | cons u us ih =>
    intro cb hnd t ht
    rw [List.map_cons, List.nodup_cons] at hnd
    rw [set_static_states_cons]
    rcases List.mem_cons.mp ht with h | h
    · subst h
      rw [set_static_states_read_other us _ t.1 hnd.1, SET_STATIC_STATE_block]
      split
      · rename_i hm
        exact hm
      · exact PipelineState.read_write_same _ _ _
    · have hne : t.1 ≠ u.1 := by
        intro he
        apply hnd.1
        rw [← he]
        exact List.mem_map_of_mem Prod.fst h
      rw [ih (SET_STATIC_STATE u.1 u.2 cb) hnd.2 t h, SET_STATIC_STATE_read_other u.1 t.1 u.2 cb hne]

/-- A sequence of `SET_STATIC_STATE` expansions on distinct members changes
the block exactly when some argument differs from the member it targets and
still differs from it after being cut to the width of the member. -/
theorem set_static_states_block_ne_iff (ts : List (StaticField × Nat)) (cb : CommandBuffer)
    (hnd : (ts.map Prod.fst).Nodup) :
    (set_static_states ts cb).block ≠ cb.block ↔
      ∃ t ∈ ts, cb.block.read t.1 ≠ t.2 ∧ t.2 % 2 ^ t.1.bits ≠ cb.block.read t.1 := by
  have hread := set_static_states_read_target_any ts cb hnd
  constructor
  · intro hne
    by_contra hall
    push_neg at hall
    apply hne
    apply PipelineState.ext_read
    intro g
    by_cases hg : g ∈ ts.map Prod.fst
    · obtain ⟨t, ht, rfl⟩ := List.mem_map.mp hg
      rw [hread t ht]
      by_cases he : cb.block.read t.1 = t.2
      · rw [if_pos he]
        exact he.symm
      · rw [if_neg he]
        exact hall t ht he
    · exact set_static_states_read_other ts cb g hg
  · rintro ⟨t, ht, hne, hcut⟩ heq
    have h := hread t ht
    rw [if_neg hne, heq] at h
    exact hcut h.symm

theorem StaticCall.targets_nodup (c : StaticCall) : (c.targets.map Prod.fst).Nodup := by
  cases c <;> simp [StaticCall.targets]

theorem StaticCall.run_same_outside (c : StaticCall) (cb : CommandBuffer) :
    cb.same_outside_static (c.run cb) := by
  rw [run_eq_set_static_states]
  exact set_static_states_same_outside _ _

theorem StaticCall.block_changes_of_newly_dirty (c : StaticCall) (cb : CommandBuffer)
    (hrep : c.representable) (hd : (c.run cb).dirty ≠ cb.dirty) : (c.run cb).block ≠ cb.block := by
  rw [run_eq_set_static_states] at hd ⊢
  by_cases hm : ∀ t ∈ c.targets, cb.block.read t.1 = t.2
  · exact absurd (by rw [set_static_states_of_matches _ _ hm]) hd
  · simp only [not_forall] at hm
    obtain ⟨t, ht, hne⟩ := hm
    have hr := set_static_states_read_target c.targets cb c.targets_nodup hrep t ht
    intro heq
    rw [heq] at hr
    exact hne hr

theorem StaticCall.run_eq_self_of_block_eq (c : StaticCall) (cb : CommandBuffer)
    (hrep : c.representable) (hb : (c.run cb).block = cb.block) : c.run cb = cb := by
  have hd : (c.run cb).dirty = cb.dirty := by
    by_contra hne
    exact c.block_changes_of_newly_dirty cb hrep hne hb
  exact CommandBuffer.eq_of_same_outside_static (c.run_same_outside cb) hd hb

theorem run_calls_cons (c : StaticCall) (cs : List StaticCall) (cb : CommandBuffer) :
    run_calls (c :: cs) cb = run_calls cs (c.run cb) := rfl

theorem run_calls_eq_self_of_blocks_eq (cs : List StaticCall) (cb : CommandBuffer)
    (hrep : ∀ c ∈ cs, c.representable)
    (hsame : ∀ k, k ≤ cs.length → (run_calls (cs.take k) cb).block = cb.block) :
    run_calls cs cb = cb := by
  induction cs with
  | nil => rfl
  | cons c cs ih =>
    have h1 : c.run cb = cb := by
      apply c.run_eq_self_of_block_eq cb (hrep c (List.mem_cons_self _ _))
      have := hsame 1 (by simp)
      simpa [run_calls] using this
    rw [run_calls_cons, h1]
    apply ih (fun d hd => hrep d (List.mem_cons_of_mem _ hd))
    intro k hk
    have := hsame (k + 1) (by simpa using hk)
    rw [List.take_succ_cons, run_calls_cons, h1] at this
    exact this

/-! ## The claims about the pipeline-state setters -/

/-- C1: a pipeline-state setter all of whose arguments equal the current value
of the member they target is a no-op: the whole recorder (Pipeline State
Block, potential and dynamic state, dirty word) is unchanged. -/
theorem C1_setter_with_current_values_is_noop (c : StaticCall) (cb : CommandBuffer)
    (h : c.matches_current cb) : c.run cb = cb := by
  rw [run_eq_set_static_states]
  exact set_static_states_of_matches _ _ h

/-- C1 at a concrete call: `SetStencilOps(0, 0, 0, 0)` on the zeroed recorder. -/
theorem C1_setter_with_current_values_is_noop_witness :
    (StaticCall.SetStencilOps 0 0 0 0).run CommandBuffer.zeroed = CommandBuffer.zeroed :=
  C1_setter_with_current_values_is_noop (StaticCall.SetStencilOps 0 0 0 0) CommandBuffer.zeroed
    (by
      intro t ht
      simp only [StaticCall.targets, List.mem_cons, List.mem_singleton, List.not_mem_nil,
        or_false] at ht
      rcases ht with h | h | h | h | h | h | h | h <;> subst h <;> rfl)

/-- C2 as stated fails: with `color_blend_op = 0` and a clear dirty word,
`SetBlendOp(VK_BLEND_OP_ZERO_EXT, VK_BLEND_OP_ADD)` (1000148000 and 0) raises
the static-state bit although the block is unchanged, because 1000148000 is
compared untruncated and stored modulo 8. -/
theorem C2_wide_argument_sets_dirty_without_change :
    CommandBuffer.zeroed.is_dirty COMMAND_BUFFER_DIRTY_STATIC_STATE_BIT = false ∧
    ((StaticCall.SetBlendOp 1000148000 0).run CommandBuffer.zeroed).is_dirty
        COMMAND_BUFFER_DIRTY_STATIC_STATE_BIT = true ∧
    ((StaticCall.SetBlendOp 1000148000 0).run CommandBuffer.zeroed).block =
        CommandBuffer.zeroed.block := by
  decide

/-- C2 amended: with the static-state bit clear before the call, a call of a
pipeline-state setter with any arguments that sets the bit has changed the
Pipeline State Block exactly when some argument differs from the member it
targets also after being cut to the width of the member; otherwise (every
argument that differs from its member equals it modulo `2 ^ width`) the block
is unchanged. In particular the block has changed when every argument fits the
width of its member. -/
theorem C2_dirty_bit_set_implies_block_changed (c : StaticCall) (cb : CommandBuffer)
    (hclear : cb.is_dirty COMMAND_BUFFER_DIRTY_STATIC_STATE_BIT = false)
    (hset : (c.run cb).is_dirty COMMAND_BUFFER_DIRTY_STATIC_STATE_BIT = true) :
    ((c.run cb).block ≠ cb.block ↔
      ∃ t ∈ c.targets, cb.block.read t.1 ≠ t.2 ∧ t.2 % 2 ^ t.1.bits ≠ cb.block.read t.1) ∧
    ((∃ t ∈ c.targets, cb.block.read t.1 ≠ t.2 ∧ t.2 % 2 ^ t.1.bits ≠ cb.block.read t.1) →
      (c.run cb).block ≠ cb.block) ∧
    ((∀ t ∈ c.targets, cb.block.read t.1 ≠ t.2 → t.2 % 2 ^ t.1.bits = cb.block.read t.1) →
      (c.run cb).block = cb.block) ∧
    (c.representable → (c.run cb).block ≠ cb.block) := by
  have hiff : (c.run cb).block ≠ cb.block ↔
      ∃ t ∈ c.targets, cb.block.read t.1 ≠ t.2 ∧ t.2 % 2 ^ t.1.bits ≠ cb.block.read t.1 := by
    rw [run_eq_set_static_states]
    exact set_static_states_block_ne_iff c.targets cb c.targets_nodup
  refine ⟨hiff, hiff.mpr, ?_, ?_⟩
  · intro hall
    by_contra hne
    obtain ⟨t, ht, h1, h2⟩ := hiff.mp hne
    exact h2 (hall t ht h1)
  · intro hrep
    apply c.block_changes_of_newly_dirty cb hrep
    intro hd
    unfold CommandBuffer.is_dirty at hclear hset
    rw [hd, hclear] at hset
    exact Bool.noConfusion hset

/-- C2 amended at a call with an argument wider than its member:
`SetBlendOp(1000148001, 0)` on the zeroed recorder stores 1 in the three bits
of `color_blend_op`, so the block has changed. -/
theorem C2_dirty_bit_set_implies_block_changed_witness :
    ((StaticCall.SetBlendOp 1000148001 0).run CommandBuffer.zeroed).block ≠
      CommandBuffer.zeroed.block :=
  (C2_dirty_bit_set_implies_block_changed (StaticCall.SetBlendOp 1000148001 0)
    CommandBuffer.zeroed (by decide) (by decide)).2.1
    ⟨(StaticField.color_blend_op, 1000148001), by simp [StaticCall.targets], by decide,
      by decide⟩

/-- C3 as stated fails: from the zeroed recorder, `SetCullMode(1)` followed by
`SetCullMode(0)` restores the Pipeline State Block, yet the static-state bit
raised by the first call is still set. -/
theorem C3_round_trip_leaves_dirty_bit_set :
    CommandBuffer.zeroed.is_dirty COMMAND_BUFFER_DIRTY_STATIC_STATE_BIT = false ∧
    (run_calls [StaticCall.SetCullMode 1, StaticCall.SetCullMode 0] CommandBuffer.zeroed).block =
        CommandBuffer.zeroed.block ∧
    (run_calls [StaticCall.SetCullMode 1, StaticCall.SetCullMode 0] CommandBuffer.zeroed).is_dirty
        COMMAND_BUFFER_DIRTY_STATIC_STATE_BIT = true := by
  decide

/-- C3 amended: from a recorder whose static-state bit is clear, a sequence of
setter calls with fitting arguments, after every call of which the Pipeline
State Block equals the initial block, leaves the recorder unchanged and the
static-state bit clear. -/
theorem C3_dirty_bit_clear_if_no_call_changes_block (cs : List StaticCall) (cb : CommandBuffer)
    (hrep : ∀ c ∈ cs, c.representable)
    (hclear : cb.is_dirty COMMAND_BUFFER_DIRTY_STATIC_STATE_BIT = false)
    (hsame : ∀ k, k ≤ cs.length → (run_calls (cs.take k) cb).block = cb.block) :
    run_calls cs cb = cb ∧
      (run_calls cs cb).is_dirty COMMAND_BUFFER_DIRTY_STATIC_STATE_BIT = false := by
  have h := run_calls_eq_self_of_blocks_eq cs cb hrep hsame
  exact ⟨h, by rw [h]; exact hclear⟩

/-- C3 amended at a concrete sequence: two calls that repeat the current values
of the zeroed recorder. -/
theorem C3_dirty_bit_clear_if_no_call_changes_block_witness :
    run_calls [StaticCall.SetCullMode 0, StaticCall.SetDepthTest false false] CommandBuffer.zeroed =
        CommandBuffer.zeroed ∧
      (run_calls [StaticCall.SetCullMode 0, StaticCall.SetDepthTest false false]
          CommandBuffer.zeroed).is_dirty COMMAND_BUFFER_DIRTY_STATIC_STATE_BIT = false :=
  C3_dirty_bit_clear_if_no_call_changes_block
    [StaticCall.SetCullMode 0, StaticCall.SetDepthTest false false] CommandBuffer.zeroed
    (by
      intro c hc
      simp only [List.mem_cons, List.mem_singleton, List.not_mem_nil, or_false] at hc
      rcases hc with h | h <;> subst h <;> intro t ht <;>
        simp only [StaticCall.targets, List.mem_cons, List.mem_singleton, List.not_mem_nil,
          or_false] at ht
      · subst ht
        decide
      · rcases ht with h | h <;> subst h <;> decide)
    (by decide)
    (by
      intro k hk
      have hk2 : k ≤ 2 := hk
      interval_cases k <;> decide)

/-- C4: for a call whose arguments fit the members they target, every targeted
member equals its argument after the call, and the static-state bit is set
after the call exactly when it was set before or some targeted member
differed from its argument. -/
theorem C4_setter_stores_arguments_and_marks_dirty (c : StaticCall) (cb : CommandBuffer)
    (hrep : c.representable) :
    (∀ t ∈ c.targets, (c.run cb).block.read t.1 = t.2) ∧
    ((c.run cb).is_dirty COMMAND_BUFFER_DIRTY_STATIC_STATE_BIT = true ↔
      (cb.is_dirty COMMAND_BUFFER_DIRTY_STATIC_STATE_BIT = true ∨
        ∃ t ∈ c.targets, cb.block.read t.1 ≠ t.2)) := by
  rw [run_eq_set_static_states]
  refine ⟨set_static_states_read_target _ _ c.targets_nodup hrep, ?_⟩
  by_cases hm : ∀ t ∈ c.targets, cb.block.read t.1 = t.2
  · rw [set_static_states_of_matches _ _ hm]
    constructor
    · exact Or.inl
    · rintro (h | ⟨t, ht, hne⟩)
      · exact h
      · exact absurd (hm t ht) hne
  · have hm2 : ∃ t ∈ c.targets, cb.block.read t.1 ≠ t.2 := by
      simpa only [not_forall, exists_prop] using hm
    have hd := set_static_states_dirty_of_mismatch _ _ hm2
    constructor
    · intro _
      exact Or.inr hm2
    · intro _
      unfold CommandBuffer.is_dirty
      rw [hd, lor_land_self]
      decide

/-- C4 at a concrete call: `SetCullMode(3)` on the zeroed recorder. -/
theorem C4_setter_stores_arguments_and_marks_dirty_witness :
    (∀ t ∈ (StaticCall.SetCullMode 3).targets,
        ((StaticCall.SetCullMode 3).run CommandBuffer.zeroed).block.read t.1 = t.2) ∧
    (((StaticCall.SetCullMode 3).run CommandBuffer.zeroed).is_dirty
        COMMAND_BUFFER_DIRTY_STATIC_STATE_BIT = true ↔
      (CommandBuffer.zeroed.is_dirty COMMAND_BUFFER_DIRTY_STATIC_STATE_BIT = true ∨
        ∃ t ∈ (StaticCall.SetCullMode 3).targets, CommandBuffer.zeroed.block.read t.1 ≠ t.2)) :=
  C4_setter_stores_arguments_and_marks_dirty (StaticCall.SetCullMode 3) CommandBuffer.zeroed
    (by
      intro t ht
      simp only [StaticCall.targets, List.mem_singleton] at ht
      subst ht
      decide)

/-! ## The dynamic-state setters -/

theorem SET_DYNAMIC_STATE_pipeline_state (f : DynamicField) (v flags : Nat) (cb : CommandBuffer) :
    (SET_DYNAMIC_STATE f v flags cb).pipeline_state = cb.pipeline_state := by
  unfold SET_DYNAMIC_STATE
  split <;> rfl

theorem SET_DYNAMIC_STATE_dirty (f : DynamicField) (v flags : Nat) (cb : CommandBuffer) :
    (SET_DYNAMIC_STATE f v flags cb).dirty =
      if f.ne (cb.dynamic_state.read f) v then cb.dirty ||| flags else cb.dirty := by
  unfold SET_DYNAMIC_STATE
  split <;> rfl

theorem SET_DYNAMIC_STATE_dynamic_state (f : DynamicField) (v flags : Nat) (cb : CommandBuffer) :
    (SET_DYNAMIC_STATE f v flags cb).dynamic_state =
      if f.ne (cb.dynamic_state.read f) v then cb.dynamic_state.write f v
      else cb.dynamic_state := by
  unfold SET_DYNAMIC_STATE
  split <;> rfl

theorem SetStencilFrontReference_eq (cb : CommandBuffer) (c w r : Nat) :
    cb.SetStencilFrontReference c w r =
      if cb.dynamic_state.front_compare_mask = c ∧ cb.dynamic_state.front_write_mask = w ∧
          cb.dynamic_state.front_reference = r then cb
      else
        { cb with
            dirty := cb.dirty ||| COMMAND_BUFFER_DIRTY_STENCIL_REFERENCE_BIT,
            dynamic_state :=
              { cb.dynamic_state with
                  front_compare_mask := c, front_write_mask := w, front_reference := r } } := by
  rcases cb with ⟨d, x1, x2, x3, x4, ps, ⟨dc, dsl, fc, fw, fr, bc, bw, br⟩⟩
  by_cases h1 : fc = c <;> by_cases h2 : fw = w <;> by_cases h3 : fr = r <;>
    simp [CommandBuffer.SetStencilFrontReference, SET_DYNAMIC_STATE, DynamicField.ne,
      DynamicState.read, DynamicState.write, CommandBuffer.set_dirty, h1, h2, h3, lor_lor_self]

theorem SetStencilBackReference_eq (cb : CommandBuffer) (c w r : Nat) :
    cb.SetStencilBackReference c w r =
      if cb.dynamic_state.back_compare_mask = c ∧ cb.dynamic_state.back_write_mask = w ∧
          cb.dynamic_state.back_reference = r then cb
      else
        { cb with
            dirty := cb.dirty ||| COMMAND_BUFFER_DIRTY_STENCIL_REFERENCE_BIT,
            dynamic_state :=
              { cb.dynamic_state with
                  back_compare_mask := c, back_write_mask := w, back_reference := r } } := by
  rcases cb with ⟨d, x1, x2, x3, x4, ps, ⟨dc, dsl, fc, fw, fr, bc, bw, br⟩⟩
  by_cases h1 : bc = c <;> by_cases h2 : bw = w <;> by_cases h3 : br = r <;>
    simp [CommandBuffer.SetStencilBackReference, SET_DYNAMIC_STATE, DynamicField.ne,
      DynamicState.read, DynamicState.write, CommandBuffer.set_dirty, h1, h2, h3, lor_lor_self]

/-- C5: after `SetStencilFrontReference(c, w, r)` with `uint8_t` arguments the
three front members of the dynamic state hold the arguments; the
stencil-reference bit is set afterwards exactly when it was set before or one of
the three stored values differed from its argument; every dirty flag disjoint
from that bit is unchanged. The same holds for `SetStencilBackReference` and
the back members. -/
theorem C5_stencil_reference_setters (cb : CommandBuffer) (c w r : Nat)
    (_hc : c < 2 ^ 8) (_hw : w < 2 ^ 8) (_hr : r < 2 ^ 8) :
    ((cb.SetStencilFrontReference c w r).dynamic_state.front_compare_mask = c ∧
      (cb.SetStencilFrontReference c w r).dynamic_state.front_write_mask = w ∧
      (cb.SetStencilFrontReference c w r).dynamic_state.front_reference = r ∧
      ((cb.SetStencilFrontReference c w r).is_dirty COMMAND_BUFFER_DIRTY_STENCIL_REFERENCE_BIT = true ↔
        (cb.is_dirty COMMAND_BUFFER_DIRTY_STENCIL_REFERENCE_BIT = true ∨
          cb.dynamic_state.front_compare_mask ≠ c ∨ cb.dynamic_state.front_write_mask ≠ w ∨
          cb.dynamic_state.front_reference ≠ r)) ∧
      (∀ flag, flag &&& COMMAND_BUFFER_DIRTY_STENCIL_REFERENCE_BIT = 0 →
        (cb.SetStencilFrontReference c w r).dirty &&& flag = cb.dirty &&& flag)) ∧
    ((cb.SetStencilBackReference c w r).dynamic_state.back_compare_mask = c ∧
      (cb.SetStencilBackReference c w r).dynamic_state.back_write_mask = w ∧
      (cb.SetStencilBackReference c w r).dynamic_state.back_reference = r ∧
      ((cb.SetStencilBackReference c w r).is_dirty COMMAND_BUFFER_DIRTY_STENCIL_REFERENCE_BIT = true ↔
        (cb.is_dirty COMMAND_BUFFER_DIRTY_STENCIL_REFERENCE_BIT = true ∨
          cb.dynamic_state.back_compare_mask ≠ c ∨ cb.dynamic_state.back_write_mask ≠ w ∨
          cb.dynamic_state.back_reference ≠ r)) ∧
      (∀ flag, flag &&& COMMAND_BUFFER_DIRTY_STENCIL_REFERENCE_BIT = 0 →
        (cb.SetStencilBackReference c w r).dirty &&& flag = cb.dirty &&& flag)) := by
  have hbit : COMMAND_BUFFER_DIRTY_STENCIL_REFERENCE_BIT ≠ 0 := by decide
  constructor
  · rw [SetStencilFrontReference_eq]
    by_cases h : cb.dynamic_state.front_compare_mask = c ∧ cb.dynamic_state.front_write_mask = w ∧
        cb.dynamic_state.front_reference = r
    · rw [if_pos h]
      refine ⟨h.1, h.2.1, h.2.2, ?_, fun _ _ => rfl⟩
      constructor
      · exact Or.inl
      · rintro (h0 | h1 | h2 | h3)
        · exact h0
        · exact absurd h.1 h1
        · exact absurd h.2.1 h2
        · exact absurd h.2.2 h3
    · rw [if_neg h]
      refine ⟨rfl, rfl, rfl, ?_, fun flag hf => lor_land_disjoint _ _ _ hf⟩
      constructor
      · intro _
        by_contra hn
        simp only [not_or, not_not] at hn
        exact h ⟨hn.2.1, hn.2.2.1, hn.2.2.2⟩
      · intro _
        simp [CommandBuffer.is_dirty, lor_land_self, hbit]
  · rw [SetStencilBackReference_eq]
    by_cases h : cb.dynamic_state.back_compare_mask = c ∧ cb.dynamic_state.back_write_mask = w ∧
        cb.dynamic_state.back_reference = r
    · rw [if_pos h]
      refine ⟨h.1, h.2.1, h.2.2, ?_, fun _ _ => rfl⟩
      constructor
      · exact Or.inl
      · rintro (h0 | h1 | h2 | h3)
        · exact h0
        · exact absurd h.1 h1
        · exact absurd h.2.1 h2
        · exact absurd h.2.2 h3
    · rw [if_neg h]
      refine ⟨rfl, rfl, rfl, ?_, fun flag hf => lor_land_disjoint _ _ _ hf⟩
      constructor
      · intro _
        by_contra hn
        simp only [not_or, not_not] at hn
        exact h ⟨hn.2.1, hn.2.2.1, hn.2.2.2⟩
      · intro _
        simp [CommandBuffer.is_dirty, lor_land_self, hbit]

/-- C5 at a concrete call: the triple (255, 1, 7) on the zeroed recorder. -/
theorem C5_stencil_reference_setters_witness :
    ((CommandBuffer.zeroed.SetStencilFrontReference 255 1 7).dynamic_state.front_compare_mask = 255 ∧
      (CommandBuffer.zeroed.SetStencilFrontReference 255 1 7).dynamic_state.front_write_mask = 1 ∧
      (CommandBuffer.zeroed.SetStencilFrontReference 255 1 7).dynamic_state.front_reference = 7 ∧
      ((CommandBuffer.zeroed.SetStencilFrontReference 255 1 7).is_dirty
          COMMAND_BUFFER_DIRTY_STENCIL_REFERENCE_BIT = true ↔
        (CommandBuffer.zeroed.is_dirty COMMAND_BUFFER_DIRTY_STENCIL_REFERENCE_BIT = true ∨
          CommandBuffer.zeroed.dynamic_state.front_compare_mask ≠ 255 ∨
          CommandBuffer.zeroed.dynamic_state.front_write_mask ≠ 1 ∨
          CommandBuffer.zeroed.dynamic_state.front_reference ≠ 7)) ∧
      (∀ flag, flag &&& COMMAND_BUFFER_DIRTY_STENCIL_REFERENCE_BIT = 0 →
        (CommandBuffer.zeroed.SetStencilFrontReference 255 1 7).dirty &&& flag =
          CommandBuffer.zeroed.dirty &&& flag)) ∧
    ((CommandBuffer.zeroed.SetStencilBackReference 255 1 7).dynamic_state.back_compare_mask = 255 ∧
      (CommandBuffer.zeroed.SetStencilBackReference 255 1 7).dynamic_state.back_write_mask = 1 ∧
      (CommandBuffer.zeroed.SetStencilBackReference 255 1 7).dynamic_state.back_reference = 7 ∧
      ((CommandBuffer.zeroed.SetStencilBackReference 255 1 7).is_dirty
          COMMAND_BUFFER_DIRTY_STENCIL_REFERENCE_BIT = true ↔
        (CommandBuffer.zeroed.is_dirty COMMAND_BUFFER_DIRTY_STENCIL_REFERENCE_BIT = true ∨
          CommandBuffer.zeroed.dynamic_state.back_compare_mask ≠ 255 ∨
          CommandBuffer.zeroed.dynamic_state.back_write_mask ≠ 1 ∨
          CommandBuffer.zeroed.dynamic_state.back_reference ≠ 7)) ∧
      (∀ flag, flag &&& COMMAND_BUFFER_DIRTY_STENCIL_REFERENCE_BIT = 0 →
        (CommandBuffer.zeroed.SetStencilBackReference 255 1 7).dirty &&& flag =
          CommandBuffer.zeroed.dirty &&& flag)) :=
  C5_stencil_reference_setters CommandBuffer.zeroed 255 1 7 (by decide) (by decide) (by decide)

theorem land_eq_zero_of_subset (f m n : Nat) (h : f &&& n = 0) (hs : m &&& n = m) :
    f &&& m = 0 := by
  rw [← hs, ← Nat.land_assoc, Nat.land_comm f m, Nat.land_assoc, h]
  simp

theorem SET_DYNAMIC_STATE_dirty_raised (f : DynamicField) (v flags : Nat) (cb : CommandBuffer) :
    CommandBuffer.dirty_raised_within flags cb (SET_DYNAMIC_STATE f v flags cb) := by
  unfold CommandBuffer.dirty_raised_within
  rw [SET_DYNAMIC_STATE_dirty]
  split
  · exact Or.inr rfl
  · exact Or.inl rfl

theorem CommandBuffer.dirty_raised_within_trans {flags : Nat} {a b c : CommandBuffer}
    (h1 : CommandBuffer.dirty_raised_within flags a b)
    (h2 : CommandBuffer.dirty_raised_within flags b c) :
    CommandBuffer.dirty_raised_within flags a c := by
  unfold CommandBuffer.dirty_raised_within at *
  rcases h1 with h1 | h1 <;> rcases h2 with h2 | h2
  · exact Or.inl (by rw [h2, h1])
  · exact Or.inr (by rw [h2, h1])
  · exact Or.inr (by rw [h2, h1])
  · exact Or.inr (by rw [h2, h1, lor_lor_self])

theorem CommandBuffer.dirty_raised_within_land {flags : Nat} {a b : CommandBuffer}
    (h : CommandBuffer.dirty_raised_within flags a b) (flag : Nat) (hf : flag &&& flags = 0) :
    b.dirty &&& flag = a.dirty &&& flag := by
  rcases h with h | h
  · rw [h]
  · rw [h, lor_land_disjoint _ _ _ hf]

theorem DynamicCall.run_dirty_raised (c : DynamicCall) (cb : CommandBuffer) :
    CommandBuffer.dirty_raised_within c.flag cb (c.run cb) := by
  cases c with
  | SetDepthBias a b =>
    exact CommandBuffer.dirty_raised_within_trans (SET_DYNAMIC_STATE_dirty_raised _ _ _ _)
      (SET_DYNAMIC_STATE_dirty_raised _ _ _ _)
  | SetStencilFrontReference a b c =>
    exact CommandBuffer.dirty_raised_within_trans
      (CommandBuffer.dirty_raised_within_trans (SET_DYNAMIC_STATE_dirty_raised _ _ _ _)
        (SET_DYNAMIC_STATE_dirty_raised _ _ _ _))
      (SET_DYNAMIC_STATE_dirty_raised _ _ _ _)
  | SetStencilBackReference a b c =>
    exact CommandBuffer.dirty_raised_within_trans
      (CommandBuffer.dirty_raised_within_trans (SET_DYNAMIC_STATE_dirty_raised _ _ _ _)
        (SET_DYNAMIC_STATE_dirty_raised _ _ _ _))
      (SET_DYNAMIC_STATE_dirty_raised _ _ _ _)

theorem DynamicCall.run_pipeline_state (c : DynamicCall) (cb : CommandBuffer) :
    (c.run cb).pipeline_state = cb.pipeline_state := by
  cases c <;>
    simp only [DynamicCall.run, CommandBuffer.SetDepthBias_dynamic,
      CommandBuffer.SetStencilFrontReference, CommandBuffer.SetStencilBackReference,
      SET_DYNAMIC_STATE_pipeline_state]

theorem DynamicCall.flag_within_dynamic_bits (c : DynamicCall) :
    c.flag &&& COMMAND_BUFFER_DYNAMIC_BITS = c.flag := by
  cases c <;> simp only [DynamicCall.flag] <;> decide

/-- C6: `SetDepthBias(constant, slope)`, `SetStencilFrontReference` and
`SetStencilBackReference` leave the whole deferred pipeline compile record
unchanged, leave the static-state, pipeline and static-vertex dirty bits
unchanged, and change no dirty flag outside `COMMAND_BUFFER_DYNAMIC_BITS`. -/
theorem C6_dynamic_setters_keep_pipeline_identity (c : DynamicCall) (cb : CommandBuffer) :
    (c.run cb).pipeline_state = cb.pipeline_state ∧
    (c.run cb).dirty &&& COMMAND_BUFFER_DIRTY_STATIC_STATE_BIT =
      cb.dirty &&& COMMAND_BUFFER_DIRTY_STATIC_STATE_BIT ∧
    (c.run cb).dirty &&& COMMAND_BUFFER_DIRTY_PIPELINE_BIT =
      cb.dirty &&& COMMAND_BUFFER_DIRTY_PIPELINE_BIT ∧
    (c.run cb).dirty &&& COMMAND_BUFFER_DIRTY_STATIC_VERTEX_BIT =
      cb.dirty &&& COMMAND_BUFFER_DIRTY_STATIC_VERTEX_BIT ∧
    (∀ flag, flag &&& COMMAND_BUFFER_DYNAMIC_BITS = 0 →
      (c.run cb).dirty &&& flag = cb.dirty &&& flag) ∧
    (∀ i, (c.run cb).dirty.testBit i = true → cb.dirty.testBit i = false →
      COMMAND_BUFFER_DYNAMIC_BITS.testBit i = true) := by
  have hr := c.run_dirty_raised cb
  have hall : ∀ flag, flag &&& COMMAND_BUFFER_DYNAMIC_BITS = 0 →
      (c.run cb).dirty &&& flag = cb.dirty &&& flag := fun flag hf =>
    CommandBuffer.dirty_raised_within_land hr flag
      (land_eq_zero_of_subset _ _ _ hf c.flag_within_dynamic_bits)
  refine ⟨c.run_pipeline_state cb, hall _ (by decide), hall _ (by decide), hall _ (by decide),
    hall, ?_⟩
  intro i h1 h2
  rcases hr with h | h
  · rw [h, h2] at h1
    exact Bool.noConfusion h1
  · rw [h, Nat.testBit_lor, h2, Bool.false_or] at h1
    have := congrArg (fun x => Nat.testBit x i) c.flag_within_dynamic_bits
    simp only [Nat.testBit_land, h1, Bool.true_and] at this
    exact this

theorem CommandBuffer.dirty_raised_within_testBit {flags : Nat} {a b : CommandBuffer}
    (h : CommandBuffer.dirty_raised_within flags a b) (i : Nat)
    (hi : a.dirty.testBit i = true) : b.dirty.testBit i = true := by
  rcases h with h | h
  · rw [h]
    exact hi
  · rw [h]
    exact testBit_lor_mono _ _ _ hi

theorem StaticCall.run_raises_static_bit (c : StaticCall) (cb : CommandBuffer) :
    CommandBuffer.dirty_raised_within COMMAND_BUFFER_DIRTY_STATIC_STATE_BIT cb (c.run cb) := by
  rw [run_eq_set_static_states]
  exact set_static_states_dirty _ _

theorem SET_POTENTIALLY_STATIC_STATE_blend_constants_dirty_raised (i v : Nat)
    (cb : CommandBuffer) :
    CommandBuffer.dirty_raised_within COMMAND_BUFFER_DIRTY_STATIC_STATE_BIT cb
      (SET_POTENTIALLY_STATIC_STATE_blend_constants i v cb) := by
  unfold SET_POTENTIALLY_STATIC_STATE_blend_constants
  split
  · exact Or.inr rfl
  · exact Or.inl rfl

theorem SetBlendConstants_dirty_raised (bc : List Nat) (cb : CommandBuffer) :
    CommandBuffer.dirty_raised_within COMMAND_BUFFER_DIRTY_STATIC_STATE_BIT cb
      (cb.SetBlendConstants bc) :=
  CommandBuffer.dirty_raised_within_trans
    (CommandBuffer.dirty_raised_within_trans
      (CommandBuffer.dirty_raised_within_trans
        (SET_POTENTIALLY_STATIC_STATE_blend_constants_dirty_raised _ _ _)
        (SET_POTENTIALLY_STATIC_STATE_blend_constants_dirty_raised _ _ _))
      (SET_POTENTIALLY_STATIC_STATE_blend_constants_dirty_raised _ _ _))
    (SET_POTENTIALLY_STATIC_STATE_blend_constants_dirty_raised _ _ _)

theorem SetSpecializationConstantMask_dirty_raised (n m : Nat) (cb : CommandBuffer) :
    CommandBuffer.dirty_raised_within COMMAND_BUFFER_DIRTY_STATIC_STATE_BIT cb
      (cb.SetSpecializationConstantMask n m) := by
  unfold CommandBuffer.SetSpecializationConstantMask
    SET_POTENTIALLY_STATIC_STATE_spec_constant_mask
  split
  · exact Or.inr rfl
  · exact Or.inl rfl

theorem SetSpecializationConstant_dirty_raised (n index value : Nat) (cb : CommandBuffer) :
    CommandBuffer.dirty_raised_within COMMAND_BUFFER_DIRTY_STATIC_STATE_BIT cb
      (cb.SetSpecializationConstant n index value) := by
  unfold CommandBuffer.SetSpecializationConstant
  simp only
  split
  · split
    · exact Or.inr rfl
    · exact Or.inl rfl
  · exact Or.inl rfl

theorem get_and_clear_testBit (flags : Nat) (cb : CommandBuffer) (i : Nat) (hi : i < 32)
    (hf : flags.testBit i = true) : (cb.get_and_clear flags).2.dirty.testBit i = false := by
  show (cb.dirty &&& ((2 ^ 32 - 1) ^^^ (flags % 2 ^ 32))).testBit i = false
  rw [Nat.testBit_land, Nat.testBit_xor, Nat.testBit_two_pow_sub_one, Nat.testBit_mod_two_pow, hf]
  simp [hi]

/-- C7: no inline state setter clears a dirty bit: for every call whose
arguments stay inside the arrays the setter indexes (the index of
`SetSpecializationConstant` below `VULKAN_NUM_SPEC_CONSTANTS`, four floats for
`SetBlendConstants`) and any values otherwise, every bit of the dirty word
that is set before the call is set after it; `get_and_clear(flags)` does clear
each of the 32 bits selected by `flags`. -/
theorem C7_setters_never_clear_dirty_bits (num_spec_constants : Nat) (c : SetterCall)
    (cb : CommandBuffer) (_hin : c.in_bounds num_spec_constants cb) :
    (∀ i, cb.dirty.testBit i = true → (c.run num_spec_constants cb).dirty.testBit i = true) ∧
    (∀ flags i, i < 32 → flags.testBit i = true →
      (cb.get_and_clear flags).2.dirty.testBit i = false) := by
  refine ⟨?_, fun flags i hi hf => get_and_clear_testBit flags cb i hi hf⟩
  intro i hi
  cases c with
  | static c => exact CommandBuffer.dirty_raised_within_testBit (c.run_raises_static_bit cb) i hi
  | SetBlendConstants bc =>
    exact CommandBuffer.dirty_raised_within_testBit (SetBlendConstants_dirty_raised bc cb) i hi
  | SetSpecializationConstantMask m =>
    exact CommandBuffer.dirty_raised_within_testBit
      (SetSpecializationConstantMask_dirty_raised num_spec_constants m cb) i hi
  | SetSpecializationConstant index value =>
    exact CommandBuffer.dirty_raised_within_testBit
      (SetSpecializationConstant_dirty_raised num_spec_constants index value cb) i hi
  | dynamic c => exact CommandBuffer.dirty_raised_within_testBit (c.run_dirty_raised cb) i hi

/-- C7 on a recorder with all 32 dirty bits set and eight specialization
constants: `SetSpecializationConstant(2, 7)` leaves bit 5 set. -/
theorem C7_setters_never_clear_dirty_bits_witness :
    ((SetterCall.SetSpecializationConstant 2 7).run 8 CommandBuffer.bound).dirty.testBit 5 =
      true :=
  (C7_setters_never_clear_dirty_bits 8 (SetterCall.SetSpecializationConstant 2 7)
    CommandBuffer.bound ⟨by decide, by decide⟩).1 5 (by decide)

/-! ## Contract violations -/

/-- C8, evaluated on the code: on a layout without any immutable sampler
`HasImmutableSampler` is false at binding 3, and `GetImmutableSampler` at
that binding returns the sampler number 0 instead of failing; with a stale
entry in `immutable_samplers` it returns that entry. -/
theorem C8_get_immutable_sampler_returns_without_sampler :
    HasImmutableSampler { stages := 0 } 3 = false ∧
    GetImmutableSampler { stages := 0 } 3 = 0 ∧
    HasImmutableSampler { stages := 0, immutable_samplers := 0x5000 } 3 = false ∧
    GetImmutableSampler { stages := 0, immutable_samplers := 0x5000 } 3 = 5 := by
  decide

/-! ## The Pipeline State Block as raw words -/

theorem PipelineState.units_eq :
    PipelineState.units =
      [[.depth_write, .depth_test, .blend_enable, .cull_mode, .front_face, .depth_bias_enable,
          .depth_compare, .stencil_test, .stencil_front_fail, .stencil_front_pass,
          .stencil_front_depth_fail, .stencil_front_compare_op, .stencil_back_fail,
          .stencil_back_pass, .stencil_back_depth_fail],
        [.stencil_back_compare_op, .alpha_to_coverage, .alpha_to_one, .sample_shading,
          .src_color_blend, .dst_color_blend, .color_blend_op, .src_alpha_blend,
          .dst_alpha_blend, .alpha_blend_op],
        [.primitive_restart, .topology, .wireframe, .subgroup_control_size,
          .subgroup_full_group, .subgroup_minimum_size_log2, .subgroup_maximum_size_log2,
          .conservative_raster],
        [.write_mask]] := by
  decide

theorem StaticField.mem_declared (f : StaticField) : f ∈ StaticField.declared := by
  cases f <;> decide

theorem PipelineState.pack_unit_lt (s : PipelineState) (fs : List StaticField) :
    s.pack_unit fs < 2 ^ (fs.map StaticField.bits).sum := by
  induction fs with
  | nil => simp [PipelineState.pack_unit]
  | cons f fs ih =>
    simp only [PipelineState.pack_unit, List.map_cons, List.sum_cons, pow_add]
    have h1 : s.read f % 2 ^ f.bits < 2 ^ f.bits := Nat.mod_lt _ (by positivity)
    have h2 : s.pack_unit fs + 1 ≤ 2 ^ (fs.map StaticField.bits).sum := ih
    calc s.read f % 2 ^ f.bits + 2 ^ f.bits * s.pack_unit fs
        < 2 ^ f.bits + 2 ^ f.bits * s.pack_unit fs := by omega
      _ = 2 ^ f.bits * (s.pack_unit fs + 1) := by ring
      _ ≤ 2 ^ f.bits * 2 ^ (fs.map StaticField.bits).sum := Nat.mul_le_mul_left _ h2

theorem PipelineState.pack_unit_inj (s t : PipelineState) (fs : List StaticField)
    (h : s.pack_unit fs = t.pack_unit fs) :
    ∀ f ∈ fs, s.read f % 2 ^ f.bits = t.read f % 2 ^ f.bits := by
  induction fs with
  | nil =>
    intro f hf
    cases hf
  | cons g gs ih =>
    simp only [PipelineState.pack_unit] at h
    have hpos : 0 < 2 ^ g.bits := by positivity
    have hm := congrArg (fun x => x % 2 ^ g.bits) h
    simp only [Nat.add_mul_mod_self_left, Nat.mod_mod] at hm
    have hd := congrArg (fun x => x / 2 ^ g.bits) h
    simp only [Nat.add_mul_div_left _ _ hpos, Nat.div_eq_of_lt (Nat.mod_lt _ hpos),
      Nat.zero_add] at hd
    intro f hf
    rcases List.mem_cons.mp hf with rfl | hf2
    · exact hm
    · exact ih hd f hf2

theorem PipelineState.eq_of_words_eq (s t : PipelineState) (hs : s.well_formed)
    (ht : t.well_formed) (h : s.words = t.words) : s = t := by
  apply PipelineState.ext_read
  intro f
  have hmem : f ∈ PipelineState.units.flatten := by
    have : PipelineState.units.flatten = StaticField.declared := by decide
    rw [this]
    exact f.mem_declared
  obtain ⟨u, hu, hfu⟩ := List.mem_flatten.mp hmem
  have hpack : s.pack_unit u = t.pack_unit u := by
    unfold PipelineState.words at h
    exact (List.map_inj_left.mp h) u hu
  have := PipelineState.pack_unit_inj s t u hpack f hfu
  rwa [Nat.mod_eq_of_lt (hs f), Nat.mod_eq_of_lt (ht f)] at this

/-- C9: laid out in declaration order into 32-bit units that no member
straddles, the members of the Pipeline State Block (the bit-fields followed by
`write_mask`) occupy exactly four units; every member lies in one of them, each
unit holds at most 32 bits, so the four raw words are 32-bit values, and two
blocks with equal words hold equal values in every member. -/
theorem C9_pipeline_state_fits_four_words :
    PipelineState.units.length = 4 ∧
    PipelineState.units.flatten = StaticField.declared ∧
    (∀ u ∈ PipelineState.units, (u.map StaticField.bits).sum ≤ 32) ∧
    (∀ s : PipelineState, s.words.length = 4 ∧ ∀ w ∈ s.words, w < 2 ^ 32) ∧
    (∀ s t : PipelineState, s.well_formed → t.well_formed → s.words = t.words →
      s = t ∧ ∀ f, s.read f = t.read f) := by
  have hsum : ∀ u ∈ PipelineState.units, (u.map StaticField.bits).sum ≤ 32 := by decide
  refine ⟨by decide, by decide, hsum, ?_, ?_⟩
  · intro s
    refine ⟨by simp [PipelineState.words, PipelineState.units_eq], ?_⟩
    intro w hw
    obtain ⟨u, hu, rfl⟩ := List.mem_map.mp hw
    exact lt_of_lt_of_le (s.pack_unit_lt u) (Nat.pow_le_pow_right (by decide) (hsum u hu))
  · intro s t hs ht h
    have := PipelineState.eq_of_words_eq s t hs ht h
    exact ⟨this, fun f => by rw [this]⟩

/-- C9 at two concrete blocks reached by different call sequences. -/
theorem C9_pipeline_state_fits_four_words_witness :
    ((StaticCall.SetCullMode 3).run CommandBuffer.zeroed).block =
        (run_calls [StaticCall.SetCullMode 1, StaticCall.SetCullMode 3] CommandBuffer.zeroed).block ∧
      ∀ f, ((StaticCall.SetCullMode 3).run CommandBuffer.zeroed).block.read f =
        (run_calls [StaticCall.SetCullMode 1, StaticCall.SetCullMode 3]
          CommandBuffer.zeroed).block.read f :=
  C9_pipeline_state_fits_four_words.2.2.2.2
    ((StaticCall.SetCullMode 3).run CommandBuffer.zeroed).block
    (run_calls [StaticCall.SetCullMode 1, StaticCall.SetCullMode 3] CommandBuffer.zeroed).block
    (by intro f; cases f <;> decide) (by intro f; cases f <;> decide) (by decide)

/-! ## The descriptor-set ring cache -/

theorem PerThread.find_of_absent (t : PerThread) (hash : Nat) (h : t.absent hash) :
    (t.find hash).1.2 = false := by
  have hnone : t.set_nodes.find? (fun n => n.hash == hash) = none := by
    rw [List.find?_eq_none]
    intro n hn
    simpa using h n hn
  unfold PerThread.find
  rw [hnone]
  cases t.vacants <;> rfl

theorem PerThread.find_unused_at_least (t : PerThread) (hash other k : Nat)
    (hne : other ≠ hash) (h : t.unused_at_least hash k) :
    (t.find other).2.unused_at_least hash k := by
  unfold PerThread.find
  cases hfind : t.set_nodes.find? (fun n => n.hash == other) with
  | some m =>
    intro n hn hh
    simp only [List.mem_map] at hn
    obtain ⟨x, hx, rfl⟩ := hn
    by_cases hxo : x.hash = other
    · simp only [hxo, beq_self_eq_true, if_true] at hh
      exact absurd hh hne
    · have hb : (x.hash == other) = false := by simpa using hxo
      simp only [hb] at hh ⊢
      exact h x hx hh
  | none =>
    cases hv : t.vacants with
    | nil =>
      intro n hn hh
      simp only [List.mem_cons] at hn
      rcases hn with rfl | hn
      · exact absurd hh hne
      · exact h n hn hh
    | cons v vs =>
      intro n hn hh
      simp only [List.mem_cons] at hn
      rcases hn with rfl | hn
      · exact absurd hh hne
      · exact h n hn hh

theorem PerThread.find_absent (t : PerThread) (hash other : Nat)
    (hne : other ≠ hash) (h : t.absent hash) : (t.find other).2.absent hash := by
  unfold PerThread.find
  cases hfind : t.set_nodes.find? (fun n => n.hash == other) with
  | some m =>
    intro n hn
    simp only [List.mem_map] at hn
    obtain ⟨x, hx, rfl⟩ := hn
    split
    · exact h x hx
    · exact h x hx
  | none =>
    cases hv : t.vacants with
    | nil =>
      intro n hn
      simp only [List.mem_cons] at hn
      rcases hn with rfl | hn
      · exact hne
      · exact h n hn
    | cons v vs =>
      intro n hn
      simp only [List.mem_cons] at hn
      rcases hn with rfl | hn
      · exact hne
      · exact h n hn

theorem PerThread.begin_frame_unused_at_least (t : PerThread) (hash k : Nat)
    (h : t.unused_at_least hash k) : t.begin_frame.unused_at_least hash (k + 1) := by
  intro n hn hh
  simp only [PerThread.begin_frame, List.mem_filter, List.mem_map] at hn
  obtain ⟨⟨x, hx, rfl⟩, _⟩ := hn
  exact Nat.succ_le_succ (h x hx hh)

theorem PerThread.begin_frame_absent (t : PerThread) (hash : Nat)
    (h : t.unused_at_least hash (VULKAN_DESCRIPTOR_RING_SIZE - 1)) :
    t.begin_frame.absent hash := by
  intro n hn hh
  simp only [PerThread.begin_frame, List.mem_filter, List.mem_map, decide_eq_true_eq] at hn
  obtain ⟨⟨x, hx, rfl⟩, hlt⟩ := hn
  have := h x hx hh
  simp only [VULKAN_DESCRIPTOR_RING_SIZE] at this hlt
  omega

theorem PerThread.begin_frame_absent_of_absent (t : PerThread) (hash : Nat)
    (h : t.absent hash) : t.begin_frame.absent hash := by
  intro n hn
  simp only [PerThread.begin_frame, List.mem_filter, List.mem_map] at hn
  obtain ⟨⟨x, hx, rfl⟩, _⟩ := hn
  exact h x hx

theorem PerThread.find_of_mem (t : PerThread) (hash : Nat)
    (h : ∃ n ∈ t.set_nodes, n.hash = hash) : (t.find hash).1.2 = true := by
  unfold PerThread.find
  cases hfind : t.set_nodes.find? (fun n => n.hash == hash) with
  | some m => rfl
  | none =>
    obtain ⟨n, hn, hh⟩ := h
    rw [List.find?_eq_none] at hfind
    exact absurd (by simpa using hh) (hfind n hn)

theorem PerThread.find_mem (t : PerThread) (hash : Nat) :
    ∃ n ∈ (t.find hash).2.set_nodes, n.hash = hash := by
  unfold PerThread.find
  cases hfind : t.set_nodes.find? (fun n => n.hash == hash) with
  | some m =>
    have hm := List.mem_of_find?_eq_some hfind
    have hp := List.find?_some hfind
    refine ⟨{ m with unused := 0 }, ?_, by simpa using hp⟩
    simp only [List.mem_map]
    exact ⟨m, hm, by simp [hp]⟩
  | none =>
    cases hv : t.vacants with
    | nil => exact ⟨_, List.mem_cons_self _ _, rfl⟩
    | cons v vs => exact ⟨_, List.mem_cons_self _ _, rfl⟩

theorem DescriptorSetAllocator.Find_per_thread (a : DescriptorSetAllocator)
    (thread_index hash : Nat) :
    (a.Find thread_index hash).2.per_thread thread_index =
      ((a.per_thread thread_index).find hash).2 := by
  simp [DescriptorSetAllocator.Find]

theorem DescriptorSetAllocator.resolve_frames_cons (thread_index h : Nat) (l : List Nat)
    (a : DescriptorSetAllocator) :
    DescriptorSetAllocator.resolve_frames thread_index (h :: l) a =
      l.foldl (fun acc x => (acc.BeginFrame.Find thread_index x).2) (a.Find thread_index h).2 := by
  induction l generalizing h a with
  | nil => rfl
  | cons x xs ih =>
    rw [DescriptorSetAllocator.resolve_frames, ih, List.foldl_cons]

theorem DescriptorSetAllocator.frames_absent (thread_index hash : Nat) (l : List Nat)
    (a : DescriptorSetAllocator) (hl : hash ∉ l)
    (h : (a.per_thread thread_index).absent hash) :
    ((l.foldl (fun acc x => (acc.BeginFrame.Find thread_index x).2) a).per_thread
      thread_index).absent hash := by
  induction l generalizing a with
  | nil => exact h
  | cons x xs ih =>
    rw [List.foldl_cons]
    simp only [List.mem_cons, not_or] at hl
    apply ih _ hl.2
    rw [DescriptorSetAllocator.Find_per_thread]
    exact PerThread.find_absent _ _ _ (Ne.symm hl.1) (PerThread.begin_frame_absent_of_absent _ _ h)

theorem DescriptorSetAllocator.frames_evict (thread_index hash : Nat) (l : List Nat)
    (a : DescriptorSetAllocator) (k : Nat) (hl : hash ∉ l) (hne : l ≠ [])
    (hk : VULKAN_DESCRIPTOR_RING_SIZE ≤ k + l.length)
    (h : (a.per_thread thread_index).unused_at_least hash k) :
    ((l.foldl (fun acc x => (acc.BeginFrame.Find thread_index x).2) a).per_thread
      thread_index).absent hash := by
  induction l generalizing a k with
  | nil => exact absurd rfl hne
  | cons x xs ih =>
    rw [List.foldl_cons]
    simp only [List.mem_cons, not_or] at hl
    by_cases hbig : VULKAN_DESCRIPTOR_RING_SIZE - 1 ≤ k
    · apply DescriptorSetAllocator.frames_absent _ _ _ _ hl.2
      rw [DescriptorSetAllocator.Find_per_thread]
      apply PerThread.find_absent _ _ _ (Ne.symm hl.1)
      apply PerThread.begin_frame_absent
      intro n hn hh
      exact le_trans hbig (h n hn hh)
    · have hxs : xs ≠ [] := by
        rintro rfl
        simp only [List.length_cons, List.length_nil] at hk
        omega
      apply ih _ (k + 1) hl.2 hxs
      · simp only [List.length_cons] at hk
        omega
      · rw [DescriptorSetAllocator.Find_per_thread]
        exact PerThread.find_unused_at_least _ _ _ _ (Ne.symm hl.1)
          (PerThread.begin_frame_unused_at_least _ _ _ h)

/-- C10: on any allocator and any thread, once `h0` and then
`VULKAN_DESCRIPTOR_RING_SIZE` further hashes, all pairwise distinct, have been
resolved with `Find` on that thread with `BeginFrame` between consecutive
`Find`s, no entry for `h0` is left in the thread cache and `Find(thread, h0)`
reports "not already present"; right after its own resolution `h0` was
present. -/
theorem C10_ring_evicts_first_hash (a : DescriptorSetAllocator) (thread_index h0 : Nat)
    (rest : List Nat) (hlen : (h0 :: rest).length = VULKAN_DESCRIPTOR_RING_SIZE + 1)
    (hnd : (h0 :: rest).Nodup) :
    ((a.Find thread_index h0).2.Find thread_index h0).1.2 = true ∧
    (∀ n ∈ ((DescriptorSetAllocator.resolve_frames thread_index (h0 :: rest) a).per_thread
        thread_index).set_nodes, n.hash ≠ h0) ∧
    ((DescriptorSetAllocator.resolve_frames thread_index (h0 :: rest) a).Find
      thread_index h0).1.2 = false := by
  have hnot : h0 ∉ rest := (List.nodup_cons.mp hnd).1
  have hrest : rest.length = VULKAN_DESCRIPTOR_RING_SIZE := by
    simpa using hlen
  have hne : rest ≠ [] := by
    rintro rfl
    exact absurd hrest (by decide)
  have habs : ((DescriptorSetAllocator.resolve_frames thread_index (h0 :: rest) a).per_thread
      thread_index).absent h0 := by
    rw [DescriptorSetAllocator.resolve_frames_cons]
    apply DescriptorSetAllocator.frames_evict thread_index h0 rest _ 0 hnot hne
    · rw [hrest]
      omega
    · intro n _ _
      exact Nat.zero_le _
  refine ⟨?_, habs, PerThread.find_of_absent _ _ habs⟩
  show (((a.Find thread_index h0).2.per_thread thread_index).find h0).1.2 = true
  rw [DescriptorSetAllocator.Find_per_thread]
  exact PerThread.find_of_mem _ _ (PerThread.find_mem _ _)

/-- C10 on the fresh allocator, thread 0 and the hashes 10 to 18. -/
theorem C10_ring_evicts_first_hash_witness :
    ((DescriptorSetAllocator.fresh.Find 0 10).2.Find 0 10).1.2 = true ∧
    (∀ n ∈ ((DescriptorSetAllocator.resolve_frames 0 [10, 11, 12, 13, 14, 15, 16, 17, 18]
        DescriptorSetAllocator.fresh).per_thread 0).set_nodes, n.hash ≠ 10) ∧
    ((DescriptorSetAllocator.resolve_frames 0 [10, 11, 12, 13, 14, 15, 16, 17, 18]
      DescriptorSetAllocator.fresh).Find 0 10).1.2 = false :=
  C10_ring_evicts_first_hash DescriptorSetAllocator.fresh 0 10 [11, 12, 13, 14, 15, 16, 17, 18]
    (by decide) (by decide)

/-! ## Transient attachments -/

theorem land_land_self (x m : Nat) : (x &&& m) &&& m = x &&& m := by
  rw [Nat.land_assoc, Nat.and_self]

theorem land_land_disjoint (x m t : Nat) (h : m &&& t = 0) : (x &&& m) &&& t = 0 := by
  rw [Nat.land_assoc, h]
  simp

/-- C17: for a usage mask with `VK_IMAGE_USAGE_TRANSIENT_ATTACHMENT_BIT`, the
possible accesses lie within the colour-attachment, depth-stencil-attachment
and input-attachment access bits and contain no transfer or shader access bit;
the possible stages lie within colour-attachment output and the early and late
fragment tests, plus the fragment shader, and the fragment shader stage is
only present when the usage has the input-attachment bit. -/
theorem C17_transient_attachments_are_only_attachments (usage : Nat)
    (h : usage &&& VK_IMAGE_USAGE_TRANSIENT_ATTACHMENT_BIT ≠ 0) :
    ImageUsageToPossibleAccess usage &&&
        (VK_ACCESS_COLOR_ATTACHMENT_WRITE_BIT ||| VK_ACCESS_COLOR_ATTACHMENT_READ_BIT |||
          VK_ACCESS_DEPTH_STENCIL_ATTACHMENT_WRITE_BIT |||
          VK_ACCESS_DEPTH_STENCIL_ATTACHMENT_READ_BIT ||| VK_ACCESS_INPUT_ATTACHMENT_READ_BIT) =
      ImageUsageToPossibleAccess usage ∧
    ImageUsageToPossibleAccess usage &&&
        (VK_ACCESS_TRANSFER_READ_BIT ||| VK_ACCESS_TRANSFER_WRITE_BIT |||
          VK_ACCESS_SHADER_READ_BIT ||| VK_ACCESS_SHADER_WRITE_BIT) = 0 ∧
    ImageUsageToPossibleStages usage &&&
        (VK_PIPELINE_STAGE_COLOR_ATTACHMENT_OUTPUT_BIT |||
          VK_PIPELINE_STAGE_EARLY_FRAGMENT_TESTS_BIT ||| VK_PIPELINE_STAGE_LATE_FRAGMENT_TESTS_BIT |||
          VK_PIPELINE_STAGE_FRAGMENT_SHADER_BIT) =
      ImageUsageToPossibleStages usage ∧
    (usage &&& VK_IMAGE_USAGE_INPUT_ATTACHMENT_BIT = 0 →
      ImageUsageToPossibleStages usage &&&
          (VK_PIPELINE_STAGE_COLOR_ATTACHMENT_OUTPUT_BIT |||
            VK_PIPELINE_STAGE_EARLY_FRAGMENT_TESTS_BIT |||
            VK_PIPELINE_STAGE_LATE_FRAGMENT_TESTS_BIT) =
        ImageUsageToPossibleStages usage) := by
  have h2 : (usage &&& VK_IMAGE_USAGE_TRANSIENT_ATTACHMENT_BIT != 0) = true := by
    simpa using h
  refine ⟨?_, ?_, ?_, ?_⟩
  · simp only [ImageUsageToPossibleAccess, h2, if_true]
    exact land_land_self _ _
  · simp only [ImageUsageToPossibleAccess, h2, if_true]
    exact land_land_disjoint _ _ _ (by decide)
  · simp only [ImageUsageToPossibleStages, h2, if_true]
    by_cases hi : (usage &&& VK_IMAGE_USAGE_INPUT_ATTACHMENT_BIT != 0) = true
    · simp only [hi, if_true]
      exact land_land_self _ _
    · simp only [hi]
      rw [Nat.land_assoc]
      congr 1
  · intro hz
    have hi : (usage &&& VK_IMAGE_USAGE_INPUT_ATTACHMENT_BIT != 0) = false := by
      simp [hz]
    simp only [ImageUsageToPossibleStages, h2, if_true, hi]
    exact land_land_self _ _

/-- C17 at the usage `TRANSIENT | COLOR_ATTACHMENT | SAMPLED | TRANSFER_DST`. -/
theorem C17_transient_attachments_are_only_attachments_witness :
    ImageUsageToPossibleAccess 0x56 &&&
        (VK_ACCESS_COLOR_ATTACHMENT_WRITE_BIT ||| VK_ACCESS_COLOR_ATTACHMENT_READ_BIT |||
          VK_ACCESS_DEPTH_STENCIL_ATTACHMENT_WRITE_BIT |||
          VK_ACCESS_DEPTH_STENCIL_ATTACHMENT_READ_BIT ||| VK_ACCESS_INPUT_ATTACHMENT_READ_BIT) =
      ImageUsageToPossibleAccess 0x56 ∧
    ImageUsageToPossibleAccess 0x56 &&&
        (VK_ACCESS_TRANSFER_READ_BIT ||| VK_ACCESS_TRANSFER_WRITE_BIT |||
          VK_ACCESS_SHADER_READ_BIT ||| VK_ACCESS_SHADER_WRITE_BIT) = 0 ∧
    ImageUsageToPossibleStages 0x56 &&&
        (VK_PIPELINE_STAGE_COLOR_ATTACHMENT_OUTPUT_BIT |||
          VK_PIPELINE_STAGE_EARLY_FRAGMENT_TESTS_BIT ||| VK_PIPELINE_STAGE_LATE_FRAGMENT_TESTS_BIT |||
          VK_PIPELINE_STAGE_FRAGMENT_SHADER_BIT) =
      ImageUsageToPossibleStages 0x56 ∧
    (0x56 &&& VK_IMAGE_USAGE_INPUT_ATTACHMENT_BIT = 0 →
      ImageUsageToPossibleStages 0x56 &&&
          (VK_PIPELINE_STAGE_COLOR_ATTACHMENT_OUTPUT_BIT |||
            VK_PIPELINE_STAGE_EARLY_FRAGMENT_TESTS_BIT |||
            VK_PIPELINE_STAGE_LATE_FRAGMENT_TESTS_BIT) =
        ImageUsageToPossibleStages 0x56) :=
  C17_transient_attachments_are_only_attachments 0x56 (by decide)

/-! ## `SetStencilReference` -/

theorem SetStencilFrontReference_back (cb : CommandBuffer) (c w r : Nat) :
    (cb.SetStencilFrontReference c w r).dynamic_state.back_compare_mask =
        cb.dynamic_state.back_compare_mask ∧
    (cb.SetStencilFrontReference c w r).dynamic_state.back_write_mask =
        cb.dynamic_state.back_write_mask ∧
    (cb.SetStencilFrontReference c w r).dynamic_state.back_reference =
        cb.dynamic_state.back_reference := by
  rw [SetStencilFrontReference_eq]
  split <;> exact ⟨rfl, rfl, rfl⟩

/-- C18: `SetStencilReference(c, w, r)` is `SetStencilFrontReference(c, w, r)`
followed by `SetStencilReference(c, w, r)` again; whatever bound is put on the
depth of nested calls the outermost call has not returned, and at every
nesting depth the three back members of the dynamic state still hold the
values they had before the call. -/
theorem C18_set_stencil_reference_never_returns (cb : CommandBuffer) (c w r : Nat) :
    (∀ fuel, CommandBuffer.SetStencilReference (fuel + 1) c w r cb =
      CommandBuffer.SetStencilReference fuel c w r (cb.SetStencilFrontReference c w r)) ∧
    (∀ fuel, CommandBuffer.SetStencilReference fuel c w r cb = none) ∧
    (∀ depth,
      (CommandBuffer.SetStencilReference_entry depth c w r cb).dynamic_state.back_compare_mask =
          cb.dynamic_state.back_compare_mask ∧
      (CommandBuffer.SetStencilReference_entry depth c w r cb).dynamic_state.back_write_mask =
          cb.dynamic_state.back_write_mask ∧
      (CommandBuffer.SetStencilReference_entry depth c w r cb).dynamic_state.back_reference =
          cb.dynamic_state.back_reference) := by
  refine ⟨fun _ => rfl, ?_, ?_⟩
  · intro fuel
    induction fuel generalizing cb with
    | zero => rfl
    | succ n ih => exact ih _
  · intro depth
    induction depth generalizing cb with
    | zero => exact ⟨rfl, rfl, rfl⟩
    | succ n ih =>
      have h1 := ih (cb.SetStencilFrontReference c w r)
      have h2 := SetStencilFrontReference_back cb c w r
      exact ⟨h1.1.trans h2.1, h1.2.1.trans h2.2.1, h1.2.2.trans h2.2.2⟩

/-! ## Image views -/

/-- C20: `GetFloatView` returns `depth_view` when it is not null and `view`
otherwise, `GetIntegerView` returns `stencil_view` when it is not null and
`view` otherwise; with both null the two getters agree with `GetView`. -/
theorem C20_domain_views_fall_back_to_view (v : ImageView) :
    (v.depth_view ≠ VK_NULL_HANDLE → v.GetFloatView = v.depth_view) ∧
    (v.depth_view = VK_NULL_HANDLE → v.GetFloatView = v.view) ∧
    (v.stencil_view ≠ VK_NULL_HANDLE → v.GetIntegerView = v.stencil_view) ∧
    (v.stencil_view = VK_NULL_HANDLE → v.GetIntegerView = v.view) ∧
    (v.depth_view = VK_NULL_HANDLE → v.stencil_view = VK_NULL_HANDLE →
      v.GetFloatView = v.GetView ∧ v.GetIntegerView = v.GetView) := by
  refine ⟨?_, ?_, ?_, ?_, ?_⟩
  · intro h
    simp [ImageView.GetFloatView, h]
  · intro h
    simp [ImageView.GetFloatView, h]
  · intro h
    simp [ImageView.GetIntegerView, h]
  · intro h
    simp [ImageView.GetIntegerView, h]
  · intro h1 h2
    simp [ImageView.GetFloatView, ImageView.GetIntegerView, ImageView.GetView, h1, h2]

/-- C20 at a colour view (both domain views null). -/
theorem C20_domain_views_fall_back_to_view_witness :
    ({ view := 7 } : ImageView).GetFloatView = ({ view := 7 } : ImageView).GetView ∧
    ({ view := 7 } : ImageView).GetIntegerView = ({ view := 7 } : ImageView).GetView :=
  (C20_domain_views_fall_back_to_view { view := 7 }).2.2.2.2 rfl rfl

/-! ## Immutable samplers -/

theorem nibble_after_or (x s b : Nat) (hb : b < 16) (hs : s < 16)
    (hz : (x >>> (4 * b)) &&& 0xf = 0) :
    ((x ||| ((s <<< (4 * b)) % 2 ^ 64)) >>> (4 * b)) &&& 0xf = s := by
  apply Nat.eq_of_testBit_eq
  intro i
  have h15 : (0xf : Nat) = 2 ^ 4 - 1 := by decide
  have hzi := congrArg (fun y => Nat.testBit y i) hz
  simp only [Nat.testBit_land, Nat.testBit_shiftRight, Nat.zero_testBit, h15,
    Nat.testBit_two_pow_sub_one] at hzi
  rw [Nat.testBit_land, Nat.testBit_shiftRight, Nat.testBit_lor, Nat.testBit_mod_two_pow,
    Nat.testBit_shiftLeft, h15, Nat.testBit_two_pow_sub_one]
  by_cases hi : i < 4
  · have h1 : 4 * b + i < 64 := by omega
    simp only [hi, decide_True, Bool.and_true] at hzi ⊢
    rw [hzi]
    simp [h1]
  · have hs2 : s.testBit i = false := by
      apply Nat.testBit_lt_two_pow
      calc s < 2 ^ 4 := hs
        _ ≤ 2 ^ i := Nat.pow_le_pow_right (by decide) (by omega)
    simp [hi, hs2]

theorem mask_after_or (m b : Nat) (hb : b < 32) :
    (m ||| ((1 <<< b) % 2 ^ 32)) &&& ((1 <<< b) % 2 ^ 32) ≠ 0 := by
  have h1 : (1 <<< b) % 2 ^ 32 = 2 ^ b := by
    rw [Nat.one_shiftLeft]
    exact Nat.mod_eq_of_lt (Nat.pow_lt_pow_right (by decide) hb)
  rw [h1, lor_land_self]
  positivity

theorem HasImmutableSampler_after_set (layout : DescriptorSetLayout) (b s : Nat) (hb : b < 32) :
    HasImmutableSampler (SetImmutableSampler layout b s) b = true := by
  simp only [HasImmutableSampler, SetImmutableSampler, bne_iff_ne, ne_eq]
  exact mask_after_or _ _ hb

/-- C16, evaluated on the code: on a layout that already holds sampler 5 at
binding 0, `SetImmutableSampler(layout, 0, 2)` leaves `GetImmutableSampler`
returning 7, the bitwise or of the old and the new sampler number, not 2. -/
theorem C16_set_immutable_sampler_ors_into_existing_entry :
    GetImmutableSampler { stages := 0, immutable_sampler_mask := 1, immutable_samplers := 5 } 0 = 5 ∧
    HasImmutableSampler
      (SetImmutableSampler
        { stages := 0, immutable_sampler_mask := 1, immutable_samplers := 5 } 0 2) 0 = true ∧
    GetImmutableSampler
      (SetImmutableSampler
        { stages := 0, immutable_sampler_mask := 1, immutable_samplers := 5 } 0 2) 0 = 7 := by
  decide

/-- C19: on a layout whose four-bit entry for binding `b` is zero, for
`b < 16` and a sampler number `s < 16`, after `SetImmutableSampler(layout, b, s)`
the binding has an immutable sampler and `GetImmutableSampler` returns `s`. -/
theorem C19_immutable_sampler_round_trip_on_fresh_binding (layout : DescriptorSetLayout)
    (b s : Nat) (hb : b < 16) (hs : s < 16)
    (hz : (layout.immutable_samplers >>> (4 * b)) &&& 0xf = 0) :
    GetImmutableSampler (SetImmutableSampler layout b s) b = s ∧
    HasImmutableSampler (SetImmutableSampler layout b s) b = true := by
  refine ⟨?_, HasImmutableSampler_after_set layout b s (by omega)⟩
  simp only [GetImmutableSampler, SetImmutableSampler]
  exact nibble_after_or _ _ _ hb hs hz

/-- C19 on a layout that holds sampler 5 at binding 0: binding 3 is fresh. -/
theorem C19_immutable_sampler_round_trip_on_fresh_binding_witness :
    GetImmutableSampler
      (SetImmutableSampler
        { stages := 0, immutable_sampler_mask := 1, immutable_samplers := 5 } 3 9) 3 = 9 ∧
    HasImmutableSampler
      (SetImmutableSampler
        { stages := 0, immutable_sampler_mask := 1, immutable_samplers := 5 } 3 9) 3 = true :=
  C19_immutable_sampler_round_trip_on_fresh_binding
    { stages := 0, immutable_sampler_mask := 1, immutable_samplers := 5 } 3 9
    (by decide) (by decide) (by decide)

/-! ## The bindless pool -/

theorem BindlessDescriptorPool.allocate_all_allocated (counts : List Nat)
    (p : BindlessDescriptorPool) :
    (p.allocate_all counts).2.allocated =
        p.allocated + granted_count counts (p.allocate_all counts).1 ∧
    (p.allocate_all counts).2.capacity = p.capacity ∧
    (p.allocate_all counts).1.length = counts.length ∧
    (p.allocated ≤ p.capacity → (p.allocate_all counts).2.allocated ≤ p.capacity) := by
  induction counts generalizing p with
  | nil => exact ⟨rfl, rfl, rfl, id⟩
  | cons c cs ih =>
    simp only [BindlessDescriptorPool.allocate_all, granted_count, List.length_cons]
    by_cases h : p.allocated + c ≤ p.capacity
    · have hr : p.AllocateDescriptors c = (true, { p with allocated := p.allocated + c }) := by
        simp [BindlessDescriptorPool.AllocateDescriptors, h]
      rw [hr]
      obtain ⟨h1, h2, h3, h4⟩ := ih { p with allocated := p.allocated + c }
      refine ⟨?_, h2, by rw [h3], fun _ => h4 h⟩
      rw [h1]
      simp only [if_true]
      omega
    · have hr : p.AllocateDescriptors c = (false, p) := by
        simp [BindlessDescriptorPool.AllocateDescriptors, h]
      rw [hr]
      obtain ⟨h1, h2, h3, h4⟩ := ih p
      refine ⟨?_, h2, by rw [h3], h4⟩
      rw [h1]
      simp

/-- C11: `AllocateDescriptors(count)` returns false exactly when the allocated
count including this call would exceed the fixed capacity; the result depends
only on the pool's allocated count and capacity and on `count`; a failing call
leaves the pool unchanged and a successful one adds exactly `count`; after any
sequence of calls the allocated count is the initial one plus the counts of the
successful calls, the capacity is the initial one, and a pool that started
within its capacity is still within it. -/
theorem C11_bindless_allocation_fails_exactly_over_capacity (p : BindlessDescriptorPool) :
    (∀ count, (p.AllocateDescriptors count).1 = false ↔ p.capacity < p.allocated + count) ∧
    (∀ count (q : BindlessDescriptorPool), q.allocated = p.allocated → q.capacity = p.capacity →
      (q.AllocateDescriptors count).1 = (p.AllocateDescriptors count).1) ∧
    (∀ count, (p.AllocateDescriptors count).1 = false → (p.AllocateDescriptors count).2 = p) ∧
    (∀ count, (p.AllocateDescriptors count).1 = true →
      (p.AllocateDescriptors count).2.allocated = p.allocated + count ∧
      (p.AllocateDescriptors count).2.capacity = p.capacity) ∧
    (∀ counts, (p.allocate_all counts).2.allocated =
        p.allocated + granted_count counts (p.allocate_all counts).1 ∧
      (p.allocate_all counts).2.capacity = p.capacity ∧
      (p.allocated ≤ p.capacity → (p.allocate_all counts).2.allocated ≤ p.capacity)) := by
  refine ⟨?_, ?_, ?_, ?_, ?_⟩
  · intro count
    unfold BindlessDescriptorPool.AllocateDescriptors
    split
    · simp only [Bool.true_eq_false, false_iff, not_lt]
      assumption
    · simp only [true_iff]
      omega
  · intro count q h1 h2
    unfold BindlessDescriptorPool.AllocateDescriptors
    rw [h1, h2]
    split <;> rfl
  · intro count
    unfold BindlessDescriptorPool.AllocateDescriptors
    split
    · intro h
      exact Bool.noConfusion h
    · intro _
      rfl
  · intro count
    unfold BindlessDescriptorPool.AllocateDescriptors
    split
    · intro _
      exact ⟨rfl, rfl⟩
    · intro h
      exact Bool.noConfusion h
  · intro counts
    obtain ⟨h1, h2, _, h4⟩ := p.allocate_all_allocated counts
    exact ⟨h1, h2, h4⟩

/-- C11 on a pool of capacity 10: the calls 4, 5, 3, 1 succeed, succeed, fail
and succeed, and leave 10 slots allocated. -/
theorem C11_bindless_allocation_fails_exactly_over_capacity_witness :
    (({ desc_pool := 1, capacity := 10 } : BindlessDescriptorPool).allocate_all
        [4, 5, 3, 1]).2.allocated ≤ 10 :=
  ((C11_bindless_allocation_fails_exactly_over_capacity
    { desc_pool := 1, capacity := 10 }).2.2.2.2 [4, 5, 3, 1]).2.2 (by decide)


/-! ## Save and restore -/

theorem land_ne_zero_of_testBit (d f i : Nat) (hd : d.testBit i = true)
    (hf : f.testBit i = true) : d &&& f ≠ 0 := by
  intro h
  have := congrArg (fun y => Nat.testBit y i) h
  simp [Nat.testBit_land, hd, hf] at this

theorem CommandBuffer.is_dirty_of_testBit (cb : CommandBuffer) (flag i : Nat)
    (hd : cb.dirty.testBit i = true) (hf : flag.testBit i = true) :
    cb.is_dirty flag = true := by
  simp only [CommandBuffer.is_dirty, bne_iff_ne, ne_eq]
  exact land_ne_zero_of_testBit _ _ _ hd hf

theorem RestoreState_dirty (state : CommandBufferSavedState) (cb : CommandBuffer) :
    (cb.RestoreState state).dirty =
      cb.dirty |||
        (if state.flags &&& COMMAND_BUFFER_SAVED_PUSH_CONSTANT_BIT != 0 then
          COMMAND_BUFFER_DIRTY_PUSH_CONSTANTS_BIT else 0) |||
        (if state.flags &&& COMMAND_BUFFER_SAVED_VIEWPORT_BIT != 0 then
          COMMAND_BUFFER_DIRTY_VIEWPORT_BIT else 0) |||
        (if state.flags &&& COMMAND_BUFFER_SAVED_SCISSOR_BIT != 0 then
          COMMAND_BUFFER_DIRTY_SCISSOR_BIT else 0) |||
        (if state.flags &&& COMMAND_BUFFER_SAVED_RENDER_STATE_BIT != 0 then
          COMMAND_BUFFER_DIRTY_STATIC_STATE_BIT ||| COMMAND_BUFFER_DIRTY_DEPTH_BIAS_BIT |||
            COMMAND_BUFFER_DIRTY_STENCIL_REFERENCE_BIT else 0) := by
  unfold CommandBuffer.RestoreState
  by_cases h1 : (state.flags &&& COMMAND_BUFFER_SAVED_PUSH_CONSTANT_BIT != 0) = true <;>
  by_cases h2 : (state.flags &&& COMMAND_BUFFER_SAVED_VIEWPORT_BIT != 0) = true <;>
  by_cases h3 : (state.flags &&& COMMAND_BUFFER_SAVED_SCISSOR_BIT != 0) = true <;>
  by_cases h4 : (state.flags &&& COMMAND_BUFFER_SAVED_RENDER_STATE_BIT != 0) = true <;>
  simp only [h1, h2, h3, h4, if_true, if_false, CommandBuffer.set_dirty, Nat.or_zero,
    Bool.false_eq_true]

theorem RestoreState_bindings (state : CommandBufferSavedState) (cb : CommandBuffer) (set : Nat) :
    (cb.RestoreState state).bindings.bindings set =
      if saves_bindings state.flags set then state.bindings.bindings set
      else cb.bindings.bindings set := by
  unfold CommandBuffer.RestoreState
  by_cases h1 : (state.flags &&& COMMAND_BUFFER_SAVED_PUSH_CONSTANT_BIT != 0) = true <;>
  by_cases h2 : (state.flags &&& COMMAND_BUFFER_SAVED_VIEWPORT_BIT != 0) = true <;>
  by_cases h3 : (state.flags &&& COMMAND_BUFFER_SAVED_SCISSOR_BIT != 0) = true <;>
  by_cases h4 : (state.flags &&& COMMAND_BUFFER_SAVED_RENDER_STATE_BIT != 0) = true <;>
  simp only [h1, h2, h3, h4, if_true, if_false, CommandBuffer.set_dirty, Bool.false_eq_true]

theorem RestoreState_dirty_sets (state : CommandBufferSavedState) (cb : CommandBuffer) :
    (cb.RestoreState state).dirty_sets =
      cb.dirty_sets ||| (state.flags &&& (2 ^ VULKAN_NUM_DESCRIPTOR_SETS - 1)) := by
  unfold CommandBuffer.RestoreState
  by_cases h1 : (state.flags &&& COMMAND_BUFFER_SAVED_PUSH_CONSTANT_BIT != 0) = true <;>
  by_cases h2 : (state.flags &&& COMMAND_BUFFER_SAVED_VIEWPORT_BIT != 0) = true <;>
  by_cases h3 : (state.flags &&& COMMAND_BUFFER_SAVED_SCISSOR_BIT != 0) = true <;>
  by_cases h4 : (state.flags &&& COMMAND_BUFFER_SAVED_RENDER_STATE_BIT != 0) = true <;>
  simp only [h1, h2, h3, h4, if_true, if_false, CommandBuffer.set_dirty, Bool.false_eq_true]

theorem RestoreState_push_constants (state : CommandBufferSavedState) (cb : CommandBuffer)
    (h : (state.flags &&& COMMAND_BUFFER_SAVED_PUSH_CONSTANT_BIT != 0) = true) :
    (cb.RestoreState state).bindings.push_constant_data = state.bindings.push_constant_data := by
  unfold CommandBuffer.RestoreState
  by_cases h2 : (state.flags &&& COMMAND_BUFFER_SAVED_VIEWPORT_BIT != 0) = true <;>
  by_cases h3 : (state.flags &&& COMMAND_BUFFER_SAVED_SCISSOR_BIT != 0) = true <;>
  by_cases h4 : (state.flags &&& COMMAND_BUFFER_SAVED_RENDER_STATE_BIT != 0) = true <;>
  simp only [h, h2, h3, h4, if_true, if_false, CommandBuffer.set_dirty, Bool.false_eq_true]

theorem RestoreState_viewport (state : CommandBufferSavedState) (cb : CommandBuffer)
    (h : (state.flags &&& COMMAND_BUFFER_SAVED_VIEWPORT_BIT != 0) = true) :
    (cb.RestoreState state).viewport = state.viewport := by
  unfold CommandBuffer.RestoreState
  by_cases h1 : (state.flags &&& COMMAND_BUFFER_SAVED_PUSH_CONSTANT_BIT != 0) = true <;>
  by_cases h3 : (state.flags &&& COMMAND_BUFFER_SAVED_SCISSOR_BIT != 0) = true <;>
  by_cases h4 : (state.flags &&& COMMAND_BUFFER_SAVED_RENDER_STATE_BIT != 0) = true <;>
  simp only [h, h1, h3, h4, if_true, if_false, CommandBuffer.set_dirty, Bool.false_eq_true]

theorem RestoreState_scissor (state : CommandBufferSavedState) (cb : CommandBuffer)
    (h : (state.flags &&& COMMAND_BUFFER_SAVED_SCISSOR_BIT != 0) = true) :
    (cb.RestoreState state).scissor = state.scissor := by
  unfold CommandBuffer.RestoreState
  by_cases h1 : (state.flags &&& COMMAND_BUFFER_SAVED_PUSH_CONSTANT_BIT != 0) = true <;>
  by_cases h2 : (state.flags &&& COMMAND_BUFFER_SAVED_VIEWPORT_BIT != 0) = true <;>
  by_cases h4 : (state.flags &&& COMMAND_BUFFER_SAVED_RENDER_STATE_BIT != 0) = true <;>
  simp only [h, h1, h2, h4, if_true, if_false, CommandBuffer.set_dirty, Bool.false_eq_true]

theorem RestoreState_render_state (state : CommandBufferSavedState) (cb : CommandBuffer)
    (h : (state.flags &&& COMMAND_BUFFER_SAVED_RENDER_STATE_BIT != 0) = true) :
    (cb.RestoreState state).pipeline_state.static_state = state.static_state ∧
    (cb.RestoreState state).pipeline_state.potential_static_state =
      state.potential_static_state ∧
    (cb.RestoreState state).dynamic_state = state.dynamic_state := by
  unfold CommandBuffer.RestoreState
  simp only [h, if_true, CommandBuffer.set_dirty, and_self]

theorem testBit_of_land_two_pow_ne_zero (x i : Nat) (h : x &&& 2 ^ i ≠ 0) :
    x.testBit i = true := by
  obtain ⟨j, hj⟩ := Nat.ne_zero_implies_bit_true h
  rw [Nat.testBit_land, Nat.testBit_two_pow] at hj
  simp only [Bool.and_eq_true, decide_eq_true_eq] at hj
  rw [hj.2]
  exact hj.1

theorem testBit_of_saves_bindings (flags set : Nat) (h : saves_bindings flags set = true) :
    set < VULKAN_NUM_DESCRIPTOR_SETS ∧ flags.testBit set = true := by
  simp only [saves_bindings, Bool.and_eq_true, decide_eq_true_eq, bne_iff_ne, ne_eq] at h
  refine ⟨h.1, testBit_of_land_two_pow_ne_zero _ _ ?_⟩
  have h2 : COMMAND_BUFFER_SAVED_BINDINGS_0_BIT <<< set = 2 ^ set := by
    simp [COMMAND_BUFFER_SAVED_BINDINGS_0_BIT, Nat.shiftLeft_eq]
  rw [← h2]
  exact h.2

/-- C12: when a subset of state is captured with `SaveState(flags, saved)`, the
recorder is then mutated arbitrarily and `RestoreState(saved)` is applied,
every part selected by `flags` (the bindings of each selected set, viewport,
scissor, static, potential and dynamic render state, push constants) equals
its value at capture time, and the dirty flag of every restored part is set
whatever the mutated recorder held. -/
theorem C12_save_restore_round_trip (flags : Nat) (saved0 : CommandBufferSavedState)
    (s mutated : CommandBuffer) :
    (∀ set, saves_bindings flags set = true →
      (mutated.RestoreState (s.SaveState flags saved0)).bindings.bindings set =
          s.bindings.bindings set ∧
      (mutated.RestoreState (s.SaveState flags saved0)).dirty_sets.testBit set = true) ∧
    (flags &&& COMMAND_BUFFER_SAVED_VIEWPORT_BIT ≠ 0 →
      (mutated.RestoreState (s.SaveState flags saved0)).viewport = s.viewport ∧
      (mutated.RestoreState (s.SaveState flags saved0)).is_dirty
          COMMAND_BUFFER_DIRTY_VIEWPORT_BIT = true) ∧
    (flags &&& COMMAND_BUFFER_SAVED_SCISSOR_BIT ≠ 0 →
      (mutated.RestoreState (s.SaveState flags saved0)).scissor = s.scissor ∧
      (mutated.RestoreState (s.SaveState flags saved0)).is_dirty
          COMMAND_BUFFER_DIRTY_SCISSOR_BIT = true) ∧
    (flags &&& COMMAND_BUFFER_SAVED_RENDER_STATE_BIT ≠ 0 →
      (mutated.RestoreState (s.SaveState flags saved0)).pipeline_state.static_state =
          s.pipeline_state.static_state ∧
      (mutated.RestoreState (s.SaveState flags saved0)).pipeline_state.potential_static_state =
          s.pipeline_state.potential_static_state ∧
      (mutated.RestoreState (s.SaveState flags saved0)).dynamic_state = s.dynamic_state ∧
      (mutated.RestoreState (s.SaveState flags saved0)).is_dirty
          COMMAND_BUFFER_DIRTY_STATIC_STATE_BIT = true ∧
      (mutated.RestoreState (s.SaveState flags saved0)).is_dirty
          COMMAND_BUFFER_DIRTY_DEPTH_BIAS_BIT = true ∧
      (mutated.RestoreState (s.SaveState flags saved0)).is_dirty
          COMMAND_BUFFER_DIRTY_STENCIL_REFERENCE_BIT = true) ∧
    (flags &&& COMMAND_BUFFER_SAVED_PUSH_CONSTANT_BIT ≠ 0 →
      (mutated.RestoreState (s.SaveState flags saved0)).bindings.push_constant_data =
          s.bindings.push_constant_data ∧
      (mutated.RestoreState (s.SaveState flags saved0)).is_dirty
          COMMAND_BUFFER_DIRTY_PUSH_CONSTANTS_BIT = true) := by
  have hflags : (s.SaveState flags saved0).flags = flags := rfl
  refine ⟨?_, ?_, ?_, ?_, ?_⟩
  · intro set hset
    obtain ⟨hlt, hbit⟩ := testBit_of_saves_bindings flags set hset
    constructor
    · rw [RestoreState_bindings, hflags, if_pos hset]
      simp only [CommandBuffer.SaveState, hset, if_true]
    · rw [RestoreState_dirty_sets, hflags, Nat.testBit_lor, Nat.testBit_land,
        Nat.testBit_two_pow_sub_one, hbit]
      simp [hlt]
  · intro h
    have hb : (flags &&& COMMAND_BUFFER_SAVED_VIEWPORT_BIT != 0) = true := by simpa using h
    constructor
    · rw [RestoreState_viewport _ _ (by rw [hflags]; exact hb)]
      simp only [CommandBuffer.SaveState, hb, if_true]
    · apply CommandBuffer.is_dirty_of_testBit _ _ 2 _ (by decide)
      rw [RestoreState_dirty, hflags]
      simp only [hb, if_true, Nat.testBit_lor]
      have : COMMAND_BUFFER_DIRTY_VIEWPORT_BIT.testBit 2 = true := by decide
      simp [this]
  · intro h
    have hb : (flags &&& COMMAND_BUFFER_SAVED_SCISSOR_BIT != 0) = true := by simpa using h
    constructor
    · rw [RestoreState_scissor _ _ (by rw [hflags]; exact hb)]
      simp only [CommandBuffer.SaveState, hb, if_true]
    · apply CommandBuffer.is_dirty_of_testBit _ _ 3 _ (by decide)
      rw [RestoreState_dirty, hflags]
      simp only [hb, if_true, Nat.testBit_lor]
      have : COMMAND_BUFFER_DIRTY_SCISSOR_BIT.testBit 3 = true := by decide
      simp [this]
  · intro h
    have hb : (flags &&& COMMAND_BUFFER_SAVED_RENDER_STATE_BIT != 0) = true := by simpa using h
    obtain ⟨h1, h2, h3⟩ := RestoreState_render_state (s.SaveState flags saved0) mutated
      (by rw [hflags]; exact hb)
    have hd : ∀ i, (COMMAND_BUFFER_DIRTY_STATIC_STATE_BIT ||| COMMAND_BUFFER_DIRTY_DEPTH_BIAS_BIT |||
        COMMAND_BUFFER_DIRTY_STENCIL_REFERENCE_BIT).testBit i = true →
        (mutated.RestoreState (s.SaveState flags saved0)).dirty.testBit i = true := by
      intro i hi
      rw [RestoreState_dirty, hflags]
      simp only [hb, if_true]
      rw [Nat.testBit_lor, hi, Bool.or_true]
    refine ⟨?_, ?_, ?_, ?_, ?_, ?_⟩
    · rw [h1]
      simp only [CommandBuffer.SaveState, hb, if_true]
    · rw [h2]
      simp only [CommandBuffer.SaveState, hb, if_true]
    · rw [h3]
      simp only [CommandBuffer.SaveState, hb, if_true]
    · exact CommandBuffer.is_dirty_of_testBit _ _ 0 (hd 0 (by decide)) (by decide)
    · exact CommandBuffer.is_dirty_of_testBit _ _ 4 (hd 4 (by decide)) (by decide)
    · exact CommandBuffer.is_dirty_of_testBit _ _ 5 (hd 5 (by decide)) (by decide)
  · intro h
    have hb : (flags &&& COMMAND_BUFFER_SAVED_PUSH_CONSTANT_BIT != 0) = true := by simpa using h
    constructor
    · rw [RestoreState_push_constants _ _ (by rw [hflags]; exact hb)]
      simp only [CommandBuffer.SaveState, hb, if_true]
    · apply CommandBuffer.is_dirty_of_testBit _ _ 7 _ (by decide)
      rw [RestoreState_dirty, hflags]
      simp only [hb, if_true, Nat.testBit_lor]
      have : COMMAND_BUFFER_DIRTY_PUSH_CONSTANTS_BIT.testBit 7 = true := by decide
      simp [this]

/-! ## The pipeline resolver -/

theorem mem_for_each_bit (mask i : Nat) (h : i ∈ for_each_bit mask) : mask.testBit i = true := by
  simp only [for_each_bit, List.mem_filter] at h
  exact h.2

theorem flatMap_congr_mem {α β : Type} (l : List α) (f g : α → List β)
    (h : ∀ a ∈ l, f a = g a) : l.flatMap f = l.flatMap g := by
  induction l with
  | nil => rfl
  | cons a l ih =>
    simp only [List.flatMap_cons]
    rw [h a (List.mem_cons_self _ _), ih (fun b hb => h b (List.mem_cons_of_mem _ hb))]

theorem DeferredPipelineCompile.spec_words_eq (sv : Services) (r1 r2 : DeferredPipelineCompile)
    (h : r1.same_identity sv r2) : r1.spec_words sv = r2.spec_words sv := by
  obtain ⟨_, _, _, _, hscope, hspec, _⟩ := h
  unfold DeferredPipelineCompile.spec_words
  rw [← hscope]
  congr 1
  apply List.map_congr_left
  intro i hi
  exact hspec i (mem_for_each_bit _ _ hi)

theorem DeferredPipelineCompile.vertex_words_eq (sv : Services) (r1 r2 : DeferredPipelineCompile)
    (h : r1.same_identity sv r2) : r1.vertex_words sv = r2.vertex_words sv := by
  obtain ⟨hprog, _, _, _, _, _, hattr⟩ := h
  unfold DeferredPipelineCompile.vertex_words
  rw [← hprog]
  apply flatMap_congr_mem
  intro i hi
  obtain ⟨h1, h2, h3⟩ := hattr i (mem_for_each_bit _ _ hi)
  simp only
  rw [← h1, h2, h3]

theorem resolve_pipeline_again (sv : Services) (c1 c2 : DeferredPipelineCompile)
    (dev : DeviceState) (h : c1.hash = c2.hash) :
    resolve_pipeline sv c2 (resolve_pipeline sv c1 dev).2 =
      ((resolve_pipeline sv c1 dev).1, (resolve_pipeline sv c1 dev).2) := by
  cases hf : dev.find_pipeline c1.hash with
  | some handle =>
    have h1 : resolve_pipeline sv c1 dev = (handle, dev) := by
      simp [resolve_pipeline, hf]
    rw [h1]
    simp [resolve_pipeline, ← h, hf]
  | none =>
    have h1 : resolve_pipeline sv c1 dev =
        (sv.BuildPipeline c1,
          { dev with
              pipelines := (c1.hash, sv.BuildPipeline c1) :: dev.pipelines,
              builds := dev.builds ++ [c1.hash] }) := by
      simp [resolve_pipeline, hf]
    rw [h1]
    simp [resolve_pipeline, DeviceState.find_pipeline, ← h]

/-- C13: two deferred pipeline compile records with the same program, the same
render-pass compatibility identity and subpass, the same static-state words
and the same specialization-constant and vertex data in scope get the same
hash from `update_hash_graphics_pipeline`, and the same hash from
`update_hash_compute_pipeline`; resolving the second record after the first
returns the handle the first one got and neither builds nor changes the
cache. -/
theorem C13_pipeline_hash_is_deterministic (sv : Services) (r1 r2 : DeferredPipelineCompile)
    (h : r1.same_identity sv r2) :
    (update_hash_graphics_pipeline sv r1).1.hash = (update_hash_graphics_pipeline sv r2).1.hash ∧
    (update_hash_compute_pipeline sv r1).hash = (update_hash_compute_pipeline sv r2).hash ∧
    (∀ dev : DeviceState,
      resolve_pipeline sv (update_hash_graphics_pipeline sv r2).1
          (resolve_pipeline sv (update_hash_graphics_pipeline sv r1).1 dev).2 =
        ((resolve_pipeline sv (update_hash_graphics_pipeline sv r1).1 dev).1,
          (resolve_pipeline sv (update_hash_graphics_pipeline sv r1).1 dev).2)) ∧
    (∀ dev : DeviceState,
      resolve_pipeline sv (update_hash_compute_pipeline sv r2)
          (resolve_pipeline sv (update_hash_compute_pipeline sv r1) dev).2 =
        ((resolve_pipeline sv (update_hash_compute_pipeline sv r1) dev).1,
          (resolve_pipeline sv (update_hash_compute_pipeline sv r1) dev).2)) := by
  have hs := DeferredPipelineCompile.spec_words_eq sv r1 r2 h
  have hv := DeferredPipelineCompile.vertex_words_eq sv r1 r2 h
  obtain ⟨hprog, hrp, hsub, hwords, _, _, _⟩ := h
  have hg : (update_hash_graphics_pipeline sv r1).1.hash =
      (update_hash_graphics_pipeline sv r2).1.hash := by
    simp only [update_hash_graphics_pipeline]
    rw [hprog, hrp, hsub, hwords, hs, hv]
  have hc : (update_hash_compute_pipeline sv r1).hash =
      (update_hash_compute_pipeline sv r2).hash := by
    simp only [update_hash_compute_pipeline]
    rw [hprog, hwords, hs]
  exact ⟨hg, hc, fun dev => resolve_pipeline_again sv _ _ dev hg,
    fun dev => resolve_pipeline_again sv _ _ dev hc⟩

/-! ## Draw-time resolution -/

theorem flush_descriptor_set_same_outside (sv : Services) (set : Nat)
    (st : CommandBuffer × DeviceState) :
    same_outside_sets st (CommandBuffer.flush_descriptor_set sv set st) :=
  ⟨rfl, rfl, rfl, rfl, rfl, rfl, rfl, rfl, rfl⟩

theorem same_outside_sets_trans {a b c : CommandBuffer × DeviceState}
    (h1 : same_outside_sets a b) (h2 : same_outside_sets b c) : same_outside_sets a c := by
  obtain ⟨a1, a2, a3, a4, a5, a6, a7, a8, a9⟩ := h1
  obtain ⟨b1, b2, b3, b4, b5, b6, b7, b8, b9⟩ := h2
  exact ⟨b1.trans a1, b2.trans a2, b3.trans a3, b4.trans a4, b5.trans a5, b6.trans a6,
    b7.trans a7, b8.trans a8, b9.trans a9⟩

theorem flush_sets_foldl_same_outside (sv : Services) (l : List Nat)
    (st : CommandBuffer × DeviceState) :
    same_outside_sets st
      (l.foldl (fun acc set => CommandBuffer.flush_descriptor_set sv set acc) st) := by
  induction l generalizing st with
  | nil => exact ⟨rfl, rfl, rfl, rfl, rfl, rfl, rfl, rfl, rfl⟩
  | cons x xs ih =>
    rw [List.foldl_cons]
    exact same_outside_sets_trans (flush_descriptor_set_same_outside sv x st) (ih _)

theorem flush_sets_foldl_finds (sv : Services) (l : List Nat)
    (st : CommandBuffer × DeviceState) :
    (l.foldl (fun acc set => CommandBuffer.flush_descriptor_set sv set acc) st).2.finds =
      st.2.finds ++ l := by
  induction l generalizing st with
  | nil => simp
  | cons x xs ih =>
    rw [List.foldl_cons, ih]
    simp [CommandBuffer.flush_descriptor_set]

theorem flush_sets_foldl_untouched (sv : Services) (l : List Nat)
    (st : CommandBuffer × DeviceState) (j : Nat) (hj : j ∉ l) :
    (l.foldl (fun acc set => CommandBuffer.flush_descriptor_set sv set acc) st).1.allocated_sets j =
        st.1.allocated_sets j ∧
    (l.foldl (fun acc set => CommandBuffer.flush_descriptor_set sv set acc) st).2.allocators j =
        st.2.allocators j := by
  induction l generalizing st with
  | nil => exact ⟨rfl, rfl⟩
  | cons x xs ih =>
    rw [List.foldl_cons]
    simp only [List.mem_cons, not_or] at hj
    obtain ⟨h1, h2⟩ := ih (CommandBuffer.flush_descriptor_set sv x st) hj.2
    rw [h1, h2]
    simp [CommandBuffer.flush_descriptor_set, Function.update_noteq hj.1]

theorem flush_descriptor_sets_same_outside (sv : Services) (cb : CommandBuffer)
    (dev : DeviceState) : same_outside_sets (cb, dev) (cb.flush_descriptor_sets sv dev) := by
  have h := flush_sets_foldl_same_outside sv
    (for_each_bit (cb.dirty_sets &&& (2 ^ VULKAN_NUM_DESCRIPTOR_SETS - 1))) (cb, dev)
  exact h

theorem land_clear (d f : Nat) (hf : f < 2 ^ 32) :
    (d &&& ((2 ^ 32 - 1) ^^^ (f % 2 ^ 32))) &&& f = 0 := by
  apply Nat.eq_of_testBit_eq
  intro i
  rw [Nat.testBit_land, Nat.testBit_land, Nat.testBit_xor, Nat.testBit_two_pow_sub_one,
    Nat.testBit_mod_two_pow, Nat.zero_testBit]
  by_cases hfi : f.testBit i = true
  · have hi : i < 32 := by
      have h1 := Nat.testBit_implies_ge hfi
      exact (Nat.pow_lt_pow_iff_right (by decide)).mp (lt_of_le_of_lt h1 hf)
    simp [hfi, hi]
  · simp [hfi]

theorem land_clear_within (d f g : Nat) (hf : f < 2 ^ 32) (hg : g &&& f = g) :
    (d &&& ((2 ^ 32 - 1) ^^^ (f % 2 ^ 32))) &&& g = 0 := by
  rw [← hg, ← Nat.land_assoc, Nat.land_comm _ g, Nat.land_assoc, land_clear d f hf]
  simp

theorem Draw_eq (sv : Services) (cb : CommandBuffer) (dev : DeviceState)
    (hprog : cb.pipeline_state.program ≠ 0) :
    cb.Draw sv dev =
      some
        ((((cb.after_pipeline_step sv dev).1.flush_descriptor_sets sv
              (cb.after_pipeline_step sv dev).2).1.get_and_clear
            (COMMAND_BUFFER_DYNAMIC_BITS ||| COMMAND_BUFFER_DIRTY_PUSH_CONSTANTS_BIT)).2,
          { ((cb.after_pipeline_step sv dev).1.flush_descriptor_sets sv
              (cb.after_pipeline_step sv dev).2).2 with
            draws := ((cb.after_pipeline_step sv dev).1.flush_descriptor_sets sv
              (cb.after_pipeline_step sv dev).2).2.draws + 1 }) := by
  unfold CommandBuffer.Draw CommandBuffer.flush_render_state
  rw [if_neg hprog]
  rfl

theorem resolve_pipeline_frame (sv : Services) (c : DeferredPipelineCompile) (dev : DeviceState) :
    (resolve_pipeline sv c dev).2.allocators = dev.allocators ∧
    (resolve_pipeline sv c dev).2.finds = dev.finds := by
  unfold resolve_pipeline
  cases dev.find_pipeline c.hash <;> exact ⟨rfl, rfl⟩

theorem after_pipeline_step_frame (sv : Services) (cb : CommandBuffer) (dev : DeviceState) :
    (cb.after_pipeline_step sv dev).1.dirty =
        cb.dirty &&& ((2 ^ 32 - 1) ^^^ (pipeline_dirty_bits % 2 ^ 32)) ∧
    (cb.after_pipeline_step sv dev).1.dirty_sets = cb.dirty_sets ∧
    (cb.after_pipeline_step sv dev).1.bindings = cb.bindings ∧
    (cb.after_pipeline_step sv dev).1.allocated_sets = cb.allocated_sets ∧
    (cb.after_pipeline_step sv dev).1.thread_index = cb.thread_index ∧
    (cb.after_pipeline_step sv dev).1.pipeline_state.program = cb.pipeline_state.program ∧
    (cb.after_pipeline_step sv dev).1.pipeline_state.static_state =
        cb.pipeline_state.static_state ∧
    (cb.after_pipeline_step sv dev).2.allocators = dev.allocators ∧
    (cb.after_pipeline_step sv dev).2.finds = dev.finds := by
  unfold CommandBuffer.after_pipeline_step
  split
  · obtain ⟨h1, h2⟩ := resolve_pipeline_frame sv
      (update_hash_graphics_pipeline sv (cb.get_and_clear pipeline_dirty_bits).2.pipeline_state).1
      dev
    exact ⟨rfl, rfl, rfl, rfl, rfl, rfl, rfl, h1, h2⟩
  · exact ⟨rfl, rfl, rfl, rfl, rfl, rfl, rfl, rfl, rfl⟩

theorem flush_descriptor_sets_finds (sv : Services) (cb : CommandBuffer) (dev : DeviceState) :
    (cb.flush_descriptor_sets sv dev).2.finds =
      dev.finds ++ for_each_bit (cb.dirty_sets &&& (2 ^ VULKAN_NUM_DESCRIPTOR_SETS - 1)) :=
  flush_sets_foldl_finds sv _ (cb, dev)

theorem flush_descriptor_sets_untouched (sv : Services) (cb : CommandBuffer) (dev : DeviceState)
    (j : Nat) (hj : j ∉ for_each_bit (cb.dirty_sets &&& (2 ^ VULKAN_NUM_DESCRIPTOR_SETS - 1))) :
    (cb.flush_descriptor_sets sv dev).1.allocated_sets j = cb.allocated_sets j ∧
    (cb.flush_descriptor_sets sv dev).2.allocators j = dev.allocators j :=
  flush_sets_foldl_untouched sv _ (cb, dev) j hj

theorem Draw_result (sv : Services) (cb : CommandBuffer) (dev : DeviceState)
    (hprog : cb.pipeline_state.program ≠ 0) :
    ∃ cb2 dev2, cb.Draw sv dev = some (cb2, dev2) ∧
      cb2.pipeline_state = (cb.after_pipeline_step sv dev).1.pipeline_state ∧
      cb2.current_pipeline = (cb.after_pipeline_step sv dev).1.current_pipeline ∧
      dev2.pipelines = (cb.after_pipeline_step sv dev).2.pipelines ∧
      dev2.builds = (cb.after_pipeline_step sv dev).2.builds ∧
      cb2.dirty &&& pipeline_dirty_bits = 0 ∧
      cb2.bindings = cb.bindings ∧
      cb2.thread_index = cb.thread_index ∧
      cb2.dirty_sets =
        cb.dirty_sets &&&
          ((2 ^ 32 - 1) ^^^ (cb.dirty_sets &&& (2 ^ VULKAN_NUM_DESCRIPTOR_SETS - 1))) ∧
      dev2.finds =
        dev.finds ++ for_each_bit (cb.dirty_sets &&& (2 ^ VULKAN_NUM_DESCRIPTOR_SETS - 1)) ∧
      (∀ j, j ∉ for_each_bit (cb.dirty_sets &&& (2 ^ VULKAN_NUM_DESCRIPTOR_SETS - 1)) →
        cb2.allocated_sets j = cb.allocated_sets j ∧ dev2.allocators j = dev.allocators j) := by
  obtain ⟨f1, f2, f3, f4, f5, f6, f7, f8, f9⟩ := after_pipeline_step_frame sv cb dev
  obtain ⟨s1, s2, s3, s4, s5, s6, s7, s8, s9⟩ :=
    flush_descriptor_sets_same_outside sv (cb.after_pipeline_step sv dev).1
      (cb.after_pipeline_step sv dev).2
  refine ⟨_, _, Draw_eq sv cb dev hprog, s2, s5, s7, s8, ?_, s4.trans f3, s6.trans f5, ?_, ?_, ?_⟩
  · show (((cb.after_pipeline_step sv dev).1.flush_descriptor_sets sv
        (cb.after_pipeline_step sv dev).2).1.dirty &&& _) &&& pipeline_dirty_bits = 0
    have s1b : ((cb.after_pipeline_step sv dev).1.flush_descriptor_sets sv
        (cb.after_pipeline_step sv dev).2).1.dirty = (cb.after_pipeline_step sv dev).1.dirty := s1
    rw [s1b, f1, Nat.land_assoc, Nat.land_comm _ pipeline_dirty_bits, ← Nat.land_assoc,
      land_clear cb.dirty pipeline_dirty_bits (by decide)]
    simp
  · show cb.after_pipeline_step sv dev |>.1.dirty_sets &&& _ = _
    rw [f2]
  · have h := flush_descriptor_sets_finds sv (cb.after_pipeline_step sv dev).1
      (cb.after_pipeline_step sv dev).2
    rw [f2, f9] at h
    exact h
  · intro j hj
    have hj2 : j ∉ for_each_bit ((cb.after_pipeline_step sv dev).1.dirty_sets &&&
        (2 ^ VULKAN_NUM_DESCRIPTOR_SETS - 1)) := by
      rw [f2]
      exact hj
    obtain ⟨u1, u2⟩ := flush_descriptor_sets_untouched sv (cb.after_pipeline_step sv dev).1
      (cb.after_pipeline_step sv dev).2 j hj2
    rw [f4] at u1
    rw [f8] at u2
    exact ⟨u1, u2⟩

theorem land_clear_sets (d : Nat) :
    (d &&& ((2 ^ 32 - 1) ^^^ (d &&& (2 ^ VULKAN_NUM_DESCRIPTOR_SETS - 1)))) &&&
      (2 ^ VULKAN_NUM_DESCRIPTOR_SETS - 1) = 0 := by
  apply Nat.eq_of_testBit_eq
  intro i
  rw [Nat.testBit_land, Nat.testBit_land, Nat.testBit_xor, Nat.testBit_land,
    Nat.testBit_two_pow_sub_one, Nat.testBit_two_pow_sub_one, Nat.zero_testBit]
  by_cases hi : i < VULKAN_NUM_DESCRIPTOR_SETS
  · have hi2 : i < 32 := lt_trans hi (by decide)
    cases Nat.testBit d i <;> simp [hi, hi2]
  · simp [hi]

theorem lor_land_of_land_eq_zero (x m f : Nat) (h : x &&& f = 0) :
    (x ||| m) &&& f = m &&& f := by
  rw [Nat.land_comm, Nat.and_or_distrib_left, Nat.land_comm f x, h, Nat.zero_or, Nat.land_comm]

theorem SetTexture_changed (cb : CommandBuffer) (set binding : Nat) (view : ImageView)
    (h : (cb.bindings.bindings set binding).cookie ≠ view.cookie) :
    (cb.SetTexture set binding view).dirty_sets = cb.dirty_sets ||| ((1 <<< set) % 2 ^ 32) ∧
    (cb.SetTexture set binding view).pipeline_state = cb.pipeline_state ∧
    (cb.SetTexture set binding view).allocated_sets = cb.allocated_sets ∧
    (cb.SetTexture set binding view).dirty = cb.dirty := by
  unfold CommandBuffer.SetTexture
  rw [if_neg h]
  exact ⟨rfl, rfl, rfl, rfl⟩

/-- C15: after a draw, when only a texture of set 1 is bound anew with a
different cookie, bit 1 is the only set dirty bit raised; the next draw asks
the allocator for set 1 alone, and the table handle allocated for set 0 and
the allocator of set 0 are left as they were. -/
theorem C15_only_the_changed_set_is_resolved_again (sv : Services) (cb : CommandBuffer)
    (dev : DeviceState) (binding : Nat) (view : ImageView)
    (hprog : cb.pipeline_state.program ≠ 0)
    (hcookie : (cb.bindings.bindings 1 binding).cookie ≠ view.cookie) :
    ∃ cb1 dev1 cb2 dev2,
      cb.Draw sv dev = some (cb1, dev1) ∧
      cb1.dirty_sets &&& (2 ^ VULKAN_NUM_DESCRIPTOR_SETS - 1) = 0 ∧
      (cb1.SetTexture 1 binding view).dirty_sets = cb1.dirty_sets ||| (1 <<< 1) ∧
      (cb1.SetTexture 1 binding view).dirty_sets &&& (2 ^ VULKAN_NUM_DESCRIPTOR_SETS - 1) =
        1 <<< 1 ∧
      (cb1.SetTexture 1 binding view).Draw sv dev1 = some (cb2, dev2) ∧
      dev2.finds = dev1.finds ++ [1] ∧
      cb2.allocated_sets 0 = cb1.allocated_sets 0 ∧
      dev2.allocators 0 = dev1.allocators 0 := by
  obtain ⟨cb1, dev1, hd1, p1, _, _, _, _, hb1, _, hs1, _, _⟩ := Draw_result sv cb dev hprog
  have hprog1 : cb1.pipeline_state.program ≠ 0 := by
    rw [p1, (after_pipeline_step_frame sv cb dev).2.2.2.2.2.1]
    exact hprog
  have hclean : cb1.dirty_sets &&& (2 ^ VULKAN_NUM_DESCRIPTOR_SETS - 1) = 0 := by
    rw [hs1]
    exact land_clear_sets _
  have hcookie1 : (cb1.bindings.bindings 1 binding).cookie ≠ view.cookie := by
    rw [hb1]
    exact hcookie
  obtain ⟨t1, t2, t3, _⟩ := SetTexture_changed cb1 1 binding view hcookie1
  have hmask : (cb1.SetTexture 1 binding view).dirty_sets &&&
      (2 ^ VULKAN_NUM_DESCRIPTOR_SETS - 1) = 1 <<< 1 := by
    rw [t1, lor_land_of_land_eq_zero _ _ _ hclean]
    decide
  have hprog2 : (cb1.SetTexture 1 binding view).pipeline_state.program ≠ 0 := by
    rw [t2]
    exact hprog1
  obtain ⟨cb2, dev2, hd2, _, _, _, _, _, _, _, _, hf2, hu2⟩ :=
    Draw_result sv (cb1.SetTexture 1 binding view) dev1 hprog2
  rw [hmask] at hf2 hu2
  have hbits : for_each_bit (1 <<< 1) = [1] := by decide
  rw [hbits] at hf2 hu2
  obtain ⟨u1, u2⟩ := hu2 0 (by decide)
  rw [t3] at u1
  exact ⟨cb1, dev1, cb2, dev2, hd1, hclean, t1, hmask, hd2, hf2, u1, u2⟩

theorem lor_land_ne_zero (d m f : Nat) (h : d &&& f ≠ 0) : (d ||| m) &&& f ≠ 0 := by
  obtain ⟨i, hi⟩ := Nat.ne_zero_implies_bit_true h
  rw [Nat.testBit_land, Bool.and_eq_true] at hi
  exact land_ne_zero_of_testBit _ _ i (testBit_lor_mono _ _ _ hi.1) hi.2

theorem StaticCall.run_keeps_dirty (c : StaticCall) (cb : CommandBuffer) (f : Nat)
    (h : cb.dirty &&& f ≠ 0) : (c.run cb).dirty &&& f ≠ 0 := by
  rcases c.run_raises_static_bit cb with h2 | h2
  · rw [h2]
    exact h
  · rw [h2]
    exact lor_land_ne_zero _ _ _ h

/-- C12 at the flags `RENDER_STATE`, captured on the zeroed recorder and
restored into a recorder whose cull mode and stencil reference were changed. -/
theorem C12_save_restore_round_trip_witness :
    (((CommandBuffer.zeroed.SetCullMode 1).SetStencilFrontReference 1 2 3).RestoreState
        (CommandBuffer.zeroed.SaveState 0x400 CommandBufferSavedState.blank)).pipeline_state.static_state =
      CommandBuffer.zeroed.pipeline_state.static_state ∧
    (((CommandBuffer.zeroed.SetCullMode 1).SetStencilFrontReference 1 2 3).RestoreState
        (CommandBuffer.zeroed.SaveState 0x400
          CommandBufferSavedState.blank)).pipeline_state.potential_static_state =
      CommandBuffer.zeroed.pipeline_state.potential_static_state ∧
    (((CommandBuffer.zeroed.SetCullMode 1).SetStencilFrontReference 1 2 3).RestoreState
        (CommandBuffer.zeroed.SaveState 0x400 CommandBufferSavedState.blank)).dynamic_state =
      CommandBuffer.zeroed.dynamic_state ∧
    (((CommandBuffer.zeroed.SetCullMode 1).SetStencilFrontReference 1 2 3).RestoreState
        (CommandBuffer.zeroed.SaveState 0x400 CommandBufferSavedState.blank)).is_dirty
      COMMAND_BUFFER_DIRTY_STATIC_STATE_BIT = true ∧
    (((CommandBuffer.zeroed.SetCullMode 1).SetStencilFrontReference 1 2 3).RestoreState
        (CommandBuffer.zeroed.SaveState 0x400 CommandBufferSavedState.blank)).is_dirty
      COMMAND_BUFFER_DIRTY_DEPTH_BIAS_BIT = true ∧
    (((CommandBuffer.zeroed.SetCullMode 1).SetStencilFrontReference 1 2 3).RestoreState
        (CommandBuffer.zeroed.SaveState 0x400 CommandBufferSavedState.blank)).is_dirty
      COMMAND_BUFFER_DIRTY_STENCIL_REFERENCE_BIT = true :=
  (C12_save_restore_round_trip 0x400 CommandBufferSavedState.blank CommandBuffer.zeroed
    ((CommandBuffer.zeroed.SetCullMode 1).SetStencilFrontReference 1 2 3)).2.2.2.1 (by decide)

theorem DeferredPipelineCompile.variant_same_identity :
    CommandBuffer.bound.pipeline_state.same_identity Services.sample
      DeferredPipelineCompile.variant := by
  refine ⟨rfl, rfl, rfl, rfl, rfl, ?_, ?_⟩
  · intro i hi
    have h0 : i = 0 := by
      have : Nat.testBit 1 i = true := hi
      exact Nat.testBit_one_eq_true_iff_self_eq_zero.mp this
    subst h0
    rfl
  · intro i hi
    have h0 : i = 0 := by
      have : Nat.testBit 1 i = true := hi
      exact Nat.testBit_one_eq_true_iff_self_eq_zero.mp this
    subst h0
    exact ⟨rfl, rfl, rfl⟩

/-- C13 at two records that differ only outside the pipeline identity. -/
theorem C13_pipeline_hash_is_deterministic_witness :
    (update_hash_graphics_pipeline Services.sample CommandBuffer.bound.pipeline_state).1.hash =
      (update_hash_graphics_pipeline Services.sample DeferredPipelineCompile.variant).1.hash :=
  (C13_pipeline_hash_is_deterministic Services.sample CommandBuffer.bound.pipeline_state
    DeferredPipelineCompile.variant DeferredPipelineCompile.variant_same_identity).1

/-- C15 on a recorder with a texture bound in set 0 and in set 1, on a device
state whose allocators have handed out a table before: the first draw resolves
both sets and gives each the table handle 1; after a view with cookie 9 is
bound at binding 0 of set 1 the second draw asks the allocator for set 1
alone, which gets the handle 2, and set 0 keeps the handle 1. -/
theorem C15_only_the_changed_set_is_resolved_again_witness :
    (∃ cb1 dev1 cb2 dev2,
      CommandBuffer.two_sets.Draw Services.sample DeviceState.used = some (cb1, dev1) ∧
      cb1.dirty_sets &&& (2 ^ VULKAN_NUM_DESCRIPTOR_SETS - 1) = 0 ∧
      (cb1.SetTexture 1 0 { view := 5, cookie := 9 }).dirty_sets = cb1.dirty_sets ||| (1 <<< 1) ∧
      (cb1.SetTexture 1 0 { view := 5, cookie := 9 }).dirty_sets &&&
          (2 ^ VULKAN_NUM_DESCRIPTOR_SETS - 1) = 1 <<< 1 ∧
      (cb1.SetTexture 1 0 { view := 5, cookie := 9 }).Draw Services.sample dev1 =
        some (cb2, dev2) ∧
      dev2.finds = dev1.finds ++ [1] ∧
      cb2.allocated_sets 0 = cb1.allocated_sets 0 ∧
      dev2.allocators 0 = dev1.allocators 0) ∧
    CommandBuffer.two_sets.dirty_sets = 3 ∧
    (CommandBuffer.two_sets.Draw Services.sample DeviceState.used).map
        (fun r => (r.2.finds, r.1.allocated_sets 0, r.1.allocated_sets 1)) =
      some ([0, 1], 1, 1) ∧
    ((CommandBuffer.two_sets.Draw Services.sample DeviceState.used).bind
        (fun r => (r.1.SetTexture 1 0 { view := 5, cookie := 9 }).Draw Services.sample r.2)).map
        (fun r => (r.2.finds, r.1.allocated_sets 0, r.1.allocated_sets 1)) =
      some ([0, 1, 1], 1, 2) :=
  ⟨C15_only_the_changed_set_is_resolved_again Services.sample CommandBuffer.two_sets
      DeviceState.used 0 { view := 5, cookie := 9 } (by decide) (by decide),
    by decide, by decide, by decide⟩

/-! ## The saved-state flags -/

/-- C21: for every set index `i` in 0..7 the flag
`COMMAND_BUFFER_SAVED_BINDINGS_i_BIT` equals `1 << i`; the enumeration
`CommandBufferSavedStateBits` has twelve values, each one a single bit of a
32-bit word, and any two of them at different places have no bit in common. -/
theorem C21_saved_state_flags_are_disjoint_single_bits :
    (∀ i : Fin 8, COMMAND_BUFFER_SAVED_BINDINGS_BIT i.val = 1 <<< i.val) ∧
    CommandBufferSavedStateBits.length = 12 ∧
    (∀ j : Fin 12, ∃ k : Fin 32, CommandBufferSavedStateBits.getD j.val 0 = 2 ^ k.val) ∧
    (∀ j k : Fin 12, j ≠ k →
      CommandBufferSavedStateBits.getD j.val 0 &&& CommandBufferSavedStateBits.getD k.val 0 = 0) ∧
    CommandBufferSavedStateBits.Pairwise (fun a b => a &&& b = 0) := by
  refine ⟨by decide, by decide, ?_, by decide, by decide⟩
  intro j
  exact ⟨⟨j.val, by omega⟩, by revert j; decide⟩

/-- Two different saved-state flags, read off the general statement. -/
theorem C21_saved_state_flags_witness :
    CommandBufferSavedStateBits.getD 8 0 &&& CommandBufferSavedStateBits.getD 11 0 = 0 :=
  C21_saved_state_flags_are_disjoint_single_bits.2.2.2.1 8 11 (by decide)

/-! ## The dirty word -/

theorem land_clear_testBit (d f i : Nat) (hd : d < 2 ^ 32) :
    (d &&& ((2 ^ 32 - 1) ^^^ (f % 2 ^ 32))).testBit i = (d.testBit i && !f.testBit i) := by
  by_cases hi : i < 32
  · rw [Nat.testBit_land, Nat.testBit_xor, Nat.testBit_two_pow_sub_one, Nat.testBit_mod_two_pow]
    simp [hi]
  · have hz : d.testBit i = false :=
      Nat.testBit_lt_two_pow (lt_of_lt_of_le hd (Nat.pow_le_pow_right (by decide) (by omega)))
    rw [Nat.testBit_land, hz]
    simp

/-- C25: for a 32-bit dirty word `d` and a 32-bit mask `f`, `get_and_clear(f)`
returns `d & f` and leaves `d & ~f` in the dirty word: a bit of the new word is
set exactly when it is set in `d` and clear in `f`, so the bits outside `f` are
those of `d` and the bits inside `f` are clear. A second `get_and_clear(f)`
right after returns 0, and `set_dirty(f)` followed by `get_and_clear(f)`
returns `f`. -/
theorem C25_get_and_clear_returns_and_clears (f : Nat) (cb : CommandBuffer)
    (hd : cb.dirty < 2 ^ 32) (hf : f < 2 ^ 32) :
    (cb.get_and_clear f).1 = cb.dirty &&& f ∧
    (cb.get_and_clear f).2.dirty = cb.dirty &&& ((2 ^ 32 - 1) ^^^ f) ∧
    (∀ i, (cb.get_and_clear f).2.dirty.testBit i = (cb.dirty.testBit i && !f.testBit i)) ∧
    (∀ i, f.testBit i = false →
      (cb.get_and_clear f).2.dirty.testBit i = cb.dirty.testBit i) ∧
    (∀ i, f.testBit i = true → (cb.get_and_clear f).2.dirty.testBit i = false) ∧
    (cb.get_and_clear f).2 = { cb with dirty := (cb.get_and_clear f).2.dirty } ∧
    ((cb.get_and_clear f).2.get_and_clear f).1 = 0 ∧
    ((cb.set_dirty f).get_and_clear f).1 = f := by
  have hbit : ∀ i, (cb.get_and_clear f).2.dirty.testBit i =
      (cb.dirty.testBit i && !f.testBit i) := fun i => land_clear_testBit cb.dirty f i hd
  refine ⟨rfl, ?_, hbit, ?_, ?_, rfl, ?_, ?_⟩
  · show cb.dirty &&& ((2 ^ 32 - 1) ^^^ (f % 2 ^ 32)) = _
    rw [Nat.mod_eq_of_lt hf]
  · intro i hi
    rw [hbit i, hi]
    simp
  · intro i hi
    rw [hbit i, hi]
    simp
  · exact land_clear cb.dirty f hf
  · exact lor_land_self cb.dirty f

/-- A recorder with three dirty bits set gives up the two that are asked for. -/
theorem C25_get_and_clear_witness :
    ((({ CommandBuffer.zeroed with dirty := 7 } : CommandBuffer).get_and_clear 5).1 = 5) ∧
    ((({ CommandBuffer.zeroed with dirty := 7 } : CommandBuffer).get_and_clear 5).2.dirty = 2) :=
  ⟨(C25_get_and_clear_returns_and_clears 5 { CommandBuffer.zeroed with dirty := 7 }
      (by decide) (by decide)).1, by decide⟩

/-! ## Frame and idempotence of the setters -/

/-- C23: a pipeline-state setter changes no member of the Pipeline State Block
other than the members named by its parameters (`SetCullMode` names only
`cull_mode`, `SetStencilFrontOps` the four `stencil_front_*` members), and it
leaves the potentially-static state, the dynamic state, every other member of
the recorder and every dirty bit other than
`COMMAND_BUFFER_DIRTY_STATIC_STATE_BIT` as they were. -/
theorem C23_static_setters_change_only_their_members (c : StaticCall) (cb : CommandBuffer) :
    (∀ g : StaticField, (c.run cb).block.read g ≠ cb.block.read g → g ∈ c.targets.map Prod.fst) ∧
    (∀ v, (StaticCall.SetCullMode v).targets.map Prod.fst = [StaticField.cull_mode]) ∧
    (∀ o p q r, (StaticCall.SetStencilFrontOps o p q r).targets.map Prod.fst =
      [StaticField.stencil_front_compare_op, StaticField.stencil_front_pass,
        StaticField.stencil_front_fail, StaticField.stencil_front_depth_fail]) ∧
    (c.run cb).pipeline_state.potential_static_state =
      cb.pipeline_state.potential_static_state ∧
    (c.run cb).dynamic_state = cb.dynamic_state ∧
    cb.same_outside_static (c.run cb) ∧
    (∀ i, i ≠ 0 → (c.run cb).dirty.testBit i = cb.dirty.testBit i) ∧
    (∀ flag, flag &&& COMMAND_BUFFER_DIRTY_STATIC_STATE_BIT = 0 →
      (c.run cb).dirty &&& flag = cb.dirty &&& flag) := by
  have hso := StaticCall.run_same_outside c cb
  have hdr := StaticCall.run_raises_static_bit c cb
  refine ⟨?_, fun _ => rfl, fun _ _ _ _ => rfl, ?_, ?_, hso, ?_, ?_⟩
  · intro g hg
    by_contra hn
    apply hg
    rw [run_eq_set_static_states]
    exact set_static_states_read_other c.targets cb g hn
  · unfold CommandBuffer.same_outside_static at hso
    rw [hso]
  · unfold CommandBuffer.same_outside_static at hso
    rw [hso]
  · intro i hi
    rcases hdr with h | h
    · rw [h]
    · rw [h, Nat.testBit_lor]
      have : COMMAND_BUFFER_DIRTY_STATIC_STATE_BIT.testBit i = false := by
        show (2 ^ 0).testBit i = false
        rw [Nat.testBit_two_pow]
        simp
        omega
      rw [this]
      simp
  · intro flag hflag
    exact CommandBuffer.dirty_raised_within_land hdr flag hflag

/-- C23 on a recorder whose depth-bias and stencil-reference dirty bits are
set: `SetCullMode(3)` leaves both set and adds nothing outside the static
state bit. -/
theorem C23_static_setters_change_only_their_members_witness :
    ((StaticCall.SetCullMode 3).run
      ({ CommandBuffer.zeroed with dirty := 0x30 } : CommandBuffer)).dirty &&& 0xfe =
      ({ CommandBuffer.zeroed with dirty := 0x30 } : CommandBuffer).dirty &&& 0xfe :=
  (C23_static_setters_change_only_their_members (StaticCall.SetCullMode 3)
    { CommandBuffer.zeroed with dirty := 0x30 }).2.2.2.2.2.2.2 0xfe (by decide)

theorem set_static_states_idempotent (ts : List (StaticField × Nat)) (cb : CommandBuffer)
    (hnd : (ts.map Prod.fst).Nodup) :
    set_static_states ts (set_static_states ts cb) = set_static_states ts cb := by
  have hread := set_static_states_read_target_any ts
  apply CommandBuffer.eq_of_same_outside_static (set_static_states_same_outside ts _)
  · by_cases hall : ∀ t ∈ ts, (set_static_states ts cb).block.read t.1 = t.2
    · rw [set_static_states_of_matches ts _ hall]
    · push_neg at hall
      obtain ⟨t, ht, hne⟩ := hall
      rw [set_static_states_dirty_of_mismatch ts _ ⟨t, ht, hne⟩]
      have hfirst : cb.block.read t.1 ≠ t.2 := by
        intro he
        apply hne
        rw [hread cb hnd t ht, if_pos he]
      rw [set_static_states_dirty_of_mismatch ts cb ⟨t, ht, hfirst⟩]
      exact lor_lor_self _ _
  · apply PipelineState.ext_read
    intro g
    by_cases hg : g ∈ ts.map Prod.fst
    · obtain ⟨t, ht, rfl⟩ := List.mem_map.mp hg
      rw [hread _ hnd t ht, hread cb hnd t ht]
      by_cases he : cb.block.read t.1 = t.2
      · rw [if_pos he, if_pos rfl]
      · rw [if_neg he]
        split
        · rename_i h2
          exact h2.symm
        · rfl
    · rw [set_static_states_read_other ts _ g hg]

/-- C24: every pipeline-state setter, `SetStencilFrontReference` and
`SetStencilBackReference` give the same recorder state (every member and the
dirty word) when called twice with the same arguments as when called once; the
arguments of a pipeline-state setter may be wider than the bit-field. -/
theorem C24_setters_are_idempotent (cb : CommandBuffer) :
    (∀ c : StaticCall, c.run (c.run cb) = c.run cb) ∧
    (∀ m w r : Nat, (cb.SetStencilFrontReference m w r).SetStencilFrontReference m w r =
      cb.SetStencilFrontReference m w r) ∧
    (∀ m w r : Nat, (cb.SetStencilBackReference m w r).SetStencilBackReference m w r =
      cb.SetStencilBackReference m w r) := by
  refine ⟨?_, ?_, ?_⟩
  · intro c
    rw [run_eq_set_static_states c cb, run_eq_set_static_states c]
    exact set_static_states_idempotent c.targets cb (StaticCall.targets_nodup c)
  · intro m w r
    rw [SetStencilFrontReference_eq cb]
    split
    · rename_i h
      rw [SetStencilFrontReference_eq, if_pos h]
    · rw [SetStencilFrontReference_eq, if_pos ⟨rfl, rfl, rfl⟩]
  · intro m w r
    rw [SetStencilBackReference_eq cb]
    split
    · rename_i h
      rw [SetStencilBackReference_eq, if_pos h]
    · rw [SetStencilBackReference_eq, if_pos ⟨rfl, rfl, rfl⟩]

/-! ## Immutable samplers of different bindings -/

theorem one_shiftLeft_mod (b : Nat) (hb : b < 32) : (1 <<< b) % 2 ^ 32 = 2 ^ b := by
  rw [Nat.one_shiftLeft]
  exact Nat.mod_eq_of_lt (Nat.pow_lt_pow_right (by decide) hb)

theorem two_pow_land_two_pow (a b : Nat) (h : a ≠ b) : 2 ^ a &&& 2 ^ b = 0 := by
  apply Nat.eq_of_testBit_eq
  intro i
  rw [Nat.testBit_land, Nat.testBit_two_pow, Nat.testBit_two_pow, Nat.zero_testBit]
  by_cases h1 : a = i
  · have h2 : ¬ b = i := fun h2 => h (h1.trans h2.symm)
    simp [h2]
  · simp [h1]

theorem nibble_other_after_or (x s b b2 : Nat) (hs : s < 16) (hne : b2 ≠ b) :
    ((x ||| ((s <<< (4 * b)) % 2 ^ 64)) >>> (4 * b2)) &&& 0xf = (x >>> (4 * b2)) &&& 0xf := by
  apply Nat.eq_of_testBit_eq
  intro i
  have h15 : (0xf : Nat) = 2 ^ 4 - 1 := by decide
  rw [Nat.testBit_land, Nat.testBit_land, Nat.testBit_shiftRight, Nat.testBit_shiftRight,
    Nat.testBit_lor, Nat.testBit_mod_two_pow, Nat.testBit_shiftLeft, h15,
    Nat.testBit_two_pow_sub_one]
  by_cases hi : i < 4
  · by_cases hge : 4 * b2 + i ≥ 4 * b
    · have hs2 : s.testBit (4 * b2 + i - 4 * b) = false := by
        apply Nat.testBit_lt_two_pow
        calc s < 2 ^ 4 := hs
          _ ≤ 2 ^ (4 * b2 + i - 4 * b) := Nat.pow_le_pow_right (by decide) (by omega)
      simp [hs2]
    · simp [hge]
  · simp [hi]

/-- C26: for bindings `b`, `b2` below 16 with `b2 ≠ b` and a sampler number
`s < 16`, `SetImmutableSampler(layout, b, s)` leaves `HasImmutableSampler(b2)`
and the four-bit entry read by `GetImmutableSampler(b2)` as they were, and
changes no member of the layout other than `immutable_samplers` and
`immutable_sampler_mask`; two `SetImmutableSampler` calls on different bindings
give the same layout in either order. -/
theorem C26_set_immutable_sampler_keeps_other_bindings (layout : DescriptorSetLayout)
    (b b2 s : Nat) (hb : b < 16) (hb2 : b2 < 16) (hs : s < 16) (hne : b2 ≠ b) :
    HasImmutableSampler (SetImmutableSampler layout b s) b2 = HasImmutableSampler layout b2 ∧
    GetImmutableSampler (SetImmutableSampler layout b s) b2 = GetImmutableSampler layout b2 ∧
    SetImmutableSampler layout b s =
      { layout with
          immutable_samplers := (SetImmutableSampler layout b s).immutable_samplers,
          immutable_sampler_mask := (SetImmutableSampler layout b s).immutable_sampler_mask } ∧
    (∀ s2, s2 < 16 →
      SetImmutableSampler (SetImmutableSampler layout b s) b2 s2 =
        SetImmutableSampler (SetImmutableSampler layout b2 s2) b s) := by
  refine ⟨?_, ?_, rfl, ?_⟩
  · simp only [HasImmutableSampler, SetImmutableSampler]
    rw [one_shiftLeft_mod b (by omega), one_shiftLeft_mod b2 (by omega),
      lor_land_disjoint _ _ _ (two_pow_land_two_pow b2 b hne)]
  · simp only [GetImmutableSampler, SetImmutableSampler]
    exact nibble_other_after_or _ _ _ _ hs hne
  · intro s2 _
    simp only [SetImmutableSampler]
    congr 1
    · rw [Nat.lor_assoc, Nat.lor_assoc, Nat.lor_comm ((1 <<< b) % 2 ^ 32)]
    · rw [Nat.lor_assoc, Nat.lor_assoc, Nat.lor_comm ((s <<< (4 * b)) % 2 ^ 64)]

/-- C26 on a layout that holds sampler 5 at binding 0: setting binding 3
leaves binding 0 as it was. -/
theorem C26_set_immutable_sampler_keeps_other_bindings_witness :
    HasImmutableSampler
      (SetImmutableSampler
        { stages := 0, immutable_sampler_mask := 1, immutable_samplers := 5 } 3 9) 0 =
      HasImmutableSampler { stages := 0, immutable_sampler_mask := 1, immutable_samplers := 5 } 0 ∧
    GetImmutableSampler
      (SetImmutableSampler
        { stages := 0, immutable_sampler_mask := 1, immutable_samplers := 5 } 3 9) 0 = 5 :=
  ⟨(C26_set_immutable_sampler_keeps_other_bindings
      { stages := 0, immutable_sampler_mask := 1, immutable_samplers := 5 } 3 0 9
      (by decide) (by decide) (by decide) (by decide)).1, by decide⟩

/-! ## Specialization constants -/

theorem getD_set_same (l : List Nat) (i v d : Nat) (h : i < l.length) :
    (l.set i v).getD i d = v := by
  simp [List.getD_eq_getElem?_getD, List.getElem?_set, h]

theorem getD_set_other (l : List Nat) (i j v d : Nat) (h : j ≠ i) :
    (l.set i v).getD j d = l.getD j d := by
  simp [List.getD_eq_getElem?_getD, List.getElem?_set, h.symm]

/-- The test `spec_constant_mask & (1u << index)` on an 8-bit mask reads bit
`index` of the mask. -/
theorem spec_mask_test (mask index : Nat) (hmask : mask < 2 ^ 8) :
    (mask &&& ((1 <<< index) % 2 ^ 32) != 0) = mask.testBit index := by
  by_cases hi : index < 32
  · rw [one_shiftLeft_mod index hi]
    by_cases hb : mask.testBit index = true
    · rw [hb]
      simp only [bne_iff_ne, ne_eq]
      exact land_ne_zero_of_testBit mask (2 ^ index) index hb Nat.testBit_two_pow_self
    · have hb2 : mask.testBit index = false := by simpa using hb
      rw [hb2]
      simp only [bne_eq_false_iff_eq]
      by_contra hne
      exact hb (testBit_of_land_two_pow_ne_zero mask index hne)
  · have hz : mask.testBit index = false :=
      Nat.testBit_lt_two_pow (lt_of_lt_of_le hmask (Nat.pow_le_pow_right (by decide) (by omega)))
    have h0 : (1 <<< index) % 2 ^ 32 = 0 := by
      rw [Nat.one_shiftLeft]
      have : (2 : Nat) ^ index = 2 ^ 32 * 2 ^ (index - 32) := by
        rw [← Nat.pow_add]
        congr 1
        omega
      rw [this]
      exact Nat.mul_mod_right _ _
    rw [hz, h0, Nat.and_zero]
    rfl

theorem SetSpecializationConstant_of_eq (n index value : Nat) (cb : CommandBuffer)
    (hv : cb.pipeline_state.potential_static_state.spec_constants.getD index 0 = value) :
    cb.SetSpecializationConstant n index value = cb := by
  have hc : (cb.pipeline_state.potential_static_state.spec_constants.getD index 0 != value) =
      false := by
    rw [hv]
    exact bne_self_eq_false _
  unfold CommandBuffer.SetSpecializationConstant
  simp only [hc, Bool.false_eq_true, if_false]

theorem SetSpecializationConstant_of_masked (n index value : Nat) (cb : CommandBuffer)
    (hmask : cb.pipeline_state.potential_static_state.spec_constant_mask < 2 ^ 8)
    (hv : cb.pipeline_state.potential_static_state.spec_constants.getD index 0 ≠ value)
    (hb : cb.pipeline_state.potential_static_state.spec_constant_mask.testBit index = true) :
    cb.SetSpecializationConstant n index value =
      { cb with
          dirty := cb.dirty ||| COMMAND_BUFFER_DIRTY_STATIC_STATE_BIT,
          pipeline_state :=
            { cb.pipeline_state with
                potential_static_state :=
                  { cb.pipeline_state.potential_static_state with
                      spec_constants :=
                        cb.pipeline_state.potential_static_state.spec_constants.set
                          index value } } } := by
  unfold CommandBuffer.SetSpecializationConstant
  simp only [spec_mask_test _ index hmask, hb, bne_iff_ne, ne_eq, hv, not_false_eq_true, if_true]
  rfl

theorem SetSpecializationConstant_of_unmasked (n index value : Nat) (cb : CommandBuffer)
    (hmask : cb.pipeline_state.potential_static_state.spec_constant_mask < 2 ^ 8)
    (hv : cb.pipeline_state.potential_static_state.spec_constants.getD index 0 ≠ value)
    (hb : cb.pipeline_state.potential_static_state.spec_constant_mask.testBit index = false) :
    cb.SetSpecializationConstant n index value =
      { cb with
          pipeline_state :=
            { cb.pipeline_state with
                potential_static_state :=
                  { cb.pipeline_state.potential_static_state with
                      spec_constants :=
                        cb.pipeline_state.potential_static_state.spec_constants.set
                          index value } } } := by
  unfold CommandBuffer.SetSpecializationConstant
  simp only [spec_mask_test _ index hmask, hb, bne_iff_ne, ne_eq, hv, not_false_eq_true, if_true]
  rfl

theorem SetSpecializationConstantMask_dirty_of_change (n m : Nat) (cb : CommandBuffer)
    (h : (cb.SetSpecializationConstantMask n m).pipeline_state.potential_static_state ≠
      cb.pipeline_state.potential_static_state) :
    (cb.SetSpecializationConstantMask n m).is_dirty COMMAND_BUFFER_DIRTY_STATIC_STATE_BIT =
      true := by
  revert h
  unfold CommandBuffer.SetSpecializationConstantMask
    SET_POTENTIALLY_STATIC_STATE_spec_constant_mask
  split
  · intro _
    exact is_dirty_set_dirty_self _ _ (by decide)
  · intro h
    exact absurd rfl h

/-- C22, for a recorder whose constant array has `VULKAN_NUM_SPEC_CONSTANTS`
entries and whose mask is an 8-bit value: after
`SetSpecializationConstant(index, value)` with `index` below
`VULKAN_NUM_SPEC_CONSTANTS` the constant at `index` is `value`, every other
constant, the mask and the blend constants are unchanged, and the dirty word
has gained `COMMAND_BUFFER_DIRTY_STATIC_STATE_BIT` exactly when the stored
constant differed from `value` and bit `index` of the mask is set (otherwise it
is unchanged). So a call of `SetSpecializationConstant` or of
`SetSpecializationConstantMask` that changes the pair of the mask and the
constants restricted to the mask leaves that dirty bit set. -/
theorem C22_specialization_constant_setters (num_spec_constants index value : Nat)
    (cb : CommandBuffer) (hidx : index < num_spec_constants)
    (hlen : cb.pipeline_state.potential_static_state.spec_constants.length = num_spec_constants)
    (hmask : cb.pipeline_state.potential_static_state.spec_constant_mask < 2 ^ 8) :
    (cb.SetSpecializationConstant num_spec_constants index
        value).pipeline_state.potential_static_state.spec_constants.getD index 0 = value ∧
    (∀ j, j ≠ index →
      (cb.SetSpecializationConstant num_spec_constants index
          value).pipeline_state.potential_static_state.spec_constants.getD j 0 =
        cb.pipeline_state.potential_static_state.spec_constants.getD j 0) ∧
    (cb.SetSpecializationConstant num_spec_constants index
        value).pipeline_state.potential_static_state.spec_constants.length = num_spec_constants ∧
    (cb.SetSpecializationConstant num_spec_constants index
        value).pipeline_state.potential_static_state.spec_constant_mask =
      cb.pipeline_state.potential_static_state.spec_constant_mask ∧
    (cb.SetSpecializationConstant num_spec_constants index
        value).pipeline_state.potential_static_state.blend_constants =
      cb.pipeline_state.potential_static_state.blend_constants ∧
    (cb.SetSpecializationConstant num_spec_constants index value).dirty =
      (if cb.pipeline_state.potential_static_state.spec_constants.getD index 0 ≠ value ∧
          cb.pipeline_state.potential_static_state.spec_constant_mask.testBit index = true
        then cb.dirty ||| COMMAND_BUFFER_DIRTY_STATIC_STATE_BIT else cb.dirty) ∧
    (cb.is_dirty COMMAND_BUFFER_DIRTY_STATIC_STATE_BIT = false →
      ((cb.SetSpecializationConstant num_spec_constants index value).is_dirty
          COMMAND_BUFFER_DIRTY_STATIC_STATE_BIT = true ↔
        (cb.pipeline_state.potential_static_state.spec_constants.getD index 0 ≠ value ∧
          cb.pipeline_state.potential_static_state.spec_constant_mask.testBit index = true))) ∧
    ((cb.SetSpecializationConstant num_spec_constants index
          value).pipeline_state.potential_static_state.spec_in_mask ≠
        cb.pipeline_state.potential_static_state.spec_in_mask →
      (cb.SetSpecializationConstant num_spec_constants index value).is_dirty
        COMMAND_BUFFER_DIRTY_STATIC_STATE_BIT = true) ∧
    (∀ m, (cb.SetSpecializationConstantMask num_spec_constants
          m).pipeline_state.potential_static_state.spec_in_mask ≠
        cb.pipeline_state.potential_static_state.spec_in_mask →
      (cb.SetSpecializationConstantMask num_spec_constants m).is_dirty
        COMMAND_BUFFER_DIRTY_STATIC_STATE_BIT = true) := by
  have hi : index < cb.pipeline_state.potential_static_state.spec_constants.length := by
    rw [hlen]
    exact hidx
  have hmaskcall : ∀ m, (cb.SetSpecializationConstantMask num_spec_constants
          m).pipeline_state.potential_static_state.spec_in_mask ≠
        cb.pipeline_state.potential_static_state.spec_in_mask →
      (cb.SetSpecializationConstantMask num_spec_constants m).is_dirty
        COMMAND_BUFFER_DIRTY_STATIC_STATE_BIT = true := by
    intro m h
    apply SetSpecializationConstantMask_dirty_of_change
    intro he
    apply h
    rw [he]
  by_cases hv : cb.pipeline_state.potential_static_state.spec_constants.getD index 0 = value
  · rw [SetSpecializationConstant_of_eq num_spec_constants index value cb hv]
    refine ⟨hv, fun _ _ => rfl, hlen, rfl, rfl, ?_, ?_, ?_, hmaskcall⟩
    · rw [if_neg (fun h => h.1 hv)]
    · intro h0
      rw [h0]
      constructor
      · intro h
        cases h
      · intro h
        exact absurd hv h.1
    · intro h
      exact absurd rfl h
  · by_cases hb : cb.pipeline_state.potential_static_state.spec_constant_mask.testBit index = true
    · rw [SetSpecializationConstant_of_masked num_spec_constants index value cb hmask hv hb]
      have hdirty : ((cb.dirty ||| COMMAND_BUFFER_DIRTY_STATIC_STATE_BIT) &&&
          COMMAND_BUFFER_DIRTY_STATIC_STATE_BIT != 0) = true := by
        rw [lor_land_self]
        rfl
      refine ⟨getD_set_same _ _ _ _ hi, fun j hj => getD_set_other _ _ _ _ _ hj, ?_, rfl, rfl,
        ?_, ?_, ?_, hmaskcall⟩
      · show (cb.pipeline_state.potential_static_state.spec_constants.set index value).length = _
        rw [List.length_set]
        exact hlen
      · rw [if_pos ⟨hv, hb⟩]
      · intro _
        exact ⟨fun _ => ⟨hv, hb⟩, fun _ => hdirty⟩
      · intro _
        exact hdirty
    · have hb2 : cb.pipeline_state.potential_static_state.spec_constant_mask.testBit index =
          false := by simpa using hb
      rw [SetSpecializationConstant_of_unmasked num_spec_constants index value cb hmask hv hb2]
      refine ⟨getD_set_same _ _ _ _ hi, fun j hj => getD_set_other _ _ _ _ _ hj, ?_, rfl, rfl,
        ?_, ?_, ?_, hmaskcall⟩
      · show (cb.pipeline_state.potential_static_state.spec_constants.set index value).length = _
        rw [List.length_set]
        exact hlen
      · rw [if_neg (fun h => hb h.2)]
      · intro h0
        constructor
        · intro h
          have h3 : (cb.dirty &&& COMMAND_BUFFER_DIRTY_STATIC_STATE_BIT != 0) = false := h0
          have h2 : (cb.dirty &&& COMMAND_BUFFER_DIRTY_STATIC_STATE_BIT != 0) = true := h
          rw [h3] at h2
          cases h2
        · intro h
          exact absurd h.2 hb
      · intro hchg
        exfalso
        apply hchg
        show (cb.pipeline_state.potential_static_state.spec_constant_mask,
            fun i => if cb.pipeline_state.potential_static_state.spec_constant_mask.testBit i
              then (cb.pipeline_state.potential_static_state.spec_constants.set index value).getD i 0
              else 0) =
          (cb.pipeline_state.potential_static_state.spec_constant_mask,
            fun i => if cb.pipeline_state.potential_static_state.spec_constant_mask.testBit i
              then cb.pipeline_state.potential_static_state.spec_constants.getD i 0 else 0)
        congr 1
        funext i
        by_cases hii : i = index
        · subst hii
          rw [if_neg hb, if_neg hb]
        · rw [getD_set_other _ _ _ _ _ hii]

/-- C22 on a recorder with eight zero constants and mask `0b100`: writing 7
to constant 2 stores it and marks the static state dirty. -/
theorem C22_specialization_constant_setters_witness :
    ((({ CommandBuffer.zeroed with
          pipeline_state := { CommandBuffer.zeroed.pipeline_state with
            potential_static_state :=
              { blend_constants := [0, 0, 0, 0], spec_constants := [0, 0, 0, 0, 0, 0, 0, 0],
                spec_constant_mask := 4 } } } : CommandBuffer).SetSpecializationConstant 8 2
        7).pipeline_state.potential_static_state.spec_constants.getD 2 0 = 7) ∧
    ((({ CommandBuffer.zeroed with
          pipeline_state := { CommandBuffer.zeroed.pipeline_state with
            potential_static_state :=
              { blend_constants := [0, 0, 0, 0], spec_constants := [0, 0, 0, 0, 0, 0, 0, 0],
                spec_constant_mask := 4 } } } : CommandBuffer).SetSpecializationConstant 8 2
        7).is_dirty COMMAND_BUFFER_DIRTY_STATIC_STATE_BIT = true) :=
  ⟨(C22_specialization_constant_setters 8 2 7
      { CommandBuffer.zeroed with
          pipeline_state := { CommandBuffer.zeroed.pipeline_state with
            potential_static_state :=
              { blend_constants := [0, 0, 0, 0], spec_constants := [0, 0, 0, 0, 0, 0, 0, 0],
                spec_constant_mask := 4 } } }
      (by decide) (by decide) (by decide)).1, by decide⟩

/-! ## Mip levels -/

theorem ImageNumMipLevels_loop_zero (levels : Nat) : ImageNumMipLevels_loop 0 levels = levels := by
  rw [ImageNumMipLevels_loop]
  simp

theorem ImageNumMipLevels_loop_step (size levels : Nat) (h : size ≠ 0) :
    ImageNumMipLevels_loop size levels = ImageNumMipLevels_loop (size >>> 1) (levels + 1) := by
  rw [ImageNumMipLevels_loop]
  simp [h]

theorem ImageNumMipLevels_loop_add (size : Nat) :
    ∀ levels, ImageNumMipLevels_loop size levels = levels + ImageNumMipLevels_loop size 0 := by
  induction size using Nat.strong_induction_on with
  | _ size ih =>
    intro levels
    by_cases h : size = 0
    · subst h
      rw [ImageNumMipLevels_loop_zero, ImageNumMipLevels_loop_zero]
      rfl
    · have hlt : size >>> 1 < size := by
        rw [Nat.shiftRight_eq_div_pow]
        exact Nat.div_lt_self (Nat.pos_of_ne_zero h) (by decide)
      rw [ImageNumMipLevels_loop_step size levels h, ImageNumMipLevels_loop_step size 0 h,
        ih _ hlt (levels + 1), ih _ hlt (0 + 1)]
      omega

/-- The loop counts the binary digits of `size`: the result `L` has
`size < 2 ^ L`, and `2 ^ (L - 1) ≤ size` unless `L = 0`. -/
theorem ImageNumMipLevels_loop_bounds (size : Nat) :
    size < 2 ^ ImageNumMipLevels_loop size 0 ∧
    (ImageNumMipLevels_loop size 0 ≠ 0 → 2 ^ (ImageNumMipLevels_loop size 0 - 1) ≤ size) := by
  induction size using Nat.strong_induction_on with
  | _ size ih =>
    by_cases h : size = 0
    · subst h
      rw [ImageNumMipLevels_loop_zero]
      exact ⟨by decide, fun h => absurd rfl h⟩
    · have hlt : size >>> 1 < size := by
        rw [Nat.shiftRight_eq_div_pow]
        exact Nat.div_lt_self (Nat.pos_of_ne_zero h) (by decide)
      obtain ⟨h1, h2⟩ := ih _ hlt
      rw [ImageNumMipLevels_loop_step size 0 h, ImageNumMipLevels_loop_add (size >>> 1) (0 + 1)]
      have hs : size >>> 1 = size / 2 := by
        rw [Nat.shiftRight_eq_div_pow]
      rw [hs] at h1 h2 ⊢
      generalize ImageNumMipLevels_loop (size / 2) 0 = k at h1 h2 ⊢
      have e1 : 0 + 1 + k = k + 1 := by omega
      rw [e1]
      constructor
      · rw [Nat.pow_succ]
        omega
      · intro _
        rw [Nat.add_sub_cancel]
        by_cases hk : k = 0
        · subst hk
          have : 0 < size := Nat.pos_of_ne_zero h
          simpa using this
        · have h3 := h2 hk
          have e2 : (2 : Nat) ^ k = 2 ^ (k - 1) * 2 := by
            rw [← Nat.pow_succ]
            congr 1
            omega
          rw [e2]
          omega

theorem shiftRight_eq_zero_iff_lt (m k : Nat) : m >>> k = 0 ↔ m < 2 ^ k := by
  rw [Nat.shiftRight_eq_div_pow]
  exact Nat.div_eq_zero_iff (Nat.two_pow_pos _)

theorem ImageNumMipLevels_loop_least (size k : Nat) (h : size < 2 ^ k) :
    ImageNumMipLevels_loop size 0 ≤ k := by
  have hb := (ImageNumMipLevels_loop_bounds size).2
  by_contra hn
  have hne : ImageNumMipLevels_loop size 0 ≠ 0 := by omega
  have h2 := hb hne
  have h3 : (2 : Nat) ^ k ≤ 2 ^ (ImageNumMipLevels_loop size 0 - 1) :=
    Nat.pow_le_pow_right (by decide) (by omega)
  omega

theorem ImageNumMipLevels_loop_eq (size k : Nat) (h1 : 2 ^ k ≤ size) (h2 : size < 2 ^ (k + 1)) :
    ImageNumMipLevels_loop size 0 = k + 1 := by
  apply Nat.le_antisymm (ImageNumMipLevels_loop_least size (k + 1) h2)
  by_contra hn
  have hb := (ImageNumMipLevels_loop_bounds size).1
  have h3 : (2 : Nat) ^ ImageNumMipLevels_loop size 0 ≤ 2 ^ k :=
    Nat.pow_le_pow_right (by decide) (by omega)
  omega

theorem ImageNumMipLevels_loop_pos (size : Nat) (h : size ≠ 0) :
    ImageNumMipLevels_loop size 0 ≠ 0 := by
  intro h0
  have hb := (ImageNumMipLevels_loop_bounds size).1
  rw [h0] at hb
  have : size = 0 := by simpa using hb
  exact h this

/-- C27: `ImageNumMipLevels` is a total function. It returns 0 exactly when
the three dimensions are 0, and `floor(log2 m) + 1` for the largest dimension
`m` otherwise; the result `L` is the least number with `m >> L = 0`. For 32-bit
dimensions it is at most 32, and it does not decrease when a dimension
grows. -/
theorem C27_image_num_mip_levels (extent : VkExtent3D)
    (hw : extent.width < 2 ^ 32) (hh : extent.height < 2 ^ 32) (hd : extent.depth < 2 ^ 32) :
    (extent.width = 0 ∧ extent.height = 0 ∧ extent.depth = 0 → ImageNumMipLevels extent = 0) ∧
    (ImageNumMipLevels extent = 0 → extent.width = 0 ∧ extent.height = 0 ∧ extent.depth = 0) ∧
    (¬ (extent.width = 0 ∧ extent.height = 0 ∧ extent.depth = 0) →
      ImageNumMipLevels extent =
        Nat.log 2 (max (max extent.width extent.height) extent.depth) + 1) ∧
    (∀ k, 2 ^ k ≤ max (max extent.width extent.height) extent.depth →
      max (max extent.width extent.height) extent.depth < 2 ^ (k + 1) →
      ImageNumMipLevels extent = k + 1) ∧
    (max (max extent.width extent.height) extent.depth) >>> ImageNumMipLevels extent = 0 ∧
    (∀ k, (max (max extent.width extent.height) extent.depth) >>> k = 0 →
      ImageNumMipLevels extent ≤ k) ∧
    ImageNumMipLevels extent ≤ 32 ∧
    (∀ other : VkExtent3D, extent.width ≤ other.width → extent.height ≤ other.height →
      extent.depth ≤ other.depth → ImageNumMipLevels extent ≤ ImageNumMipLevels other) := by
  have hb := ImageNumMipLevels_loop_bounds (max (max extent.width extent.height) extent.depth)
  have hm : max (max extent.width extent.height) extent.depth < 2 ^ 32 := by
    simp only [max_lt_iff]
    exact ⟨⟨hw, hh⟩, hd⟩
  refine ⟨?_, ?_, ?_, ?_, ?_, ?_, ?_, ?_⟩
  · rintro ⟨h1, h2, h3⟩
    show ImageNumMipLevels_loop (max (max extent.width extent.height) extent.depth) 0 = 0
    rw [h1, h2, h3]
    exact ImageNumMipLevels_loop_zero 0
  · intro h0
    have h1 : max (max extent.width extent.height) extent.depth < 2 ^ 0 := by
      have := hb.1
      rw [show ImageNumMipLevels_loop (max (max extent.width extent.height) extent.depth) 0 =
        ImageNumMipLevels extent from rfl, h0] at this
      exact this
    simp only [pow_zero, Nat.lt_one_iff] at h1
    have h2 := le_max_left (max extent.width extent.height) extent.depth
    have h3 := le_max_right (max extent.width extent.height) extent.depth
    have h4 := le_max_left extent.width extent.height
    have h5 := le_max_right extent.width extent.height
    omega
  · intro hnz
    have hne : max (max extent.width extent.height) extent.depth ≠ 0 := by
      intro h0
      have h2 := le_max_left (max extent.width extent.height) extent.depth
      have h3 := le_max_right (max extent.width extent.height) extent.depth
      have h4 := le_max_left extent.width extent.height
      have h5 := le_max_right extent.width extent.height
      apply hnz
      omega
    show ImageNumMipLevels_loop (max (max extent.width extent.height) extent.depth) 0 = _
    exact ImageNumMipLevels_loop_eq _ _ (Nat.pow_log_le_self 2 hne)
      (Nat.lt_pow_succ_log_self (by decide) _)
  · intro k h1 h2
    exact ImageNumMipLevels_loop_eq _ k h1 h2
  · exact (shiftRight_eq_zero_iff_lt _ _).mpr hb.1
  · intro k hk
    exact ImageNumMipLevels_loop_least _ k ((shiftRight_eq_zero_iff_lt _ _).mp hk)
  · exact ImageNumMipLevels_loop_least _ 32 hm
  · intro other h1 h2 h3
    apply ImageNumMipLevels_loop_least
    have hle : max (max extent.width extent.height) extent.depth ≤
        max (max other.width other.height) other.depth :=
      max_le_max (max_le_max h1 h2) h3
    exact lt_of_le_of_lt hle
      (ImageNumMipLevels_loop_bounds (max (max other.width other.height) other.depth)).1

/-- C27 on a 1920x1080 image of depth 1: eleven levels. -/
theorem C27_image_num_mip_levels_witness :
    ImageNumMipLevels { width := 1920, height := 1080, depth := 1 } = 11 :=
  (C27_image_num_mip_levels { width := 1920, height := 1080, depth := 1 }
    (by decide) (by decide) (by decide)).2.2.2.1 10 (by decide) (by decide)

theorem shiftRight_le_shiftRight (x y k : Nat) (h : x ≤ y) : x >>> k ≤ y >>> k := by
  rw [Nat.shiftRight_eq_div_pow, Nat.shiftRight_eq_div_pow]
  exact Nat.div_le_div_right h

theorem shiftRight_antitone (x j k : Nat) (h : j ≤ k) : x >>> k ≤ x >>> j := by
  rw [Nat.shiftRight_eq_div_pow, Nat.shiftRight_eq_div_pow]
  exact Nat.div_le_div_left (Nat.pow_le_pow_right (by decide) h) (Nat.two_pow_pos _)

/-- At the last level every dimension up to the largest one has shrunk to at
most 1. -/
theorem shiftRight_last_level (x m : Nat) (hx : x ≤ m) (hm : m ≠ 0) :
    x >>> (ImageNumMipLevels_loop m 0 - 1) ≤ 1 := by
  have hb := (ImageNumMipLevels_loop_bounds m).1
  have hp := ImageNumMipLevels_loop_pos m hm
  have e : ImageNumMipLevels_loop m 0 = (ImageNumMipLevels_loop m 0 - 1) + 1 := by omega
  rw [e, Nat.pow_succ] at hb
  rw [Nat.shiftRight_eq_div_pow]
  have h2 : x / 2 ^ (ImageNumMipLevels_loop m 0 - 1) < 2 := by
    rw [Nat.div_lt_iff_lt_mul (Nat.two_pow_pos _)]
    omega
  omega

/-- Before the last level the largest dimension is still at least 2. -/
theorem shiftRight_before_last_level (m lod : Nat) (hlod : lod < ImageNumMipLevels_loop m 0 - 1) :
    2 ≤ m >>> lod := by
  have hne : ImageNumMipLevels_loop m 0 ≠ 0 := by omega
  have hb := (ImageNumMipLevels_loop_bounds m).2 hne
  rw [Nat.shiftRight_eq_div_pow, Nat.le_div_iff_mul_le (Nat.two_pow_pos _)]
  have h3 : (2 : Nat) ^ (lod + 1) ≤ 2 ^ (ImageNumMipLevels_loop m 0 - 1) :=
    Nat.pow_le_pow_right (by decide) (by omega)
  rw [Nat.pow_succ] at h3
  omega

/-- C28: for an image with 32-bit dimensions that are not all zero and
`L = ImageNumMipLevels` of its extent, `L` is between 1 and 32,
`GetWidth(L - 1)`, `GetHeight(L - 1)` and `GetDepth(L - 1)` are all 1, and for
every `lod < L - 1` one of the three getters is greater than 1; for every
`lod < 32` each getter is at least 1 and does not increase with `lod`. -/
theorem C28_mip_chain_ends_at_one (image : Image)
    (hw : image.create_info.width < 2 ^ 32) (hh : image.create_info.height < 2 ^ 32)
    (hd : image.create_info.depth < 2 ^ 32)
    (hnz : ¬ (image.create_info.width = 0 ∧ image.create_info.height = 0 ∧
      image.create_info.depth = 0)) :
    1 ≤ ImageNumMipLevels (VkExtent3D.mk image.create_info.width
        image.create_info.height image.create_info.depth) ∧
    ImageNumMipLevels (VkExtent3D.mk image.create_info.width
        image.create_info.height image.create_info.depth) ≤ 32 ∧
    image.GetWidth (ImageNumMipLevels (VkExtent3D.mk image.create_info.width
        image.create_info.height image.create_info.depth) - 1) = 1 ∧
    image.GetHeight (ImageNumMipLevels (VkExtent3D.mk image.create_info.width
        image.create_info.height image.create_info.depth) - 1) = 1 ∧
    image.GetDepth (ImageNumMipLevels (VkExtent3D.mk image.create_info.width
        image.create_info.height image.create_info.depth) - 1) = 1 ∧
    (∀ lod, lod < ImageNumMipLevels (VkExtent3D.mk image.create_info.width
        image.create_info.height image.create_info.depth) - 1 →
      1 < image.GetWidth lod ∨ 1 < image.GetHeight lod ∨ 1 < image.GetDepth lod) ∧
    (∀ lod, lod < 32 →
      1 ≤ image.GetWidth lod ∧ 1 ≤ image.GetHeight lod ∧ 1 ≤ image.GetDepth lod) ∧
    (∀ lod lod2, lod ≤ lod2 → lod2 < 32 →
      image.GetWidth lod2 ≤ image.GetWidth lod ∧ image.GetHeight lod2 ≤ image.GetHeight lod ∧
        image.GetDepth lod2 ≤ image.GetDepth lod) := by
  have hwm : image.create_info.width ≤
      max (max image.create_info.width image.create_info.height) image.create_info.depth :=
    le_trans (le_max_left _ _) (le_max_left _ _)
  have hhm : image.create_info.height ≤
      max (max image.create_info.width image.create_info.height) image.create_info.depth :=
    le_trans (le_max_right _ _) (le_max_left _ _)
  have hdm : image.create_info.depth ≤
      max (max image.create_info.width image.create_info.height) image.create_info.depth :=
    le_max_right _ _
  have hne : max (max image.create_info.width image.create_info.height)
      image.create_info.depth ≠ 0 := by
    intro h0
    apply hnz
    omega
  have hm : max (max image.create_info.width image.create_info.height)
      image.create_info.depth < 2 ^ 32 := by
    simp only [max_lt_iff]
    exact ⟨⟨hw, hh⟩, hd⟩
  show 1 ≤ ImageNumMipLevels_loop (max (max image.create_info.width image.create_info.height)
        image.create_info.depth) 0 ∧
    ImageNumMipLevels_loop (max (max image.create_info.width image.create_info.height)
        image.create_info.depth) 0 ≤ 32 ∧
    max 1 (image.create_info.width >>> (ImageNumMipLevels_loop
      (max (max image.create_info.width image.create_info.height)
        image.create_info.depth) 0 - 1)) = 1 ∧
    max 1 (image.create_info.height >>> (ImageNumMipLevels_loop
      (max (max image.create_info.width image.create_info.height)
        image.create_info.depth) 0 - 1)) = 1 ∧
    max 1 (image.create_info.depth >>> (ImageNumMipLevels_loop
      (max (max image.create_info.width image.create_info.height)
        image.create_info.depth) 0 - 1)) = 1 ∧
    (∀ lod, lod < ImageNumMipLevels_loop
        (max (max image.create_info.width image.create_info.height)
          image.create_info.depth) 0 - 1 →
      1 < max 1 (image.create_info.width >>> lod) ∨
        1 < max 1 (image.create_info.height >>> lod) ∨
        1 < max 1 (image.create_info.depth >>> lod)) ∧
    (∀ lod, lod < 32 →
      1 ≤ max 1 (image.create_info.width >>> lod) ∧
        1 ≤ max 1 (image.create_info.height >>> lod) ∧
        1 ≤ max 1 (image.create_info.depth >>> lod)) ∧
    (∀ lod lod2, lod ≤ lod2 → lod2 < 32 →
      max 1 (image.create_info.width >>> lod2) ≤ max 1 (image.create_info.width >>> lod) ∧
        max 1 (image.create_info.height >>> lod2) ≤ max 1 (image.create_info.height >>> lod) ∧
        max 1 (image.create_info.depth >>> lod2) ≤ max 1 (image.create_info.depth >>> lod))
  refine ⟨?_, ImageNumMipLevels_loop_least _ 32 hm, ?_, ?_, ?_, ?_, ?_, ?_⟩
  · have := ImageNumMipLevels_loop_pos _ hne
    omega
  · exact max_eq_left (shiftRight_last_level _ _ hwm hne)
  · exact max_eq_left (shiftRight_last_level _ _ hhm hne)
  · exact max_eq_left (shiftRight_last_level _ _ hdm hne)
  · intro lod hlod
    have h2 := shiftRight_before_last_level _ lod hlod
    rcases max_choice (max image.create_info.width image.create_info.height)
      image.create_info.depth with h | h
    · rcases max_choice image.create_info.width image.create_info.height with h3 | h3
      · rw [h, h3] at h2
        exact Or.inl (lt_of_lt_of_le h2 (le_max_right _ _))
      · rw [h, h3] at h2
        exact Or.inr (Or.inl (lt_of_lt_of_le h2 (le_max_right _ _)))
    · rw [h] at h2
      exact Or.inr (Or.inr (lt_of_lt_of_le h2 (le_max_right _ _)))
  · intro lod _
    exact ⟨le_max_left _ _, le_max_left _ _, le_max_left _ _⟩
  · intro lod lod2 hle _
    exact ⟨max_le_max (le_refl 1) (shiftRight_antitone _ _ _ hle),
      max_le_max (le_refl 1) (shiftRight_antitone _ _ _ hle),
      max_le_max (le_refl 1) (shiftRight_antitone _ _ _ hle)⟩

/-- C28 on a 4x2 image of depth 1: three levels, the last one 1x1x1, the one
before it 2 wide. -/
theorem C28_mip_chain_ends_at_one_witness :
    Image.GetWidth { create_info := { width := 4, height := 2, depth := 1 } }
      (ImageNumMipLevels { width := 4, height := 2, depth := 1 } - 1) = 1 ∧
    Image.GetWidth { create_info := { width := 4, height := 2, depth := 1 } } 1 = 2 :=
  ⟨(C28_mip_chain_ends_at_one { create_info := { width := 4, height := 2, depth := 1 } }
      (by decide) (by decide) (by decide) (by decide)).2.2.1, by decide⟩

end Vulkan
